import Mathlib

/-!
# ESP32-S3-CAM motion and face alerting pipeline

Shallow embedding of the firmware sources under `main/`:

* `motion_detector.c`: adaptive baseline frame differencing and the
  RGB565 to luminance projection,
* `face_detector.c`: the skin-tone predicate, the cell grid and the window
  scan of `find_skin_regions`, and `face_detector_detect`,
* `telegram_bot.c`: cooldown gate and the photo and text senders,
* `main.c`: one iteration of `detection_task` and one iteration of
  `telegram_notification_task`, with the bounded FreeRTOS queue in between.

Conventions.  A C pointer is an `Option`: `none` is `NULL`, `some v` points to
the value `v`.  A byte buffer is a `List Nat`; a store through `uint8_t` is
written `% 256`, a `uint32_t` counter increment `% 2 ^ 32`.  Calls into the
camera driver, the allocator, the LED module and the messaging client are
recorded, in program order, in a list of `effect`s.  Results of calls that
leave the repository (JPEG encoder, HTTP client, clock, allocator) are inputs
of the step functions.  Logging calls have no influence on data or control
flow and are left out.
-/

namespace Esp32Cam

/-! ## ESP-IDF base types -/

/-- Modelled from the spec: the error type `esp_err_t` lives in the ESP-IDF
header `esp_err.h`, which is not part of the repository.  The spec only
distinguishes success from failure; the constructors are the codes that the
sources name. -/
inductive esp_err_t where
  | ESP_OK
  | ESP_FAIL
  | ESP_ERR_NO_MEM
  | ESP_ERR_INVALID_ARG
  | ESP_ERR_INVALID_STATE
  | ESP_ERR_INVALID_SIZE
  | ESP_ERR_HTTP (code : Nat)
deriving DecidableEq, Repr

/-! ## The C type `float`

The target stores `float` as IEEE-754 binary32 and rounds to nearest, ties to
even.  A finite value `fin neg m e` denotes `(-1)^neg * m * 2^e` with
`m < 2^24` and `-149 ≤ e ≤ 104`; `m < 2^23` only when `e = -149`. -/

/-- Values of the C type float (IEEE-754 binary32). -/
inductive float32 where
  | nan : float32
  | inf (neg : Bool) : float32
  | fin (neg : Bool) (m : Nat) (e : Int) : float32
deriving DecidableEq, Repr

/-- Number of binary digits of `n`, by structural recursion on the fuel. -/
def bit_length : Nat → Nat → Nat
  | 0, _ => 0
  | fuel + 1, n => if n = 0 then 0 else bit_length fuel (n / 2) + 1

/-- The binary exponent of the last mantissa bit when the positive rational
`p / q` is written with 24 significant bits: `floor (log2 (p / q)) - 23`, and
`-149` in the subnormal range. -/
def float32_exponent (p q : Nat) : Int :=
  let k : Int := (bit_length p p : Int) - (bit_length q q : Int)
  let lb : Int := if q * 2 ^ k.toNat ≤ p * 2 ^ (-k).toNat then k else k - 1
  max (lb - 23) (-149)

/-- Round `p / q` to a multiple of `2^e`, nearest value, ties to even, and
build the float; a mantissa that rounds up to `2^24` moves to the next
exponent, an exponent above 104 overflows to infinity. -/
def float32_pack (neg : Bool) (p q : Nat) (e : Int) : float32 :=
  let num := p * 2 ^ (-e).toNat
  let den := q * 2 ^ e.toNat
  let m0 := num / den
  let r := num % den
  let m := if den < 2 * r ∨ (2 * r = den ∧ m0 % 2 = 1) then m0 + 1 else m0
  let m1 := if m = 2 ^ 24 then 2 ^ 23 else m
  let e1 := if m = 2 ^ 24 then e + 1 else e
  if 104 < e1 then float32.inf neg else float32.fin neg m1 e1

/-- Round the non-negative rational `p / q` (with `0 < q`) to binary32,
nearest value, ties to even, with gradual underflow and overflow to infinity. -/
def float32_round (neg : Bool) (p q : Nat) : float32 :=
  if p = 0 then float32.fin neg 0 (-149) else float32_pack neg p q (float32_exponent p q)

/-- Conversion `(float)n` of an unsigned integer. -/
def float32_of_nat (n : Nat) : float32 := float32_round false n 1

/-- Conversion `(float)z` of a signed integer. -/
def float32_of_int (z : Int) : float32 := float32_round (decide (z < 0)) z.natAbs 1

/-- The literal `0.0f`. -/
def float32_zero : float32 := float32.fin false 0 (-149)

/-- The literal `100.0f`. -/
def float32_hundred : float32 := float32_of_nat 100

/-- Division `x / y` on float. -/
def float32_div : float32 → float32 → float32
  | float32.nan, _ => float32.nan
  | _, float32.nan => float32.nan
  | float32.inf _, float32.inf _ => float32.nan
  | float32.inf s, float32.fin t _ _ => float32.inf (xor s t)
  | float32.fin s _ _, float32.inf t => float32.fin (xor s t) 0 (-149)
  | float32.fin s m e, float32.fin t n f =>
    if n = 0 then (if m = 0 then float32.nan else float32.inf (xor s t))
    else float32_round (xor s t) (m * 2 ^ (e - f).toNat) (n * 2 ^ (f - e).toNat)

/-- Multiplication `x * y` on float. -/
def float32_mul : float32 → float32 → float32
  | float32.nan, _ => float32.nan
  | _, float32.nan => float32.nan
  | float32.inf s, float32.inf t => float32.inf (xor s t)
  | float32.inf s, float32.fin t n _ => if n = 0 then float32.nan else float32.inf (xor s t)
  | float32.fin s m _, float32.inf t => if m = 0 then float32.nan else float32.inf (xor s t)
  | float32.fin s m e, float32.fin t n f =>
    float32_round (xor s t) (m * n * 2 ^ (e + f).toNat) (2 ^ (-(e + f)).toNat)

/-- Comparison `x >= y` on float: false as soon as one side is a NaN. -/
def float32_ge : float32 → float32 → Bool
  | float32.nan, _ => false
  | _, float32.nan => false
  | float32.inf s, float32.inf t => !s || t
  | float32.inf s, float32.fin _ _ _ => !s
  | float32.fin _ _ _, float32.inf t => t
  | float32.fin s m e, float32.fin t n f =>
    let a : Int := (if s then -1 else 1) * ((m * 2 ^ (e - f).toNat : Nat) : Int)
    let b : Int := (if t then -1 else 1) * ((n * 2 ^ (f - e).toNat : Nat) : Int)
    decide (b ≤ a)

/-! ## motion_detector.c -/

/-- The struct `motion_result_t` of `motion_detector.h`. -/
structure motion_result_t where
  detected : Bool
  change_percentage : float32
  changed_pixels : Nat
deriving DecidableEq, Repr

/-- The file-scope variables of `motion_detector.c`. -/
structure motion_state where
  s_prev_frame : Option (List Nat)
  s_frame_size : Nat
  s_width : Int
  s_height : Int
  s_threshold : Int
  s_change_threshold : float32
  s_has_baseline : Bool
deriving DecidableEq, Repr

/-- Values of the file-scope variables at program start. -/
def motion_state_boot : motion_state :=
  { s_prev_frame := none, s_frame_size := 0, s_width := 0, s_height := 0,
    s_threshold := 15, s_change_threshold := float32_of_nat 5, s_has_baseline := false }

/-- Conversion of an `int` to the 32-bit `size_t` of the target. -/
def size_t_of_int (z : Int) : Nat := (z % 2 ^ 32).toNat

/-- A call `malloc(size)` or `heap_caps_malloc(size, caps)`: `none` when the
heap is exhausted, otherwise a block of `size` bytes whose contents are
whatever the heap held (`junk`). -/
def malloc (size : Nat) (heap : Option (Nat → Nat)) : Option (List Nat) :=
  heap.map (fun junk => (List.range size).map (fun i => junk i % 256))

/-- The call `memcpy(dst, src, n)` on byte buffers. -/
def memcpy (dst src : List Nat) (n : Nat) : List Nat :=
  src.take n ++ dst.drop n

/-- Function `motion_detector_init`; `psram` and `ram` are the states of the
two heaps the function tries in turn. -/
def motion_detector_init (st : motion_state) (width height threshold : Int)
    (change_threshold : float32) (psram ram : Option (Nat → Nat)) :
    motion_state × esp_err_t :=
  let st1 : motion_state :=
    { st with s_width := width, s_height := height, s_threshold := threshold,
              s_change_threshold := change_threshold,
              s_frame_size := size_t_of_int (width * height) }
  let p := match malloc st1.s_frame_size psram with
    | some b => some b
    | none => malloc st1.s_frame_size ram
  let st2 : motion_state := { st1 with s_prev_frame := p }
  match p with
  | none => (st2, esp_err_t.ESP_ERR_NO_MEM)
  | some _ => ({ st2 with s_has_baseline := false }, esp_err_t.ESP_OK)

/-- First loop of `motion_detector_process`: count the pixels whose absolute
difference to the baseline exceeds the pixel threshold. -/
def count_changed (grayscale_data prev : List Nat) (threshold : Int) (size : Nat) : Nat :=
  (List.range size).foldl
    (fun changed i =>
      let diff : Int := Int.natAbs ((grayscale_data.getD i 0 : Int) - (prev.getD i 0 : Int))
      if threshold < diff then (changed + 1) % 2 ^ 32 else changed)
    0

/-- Second loop of `motion_detector_process`: blend the sample into the
baseline, nine parts old and one part new. -/
def blend_baseline (grayscale_data prev : List Nat) (size : Nat) : List Nat :=
  (List.range size).foldl
    (fun p i => p.set i ((p.getD i 0 * 9 + grayscale_data.getD i 0) / 10 % 256))
    prev

/-- The initial value of the local `result` in `motion_detector_process`. -/
def motion_result_none : motion_result_t :=
  { detected := false, change_percentage := float32_zero, changed_pixels := 0 }

/-- Function `motion_detector_process`. -/
def motion_detector_process (st : motion_state) (grayscale_data : Option (List Nat))
    (size : Nat) : motion_state × motion_result_t :=
  let result := motion_result_none
  match st.s_prev_frame, grayscale_data with
  | none, _ => (st, result)
  | some _, none => (st, result)
  | some prev, some data =>
    if size ≠ st.s_frame_size then (st, result)
    else if !st.s_has_baseline then
      ({ st with s_prev_frame := some (memcpy prev data size), s_has_baseline := true }, result)
    else
      let changed := count_changed data prev st.s_threshold size
      let pct := float32_mul (float32_div (float32_of_nat changed) (float32_of_nat size))
        float32_hundred
      let result1 : motion_result_t :=
        { detected := float32_ge pct st.s_change_threshold,
          change_percentage := pct, changed_pixels := changed }
      ({ st with s_prev_frame := some (blend_baseline data prev size) }, result1)

/-- Function `motion_detector_reset`. -/
def motion_detector_reset (st : motion_state) : motion_state :=
  { st with s_has_baseline := false }

/-- Function `motion_detector_set_threshold`. -/
def motion_detector_set_threshold (st : motion_state) (threshold : Int) : motion_state :=
  { st with s_threshold := threshold }

/-- Function `motion_detector_deinit`. -/
def motion_detector_deinit (st : motion_state) : motion_state :=
  { st with s_prev_frame := none, s_frame_size := 0, s_has_baseline := false }

/-- Function `rgb565_to_grayscale`: returns the status and the contents of the
output buffer after the call. -/
def rgb565_to_grayscale (rgb565_data : Option (List Nat)) (rgb565_size : Nat)
    (gray_data : Option (List Nat)) (gray_size : Nat) : esp_err_t × Option (List Nat) :=
  match rgb565_data, gray_data with
  | none, _ => (esp_err_t.ESP_ERR_INVALID_ARG, gray_data)
  | some _, none => (esp_err_t.ESP_ERR_INVALID_ARG, gray_data)
  | some src, some dst =>
    let pixel_count := rgb565_size / 2
    if gray_size < pixel_count then (esp_err_t.ESP_ERR_INVALID_SIZE, some dst)
    else
      (esp_err_t.ESP_OK,
        some ((List.range pixel_count).foldl
          (fun gray i =>
            let pixel := ((src.getD (i * 2 + 1) 0 <<< 8) ||| src.getD (i * 2) 0) % 2 ^ 16
            let r := ((pixel >>> 11) &&& 0x1F) % 256
            let g := ((pixel >>> 5) &&& 0x3F) % 256
            let b := (pixel &&& 0x1F) % 256
            let r8 := ((r <<< 3) ||| (r >>> 2)) % 256
            let g8 := ((g <<< 2) ||| (g >>> 4)) % 256
            let b8 := ((b <<< 3) ||| (b >>> 2)) % 256
            gray.set i (((r8 * 77 + g8 * 150 + b8 * 29) >>> 8) % 256))
          dst))

/-! ## face_detector.c -/

/-- The struct `face_box_t` of `face_detector.c`. -/
structure face_box_t where
  x : Int
  y : Int
  w : Int
  h : Int
deriving DecidableEq, Repr

/-- The struct `face_result_t` of `face_detector.h`. -/
structure face_result_t where
  detected : Bool
  face_count : Int
  x : Int
  y : Int
  width : Int
  height : Int
deriving DecidableEq, Repr

/-- The file-scope variables of `face_detector.c`. -/
structure face_state where
  s_initialized : Bool
  s_min_face_size : Int
deriving DecidableEq, Repr

/-- Values of the file-scope variables at program start. -/
def face_state_boot : face_state := { s_initialized := false, s_min_face_size := 48 }

/-- The constant `MAX_FACES`. -/
def MAX_FACES : Nat := 5

/-- Function `face_detector_init`. -/
def face_detector_init (st : face_state) : face_state × esp_err_t :=
  if st.s_initialized then (st, esp_err_t.ESP_OK)
  else ({ st with s_initialized := true }, esp_err_t.ESP_OK)

/-- Function `face_detector_set_min_size`. -/
def face_detector_set_min_size (st : face_state) (size : Int) : face_state :=
  { st with s_min_face_size := size }

/-- Function `face_detector_deinit`. -/
def face_detector_deinit (st : face_state) : face_state :=
  { st with s_initialized := false }

/-- Function `is_skin_tone_rgb565` on a 16-bit pixel. -/
def is_skin_tone_rgb565 (pixel : Nat) : Bool :=
  let r5 := ((pixel >>> 11) &&& 0x1F) % 256
  let g6 := ((pixel >>> 5) &&& 0x3F) % 256
  let b5 := (pixel &&& 0x1F) % 256
  let r := ((r5 <<< 3) ||| (r5 >>> 2)) % 256
  let g := ((g6 <<< 2) ||| (g6 >>> 4)) % 256
  let b := ((b5 <<< 3) ||| (b5 >>> 2)) % 256
  decide (60 < r) && decide (40 < g) && decide (20 < b) &&
    decide (g < r) && decide (b < r) &&
    decide (10 < Int.natAbs ((r : Int) - (g : Int))) &&
    decide ((r : Int) - (g : Int) < 100)

/-- The 16-bit pixel that `find_skin_regions` reads at column `x` of row `y`:
`idx = (y * width + x) * 2`, low byte first. -/
def rgb565_pixel_at (rgb565_data : List Nat) (width : Int) (y x : Nat) : Nat :=
  let idx := (((y : Int) * width + (x : Int)) * 2).toNat
  ((rgb565_data.getD (idx + 1) 0 <<< 8) ||| rgb565_data.getD idx 0) % 2 ^ 16

/-- The two innermost loops of the first part of `find_skin_regions` for the
grid cell `(gx, gy)`: the pair `(skin_count, total)` after the loops. -/
def cell_skin_count (rgb565_data : List Nat) (width height : Int) (gy gx : Nat) : Nat × Nat :=
  ((List.range' (gy * 8) 8).takeWhile (fun (y : Nat) => decide ((y : Int) < height))).foldl
    (fun acc y =>
      ((List.range' (gx * 8) 8).takeWhile (fun (x : Nat) => decide ((x : Int) < width))).foldl
        (fun acc x =>
          (if is_skin_tone_rgb565 (rgb565_pixel_at rgb565_data width y x) then acc.1 + 1
            else acc.1,
           acc.2 + 1))
        acc)
    (0, 0)

/-- The first part of `find_skin_regions`: mark every grid cell in which more
than half of the pixels are skin-like. -/
def mark_skin_cells (rgb565_data : List Nat) (width height grid_w grid_h : Int)
    (grid : List Nat) : List Nat :=
  (List.range grid_h.toNat).foldl
    (fun grid gy =>
      (List.range grid_w.toNat).foldl
        (fun grid gx =>
          let counts := cell_skin_count rgb565_data width height gy gx
          if counts.2 / 2 < counts.1 then grid.set (((gy : Int) * grid_w + (gx : Int)).toNat) 1
          else grid)
        grid)
    grid

/-- A C loop `for (i = start; cond; i++) body` whose body may also advance
`i`; the fuel bounds the number of iterations. -/
def for_loop {σ : Type} (cond : Nat → σ → Bool) (body : Nat → σ → Nat × σ) :
    Nat → Nat → σ → σ
  | 0, _, s => s
  | fuel + 1, i, s =>
    if cond i s then for_loop cond body fuel ((body i s).1 + 1) (body i s).2 else s

/-- The variables that the second part of `find_skin_regions` changes: the
array `faces`, the counter `face_count`, and, as a record of the stores into
`faces`, the list of indices written so far. -/
structure scan_state where
  faces : List face_box_t
  face_count : Nat
  writes : List Nat
deriving DecidableEq, Repr

/-- The value a read outside an array would give; no read of the model leaves
its array. -/
def face_box_zero : face_box_t := { x := 0, y := 0, w := 0, h := 0 }

/-- The number of marked cells in the 4 x 4 window at `(gx, gy)`. -/
def cluster_count (grid : List Nat) (grid_w : Int) (gy gx : Nat) : Nat :=
  (List.range 4).foldl
    (fun (cluster : Nat) (dy : Nat) =>
      (List.range 4).foldl
        (fun (cluster : Nat) (dx : Nat) =>
          if grid.getD ((((gy + dy : Nat) : Int) * grid_w + (gx : Int) + (dx : Int)).toNat) 0 ≠ 0
          then cluster + 1 else cluster)
        cluster)
    0

/-- The body of the inner scan loop of `find_skin_regions` at the window
`(gx, gy)`: the value of `gx` and the state at the end of the body. -/
def scan_window (grid : List Nat) (grid_w min_face_size : Int) (gy gx : Nat)
    (s : scan_state) : Nat × scan_state :=
  if 10 ≤ cluster_count grid grid_w gy gx then
    let faces1 := s.faces.set s.face_count
      { x := (gx : Int) * 8, y := (gy : Int) * 8, w := 4 * 8, h := 4 * 8 }
    let writes1 := s.writes ++ [s.face_count]
    let cand := faces1.getD s.face_count face_box_zero
    let overlap := (List.range s.face_count).any (fun i =>
      decide (((Int.natAbs ((faces1.getD i face_box_zero).x - cand.x) : Nat) : Int)
        < min_face_size) &&
      decide (((Int.natAbs ((faces1.getD i face_box_zero).y - cand.y) : Nat) : Int)
        < min_face_size))
    if !overlap && decide (min_face_size ≤ cand.w) then
      (gx + 3, { faces := faces1, face_count := s.face_count + 1, writes := writes1 })
    else (gx, { faces := faces1, face_count := s.face_count, writes := writes1 })
  else (gx, s)

/-- The inner scan loop of `find_skin_regions` for the grid row `gy`, entered
at column `gx` with the given fuel. -/
def scan_row_from (grid : List Nat) (grid_w min_face_size max_faces : Int) (gy : Nat)
    (fuel gx : Nat) (s : scan_state) : scan_state :=
  for_loop
    (fun gx s => decide ((gx : Int) < grid_w - 3) && decide ((s.face_count : Int) < max_faces))
    (fun gx s => scan_window grid grid_w min_face_size gy gx s)
    fuel gx s

/-- The inner scan loop of `find_skin_regions` for the grid row `gy`:
`for (gx = 0; gx < grid_w - 3 && face_count < max_faces; gx++)`. -/
def scan_row (grid : List Nat) (grid_w min_face_size max_faces : Int) (gy : Nat)
    (s : scan_state) : scan_state :=
  scan_row_from grid grid_w min_face_size max_faces gy (grid_w - 3).toNat 0 s

/-- The outer scan loop of `find_skin_regions`, entered at row `gy` with the
given fuel. -/
def scan_grid_from (grid : List Nat) (grid_w grid_h min_face_size max_faces : Int)
    (fuel gy : Nat) (s : scan_state) : scan_state :=
  for_loop
    (fun gy s => decide ((gy : Int) < grid_h - 3) && decide ((s.face_count : Int) < max_faces))
    (fun gy s => (gy, scan_row grid grid_w min_face_size max_faces gy s))
    fuel gy s

/-- The second part of `find_skin_regions`: slide the window over the grid,
`for (gy = 0; gy < grid_h - 3 && face_count < max_faces; gy++)`. -/
def scan_grid (grid : List Nat) (grid_w grid_h min_face_size max_faces : Int)
    (s : scan_state) : scan_state :=
  scan_grid_from grid grid_w grid_h min_face_size max_faces (grid_h - 3).toNat 0 s

/-- Function `find_skin_regions`.  `min_face_size` is the file-scope variable
`s_min_face_size`, `grid_allocated` tells whether `heap_caps_calloc` returned a
block.  The result is the state of `faces`, the returned count, and the
indices of `faces` that were written. -/
def find_skin_regions (rgb565_data : Option (List Nat)) (width height : Int)
    (faces : Option (List face_box_t)) (max_faces : Int) (min_face_size : Int)
    (grid_allocated : Bool) : scan_state :=
  match rgb565_data, faces with
  | none, _ => { faces := faces.getD [], face_count := 0, writes := [] }
  | some _, none => { faces := [], face_count := 0, writes := [] }
  | some data, some faces0 =>
    let grid_size : Int := 8
    let grid_w := Int.tdiv width grid_size
    let grid_h := Int.tdiv height grid_size
    if !grid_allocated then { faces := faces0, face_count := 0, writes := [] }
    else
      let grid0 := List.replicate (grid_w * grid_h).toNat 0
      let grid := mark_skin_cells data width height grid_w grid_h grid0
      scan_grid grid grid_w grid_h min_face_size max_faces
        { faces := faces0, face_count := 0, writes := [] }

/-- Conversion of a `size_t` to `int` on the 32-bit target. -/
def int_of_size_t (n : Nat) : Int :=
  if n % 2 ^ 32 < 2 ^ 31 then ((n % 2 ^ 32 : Nat) : Int) else ((n % 2 ^ 32 : Nat) : Int) - 2 ^ 32

/-! ## Camera frames, detection events and the event queue -/

/-- Modelled from the spec: the pixel format tag `pixformat_t` is declared by
the camera driver (`esp_camera.h`), which is not part of the repository.  The
spec names the compressed format and the uncompressed colour format; the
sources compare a tag with `PIXFORMAT_RGB565` and `PIXFORMAT_JPEG` only, every
other tag of the driver is `PIXFORMAT_OTHER`. -/
inductive pixformat_t where
  | PIXFORMAT_RGB565
  | PIXFORMAT_JPEG
  | PIXFORMAT_OTHER
deriving DecidableEq, Repr

/-- Modelled from the spec: the frame struct `camera_fb_t` is declared by the
camera driver (`esp_camera.h`), which is not part of the repository.  The spec
gives a frame a format tag, width, height, byte length and buffer; these are
the fields the sources read. -/
structure camera_fb_t where
  buf : Option (List Nat)
  len : Nat
  width : Nat
  height : Nat
  format : pixformat_t
deriving DecidableEq, Repr

/-- The enum `detection_event_type_t` of `main.c`. -/
inductive detection_event_type_t where
  | DETECTION_EVENT_MOTION
  | DETECTION_EVENT_FACE
  | DETECTION_EVENT_BOTH
deriving DecidableEq, Repr

/-- The struct `detection_event_t` of `main.c`. -/
structure detection_event_t where
  type : detection_event_type_t
  fb : Option camera_fb_t
  jpg_buf : Option (List Nat)
  jpg_len : Nat
deriving DecidableEq, Repr

/-- Modelled from the spec: the FreeRTOS queue (`freertos/queue.h`) is not part
of the repository.  The spec describes a bounded FIFO of fixed capacity whose
producer never blocks and whose consumer blocks while it is empty. -/
structure queue_t where
  uxQueueLength : Nat
  items : List detection_event_t
deriving DecidableEq, Repr

/-- Modelled from the spec: `xQueueCreate(uxQueueLength, itemSize)` of FreeRTOS,
an empty queue of the given capacity. -/
def xQueueCreate (uxQueueLength : Nat) : queue_t :=
  { uxQueueLength := uxQueueLength, items := [] }

/-- Modelled from the spec: `xQueueSend(queue, item, 0)` of FreeRTOS with a zero
timeout; a full queue rejects the item at once and stays as it is. -/
def xQueueSend (q : queue_t) (item : detection_event_t) : queue_t × Bool :=
  if q.items.length < q.uxQueueLength then ({ q with items := q.items ++ [item] }, true)
  else (q, false)

/-- Modelled from the spec: `xQueueReceive(queue, &item, portMAX_DELAY)` of
FreeRTOS; `none` stands for the consumer staying blocked on an empty queue. -/
def xQueueReceive (q : queue_t) : Option (detection_event_t × queue_t) :=
  match q.items with
  | [] => none
  | item :: rest => some (item, { q with items := rest })

/-- The text that `snprintf` writes into `message` in
`telegram_notification_task`, identified by its template and the counter
values printed into it. -/
inductive caption_t where
  | motion (detection : Nat)
  | face (detection : Nat)
  | both (motion_no face_no : Nat)
deriving DecidableEq, Repr

/-- Calls that leave the two tasks, in program order. -/
inductive effect where
  | camera_manager_return_fb (fb : camera_fb_t)
  | free (buf : List Nat)
  | xQueueSend (event : detection_event_t) (accepted : Bool)
  | vTaskDelay (ms : Nat)
  | led_flash_capture
  | led_indicate_detection
  | telegram_bot_send_photo (photo_data : Option (List Nat)) (photo_size : Nat)
      (caption : caption_t) (ret : esp_err_t)
  | telegram_bot_send_message (message : caption_t) (ret : esp_err_t)
deriving DecidableEq, Repr

/-- Whether an effect is a call of `camera_manager_return_fb`. -/
def effect.is_return_fb : effect → Bool
  | effect.camera_manager_return_fb _ => true
  | _ => false

/-- Whether an effect is a call of `free`. -/
def effect.is_free : effect → Bool
  | effect.free _ => true
  | _ => false

/-- Whether an effect is a call of `xQueueSend`. -/
def effect.is_queue_send : effect → Bool
  | effect.xQueueSend _ _ => true
  | _ => false

/-- Whether an effect releases a buffer (frame return or `free`). -/
def effect.is_release : effect → Bool
  | effect.camera_manager_return_fb _ => true
  | effect.free _ => true
  | _ => false

/-- Whether an effect is a call into the messaging client. -/
def effect.is_send : effect → Bool
  | effect.telegram_bot_send_photo _ _ _ _ => true
  | effect.telegram_bot_send_message _ _ => true
  | _ => false

/-- The caption that a call into the messaging client carries, if the effect
is such a call. -/
def effect.caption : effect → Option caption_t
  | effect.telegram_bot_send_photo _ _ caption _ => some caption
  | effect.telegram_bot_send_message message _ => some message
  | _ => none

/-- The release calls that dispose of the payload of an event: the idiom
`if (event.fb) camera_manager_return_fb(event.fb);
 if (event.jpg_buf) free(event.jpg_buf);` of `main.c`. -/
def release_event (event : detection_event_t) : List effect :=
  (match event.fb with
    | some fb => [effect.camera_manager_return_fb fb]
    | none => []) ++
  (match event.jpg_buf with
    | some buf => [effect.free buf]
    | none => [])

/-- Function `face_detector_detect`.  `stack` gives the contents of the local
array `faces` before the call of `find_skin_regions`. -/
def face_detector_detect (st : face_state) (fb : Option camera_fb_t)
    (stack : Nat → face_box_t) (grid_allocated : Bool) : face_result_t :=
  let result : face_result_t :=
    { detected := false, face_count := 0, x := 0, y := 0, width := 0, height := 0 }
  match fb with
  | none => result
  | some fb =>
    if !st.s_initialized then result
    else if fb.format ≠ pixformat_t.PIXFORMAT_RGB565 then result
    else
      let faces := (List.range MAX_FACES).map stack
      let found := find_skin_regions fb.buf (int_of_size_t fb.width) (int_of_size_t fb.height)
        (some faces) MAX_FACES st.s_min_face_size grid_allocated
      if 0 < found.face_count then
        { detected := true, face_count := found.face_count,
          x := (found.faces.getD 0 face_box_zero).x,
          y := (found.faces.getD 0 face_box_zero).y,
          width := (found.faces.getD 0 face_box_zero).w,
          height := (found.faces.getD 0 face_box_zero).h }
      else result

/-! ## main.c: the detection task -/

/-- Modelled from the spec: the build configuration (`sdkconfig.h`, generated
from Kconfig) is not part of the repository.  The spec lists the configuration
surface: the two motion thresholds, the loop interval, the cooldown; the two
feature switches guard the `#if` blocks of `main.c`. -/
structure sdkconfig where
  CONFIG_ENABLE_MOTION_DETECTION : Bool
  CONFIG_ENABLE_FACE_DETECTION : Bool
  CONFIG_MOTION_THRESHOLD : Int
  CONFIG_MOTION_PIXEL_THRESHOLD : Int
  CONFIG_DETECTION_INTERVAL_MS : Nat
  CONFIG_TELEGRAM_COOLDOWN_SEC : Int
deriving DecidableEq, Repr

/-- What a call `frame2jpg(fb, 80, &jpg_buf, &jpg_len)` of the camera driver
leaves behind: its return value and the two output variables. -/
structure frame2jpg_result where
  ok : Bool
  jpg_buf : Option (List Nat)
  jpg_len : Nat
deriving DecidableEq, Repr

/-- The constant `gray_size` of `detection_task`: 320 x 240. -/
def gray_size : Nat := 320 * 240

/-- The state that `detection_task` carries from one loop iteration to the
next: the motion detector, the grayscale scratch buffer, and the queue. -/
structure detection_state where
  motion : motion_state
  gray_buffer : List Nat
  queue : queue_t
deriving DecidableEq, Repr

/-- Part 3 of the loop body of `detection_task` ("Handle Detection") together
with the final frame return: from the two detection flags to the queue
afterwards and the calls made.  The local `fb` is set to `NULL` exactly in the
JPEG branch; `keep` is its value at the end of the loop body. -/
def detection_task_handle (fb : camera_fb_t) (motion_detected face_detected : Bool)
    (jpg : frame2jpg_result) (q : queue_t) : queue_t × List effect :=
  if motion_detected || face_detected then
    let event0 : detection_event_t :=
      { type := if motion_detected && face_detected then
                  detection_event_type_t.DETECTION_EVENT_BOTH
                else if motion_detected then detection_event_type_t.DETECTION_EVENT_MOTION
                else detection_event_type_t.DETECTION_EVENT_FACE,
        fb := none, jpg_buf := none, jpg_len := 0 }
    let prepared : detection_event_t × Option camera_fb_t :=
      if fb.format = pixformat_t.PIXFORMAT_JPEG then
        ({ event0 with fb := some fb }, none)
      else if fb.format = pixformat_t.PIXFORMAT_RGB565 then
        if jpg.ok then
          ({ event0 with jpg_buf := jpg.jpg_buf, jpg_len := jpg.jpg_len }, some fb)
        else (event0, some fb)
      else (event0, some fb)
    let event := prepared.1
    let keep := prepared.2
    let queued : queue_t × List effect :=
      if event.fb.isSome || event.jpg_buf.isSome then
        let sent := xQueueSend q event
        if sent.2 then (sent.1, [effect.xQueueSend event true])
        else (sent.1, effect.xQueueSend event false :: release_event event)
      else (q, [])
    (queued.1,
      queued.2 ++
        (match keep with
          | some f => [effect.camera_manager_return_fb f]
          | none => []))
  else (q, [effect.camera_manager_return_fb fb])

/-- One iteration of the `while (1)` loop of `detection_task`.
`capture` is what `camera_manager_capture()` returns, `face_result_detected`
the field `detected` of what `face_detector_detect(fb)` returns when it is
called, `jpg` what `frame2jpg` leaves behind when it is called. -/
def detection_task_iteration (cfg : sdkconfig) (st : detection_state)
    (capture : Option camera_fb_t) (face_result_detected : Bool)
    (jpg : frame2jpg_result) : detection_state × List effect :=
  match capture with
  | none => (st, [effect.vTaskDelay 1000])
  | some fb =>
    let m : motion_state × List Nat × Bool :=
      if cfg.CONFIG_ENABLE_MOTION_DETECTION && fb.format = pixformat_t.PIXFORMAT_RGB565 then
        let conv := rgb565_to_grayscale fb.buf fb.len (some st.gray_buffer) gray_size
        let gray := conv.2.getD st.gray_buffer
        if conv.1 = esp_err_t.ESP_OK then
          let res := motion_detector_process st.motion (some gray) gray_size
          (res.1, gray, res.2.detected)
        else (st.motion, gray, false)
      else (st.motion, st.gray_buffer, false)
    let motion_detected := m.2.2
    let face_detected :=
      if cfg.CONFIG_ENABLE_FACE_DETECTION && fb.format = pixformat_t.PIXFORMAT_RGB565 then
        face_result_detected
      else false
    let h := detection_task_handle fb motion_detected face_detected jpg st.queue
    ({ motion := m.1, gray_buffer := m.2.1, queue := h.1 },
      h.2 ++ [effect.vTaskDelay cfg.CONFIG_DETECTION_INTERVAL_MS])

/-! ## telegram_bot.c -/

/-- The file-scope variables of `telegram_bot.c` that influence control flow
(the token and chat id strings only enter the request text). -/
structure telegram_state where
  s_last_notification_time : Int
  s_initialized : Bool
deriving DecidableEq, Repr

/-- What the world answers during one send: whether the request body could be
allocated, whether `esp_http_client_init` returned a handle, the result of
`esp_http_client_perform`, the HTTP status code, and the clock value that
`time()` stores after a delivered photo. -/
structure http_outcome where
  body_allocated : Bool
  client_created : Bool
  perform : esp_err_t
  status : Int
  clock : Int
deriving DecidableEq, Repr

/-- Function `telegram_bot_can_send`; `now` is the value that `time(&now)` stores. -/
def telegram_bot_can_send (st : telegram_state) (cooldown_sec : Int) (now : Int) : Bool :=
  if st.s_last_notification_time = 0 then true
  else decide (cooldown_sec ≤ now - st.s_last_notification_time)

/-- Function `telegram_bot_send_photo`. -/
def telegram_bot_send_photo (st : telegram_state) (photo_data : Option (List Nat))
    (photo_size : Nat) (net : http_outcome) : telegram_state × esp_err_t :=
  if !st.s_initialized then (st, esp_err_t.ESP_ERR_INVALID_STATE)
  else if photo_data.isNone || photo_size = 0 then (st, esp_err_t.ESP_ERR_INVALID_ARG)
  else if !net.body_allocated then (st, esp_err_t.ESP_ERR_NO_MEM)
  else if !net.client_created then (st, esp_err_t.ESP_FAIL)
  else if net.perform = esp_err_t.ESP_OK then
    if net.status ≠ 200 then (st, esp_err_t.ESP_FAIL)
    else ({ st with s_last_notification_time := net.clock }, esp_err_t.ESP_OK)
  else (st, net.perform)

/-- Function `telegram_bot_send_message`, called with a non-null message. -/
def telegram_bot_send_message (st : telegram_state) (net : http_outcome) : esp_err_t :=
  if !st.s_initialized then esp_err_t.ESP_ERR_INVALID_STATE
  else if !net.client_created then esp_err_t.ESP_FAIL
  else if net.perform = esp_err_t.ESP_OK then
    if net.status ≠ 200 then esp_err_t.ESP_FAIL else esp_err_t.ESP_OK
  else net.perform

/-- Function `telegram_bot_reset_cooldown`. -/
def telegram_bot_reset_cooldown (st : telegram_state) : telegram_state :=
  { st with s_last_notification_time := 0 }

/-! ## main.c: the notification task -/

/-- The state that `telegram_notification_task` works on: the messaging client
and the three statistics counters of `main.c`. -/
structure notifier_state where
  bot : telegram_state
  s_motion_count : Nat
  s_face_count : Nat
  s_telegram_sent : Nat
deriving DecidableEq, Repr

/-- The body of the `while (1)` loop of `telegram_notification_task` for one
event taken from the queue.  `now` is the clock read by the cooldown gate,
`net` the outcome of the one send that the iteration performs. -/
def telegram_notification_iteration (cfg : sdkconfig) (st : notifier_state)
    (event : detection_event_t) (now : Int) (net : http_outcome) :
    notifier_state × List effect :=
  if !telegram_bot_can_send st.bot cfg.CONFIG_TELEGRAM_COOLDOWN_SEC now then
    (st, release_event event)
  else
    let motion1 := (st.s_motion_count + 1) % 2 ^ 32
    let face1 := (st.s_face_count + 1) % 2 ^ 32
    let built : notifier_state × caption_t :=
      match event.type with
      | detection_event_type_t.DETECTION_EVENT_MOTION =>
        ({ st with s_motion_count := motion1 }, caption_t.motion motion1)
      | detection_event_type_t.DETECTION_EVENT_FACE =>
        ({ st with s_face_count := face1 }, caption_t.face face1)
      | detection_event_type_t.DETECTION_EVENT_BOTH =>
        ({ st with s_motion_count := motion1, s_face_count := face1 },
          caption_t.both motion1 face1)
    let st1 := built.1
    let message := built.2
    let to_send : Option (List Nat) × Nat :=
      match event.fb with
      | some fb => (fb.buf, fb.len)
      | none =>
        match event.jpg_buf with
        | some buf => (some buf, event.jpg_len)
        | none => (none, 0)
    let sent : notifier_state × List effect :=
      if to_send.1.isSome && decide (0 < to_send.2) then
        let r := telegram_bot_send_photo st1.bot to_send.1 to_send.2 net
        let st2 : notifier_state := { st1 with bot := r.1 }
        (if r.2 = esp_err_t.ESP_OK then
            { st2 with s_telegram_sent := (st2.s_telegram_sent + 1) % 2 ^ 32 }
          else st2,
          [effect.telegram_bot_send_photo to_send.1 to_send.2 message r.2])
      else
        (st1, [effect.telegram_bot_send_message message
                (telegram_bot_send_message st1.bot net)])
    (sent.1,
      [effect.led_flash_capture] ++ sent.2 ++ release_event event ++
        [effect.led_indicate_detection])

/-! ## Terms used in the statements about face_detector.c -/

/-- The box that `find_skin_regions` stores for the window at grid position
`(gx, gy)`: 4 x 4 cells of 8 pixels. -/
def window_box (gy gx : Nat) : face_box_t :=
  { x := (gx : Int) * 8, y := (gy : Int) * 8, w := 4 * 8, h := 4 * 8 }

/-- Two boxes are near-duplicates for `find_skin_regions`: their corners are
closer than `min_face_size` in both axes. -/
def near_duplicate (min_face_size : Int) (a b : face_box_t) : Prop :=
  ((Int.natAbs (a.x - b.x) : Nat) : Int) < min_face_size ∧
  ((Int.natAbs (a.y - b.y) : Nat) : Int) < min_face_size

instance (min_face_size : Int) (a b : face_box_t) : Decidable (near_duplicate min_face_size a b) :=
  inferInstanceAs (Decidable (((Int.natAbs (a.x - b.x) : Nat) : Int) < min_face_size ∧
    ((Int.natAbs (a.y - b.y) : Nat) : Int) < min_face_size))

/-- The test `skin_count > total / 2` of `find_skin_regions` for the grid cell
`(gx, gy)`: whether the first part marks the cell. -/
def cell_marked (rgb565_data : List Nat) (width height : Int) (gy gx : Nat) : Bool :=
  decide ((cell_skin_count rgb565_data width height gy gx).2 / 2
    < (cell_skin_count rgb565_data width height gy gx).1)

/-- The number of skin-tone pixels among the 64 pixels of the grid cell
`(gx, gy)`. -/
def skin_pixels_in_cell (rgb565_data : List Nat) (width : Int) (gy gx : Nat) : Nat :=
  ((List.range' (gy * 8) 8).map (fun y =>
    (List.range' (gx * 8) 8).countP (fun x =>
      is_skin_tone_rgb565 (rgb565_pixel_at rgb565_data width y x)))).sum

/-- What holds of the scan state throughout the second part of
`find_skin_regions`: the array keeps its length, the count stays within it,
every store went to an index inside it, every accepted entry is the box of a
window that lies inside the grid, and no two accepted entries are
near-duplicates. -/
def scan_invariant (grid_w grid_h min_face_size max_faces : Int) (s : scan_state) : Prop :=
  (s.faces.length : Int) = max_faces ∧
  (s.face_count : Int) ≤ max_faces ∧
  (∀ k ∈ s.writes, (k : Int) < max_faces) ∧
  (∀ i, i < s.face_count → ∃ gy gx : Nat,
    s.faces.getD i face_box_zero = window_box gy gx ∧
    (gy : Int) < grid_h - 3 ∧ (gx : Int) < grid_w - 3) ∧
  (∀ i j, i < j → j < s.face_count →
    ¬ near_duplicate min_face_size (s.faces.getD i face_box_zero)
      (s.faces.getD j face_box_zero))

/-- The frame holds one 32 x 32 block of skin-tone pixels with its top-left
corner at `(block_x, block_y)`, and no skin-tone pixel elsewhere. -/
def skin_block_frame (rgb565_data : List Nat) (width height block_x block_y : Nat) : Prop :=
  ∀ y x : Nat, y < height → x < width →
    is_skin_tone_rgb565 (rgb565_pixel_at rgb565_data (width : Int) y x)
      = decide (block_x ≤ x ∧ x < block_x + 32 ∧ block_y ≤ y ∧ y < block_y + 32)

/-- The first window `(gy, gx)`, in the order of the scan, among the window of
the grid cell `(cx, cy)` and its neighbours inside the grid: the window one
row above, or else the window one column to the left, or else the window
itself. -/
def first_window (cy cx : Nat) : Nat × Nat :=
  if 1 ≤ cy then (cy - 1, cx) else if 1 ≤ cx then (0, cx - 1) else (0, 0)

/-! ## Terms used in the statements about motion_detector.c -/

/-- The error conditions of `motion_detector_process`: the detector holds no
baseline buffer (never initialized, or deinitialized), or the length differs
from the configured frame size. -/
def motion_error_condition (st : motion_state) (size : Nat) : Prop :=
  st.s_prev_frame = none ∨ size ≠ st.s_frame_size

instance (st : motion_state) (size : Nat) : Decidable (motion_error_condition st size) :=
  inferInstanceAs (Decidable (st.s_prev_frame = none ∨ size ≠ st.s_frame_size))

/-- A genuine comparison: the call reaches the two loops of
`motion_detector_process`. -/
def motion_genuine_comparison (st : motion_state) (grayscale_data : Option (List Nat))
    (size : Nat) : Prop :=
  st.s_prev_frame ≠ none ∧ grayscale_data ≠ none ∧ size = st.s_frame_size ∧
    st.s_has_baseline = true

instance (st : motion_state) (grayscale_data : Option (List Nat)) (size : Nat) :
    Decidable (motion_genuine_comparison st grayscale_data size) :=
  inferInstanceAs (Decidable (st.s_prev_frame ≠ none ∧ grayscale_data ≠ none ∧
    size = st.s_frame_size ∧ st.s_has_baseline = true))

/-- A detector for 2 x 2 frames after `motion_detector_init` with pixel
threshold 15 and change threshold 5.0, and one processed frame `first`. -/
def detector_after (first : List Nat) : motion_state :=
  (motion_detector_process
    (motion_detector_init motion_state_boot 2 2 15 (float32_of_int 5)
      (some (fun _ => 7)) none).1
    (some first) 4).1

/-- The 2 x 2 detector whose baseline is the frame 10, 20, 30, 40. -/
def detector_2x2 : motion_state := detector_after [10, 20, 30, 40]

/-! ## Example inputs for the face detector -/

/-- An 8 x 8 RGB565 frame of black pixels. -/
def frame_dark : camera_fb_t :=
  { buf := some (List.replicate 128 0), len := 128, width := 8, height := 8,
    format := pixformat_t.PIXFORMAT_RGB565 }

/-- An initialized detector with the given minimum face size. -/
def detector_min_size (size : Int) : face_state :=
  face_detector_set_min_size (face_detector_init face_state_boot).1 size

/-- A marked grid of 4 columns and 5 rows: two window positions, one above
the other. -/
def grid_4x5 : List Nat := List.replicate 20 1

/-- A marked grid of 28 columns and 4 rows: 25 window positions in one row. -/
def grid_28x4 : List Nat := List.replicate 112 1

/-- The scan state at the start of the scan: an array of five zeroed boxes. -/
def scan_start : scan_state :=
  { faces := List.replicate 5 face_box_zero, face_count := 0, writes := [] }

/-- The bytes of a `width` x `height` RGB565 frame, low byte first, that is
black except for a 32 x 32 block with its top-left corner at
`(block_x, block_y)`; the pixels of the block have the value 0xB3CB, which is
R=180, G=120, B=90 packed as `(180 >> 3) << 11 | (120 >> 2) << 5 | (90 >> 3)`. -/
def block_frame_data (width height block_x block_y : Nat) : List Nat :=
  (List.range (width * height * 2)).map (fun i =>
    if block_x ≤ (i / 2) % width ∧ (i / 2) % width < block_x + 32 ∧
        block_y ≤ (i / 2) / width ∧ (i / 2) / width < block_y + 32 then
      (if i % 2 = 0 then 0xCB else 0xB3)
    else 0)

/-- A 48 x 48 RGB565 frame with the skin-tone block at `(8, 8)`. -/
def frame_skin_block : camera_fb_t :=
  { buf := some (block_frame_data 48 48 8 8), len := 4608, width := 48, height := 48,
    format := pixformat_t.PIXFORMAT_RGB565 }

/-- A 32 x 32 RGB565 frame that the skin-tone block fills. -/
def frame_skin_only : camera_fb_t :=
  { buf := some (block_frame_data 32 32 0 0), len := 2048, width := 32, height := 32,
    format := pixformat_t.PIXFORMAT_RGB565 }

/-- A 48 x 48 RGB565 frame with the skin-tone block at `(4, 4)`, half a grid
cell off the cell grid in both directions. -/
def frame_skin_block_offset : camera_fb_t :=
  { buf := some (block_frame_data 48 48 4 4), len := 4608, width := 48, height := 48,
    format := pixformat_t.PIXFORMAT_RGB565 }

/-! ## Example inputs for the two tasks -/

/-- A 2 x 1 RGB565 frame (4 bytes). -/
def frame_rgb565 : camera_fb_t :=
  { buf := some [0x00, 0xF8, 0xFF, 0xFF], len := 4, width := 2, height := 1,
    format := pixformat_t.PIXFORMAT_RGB565 }

/-- A frame delivered in JPEG format (3 bytes). -/
def frame_jpeg : camera_fb_t :=
  { buf := some [0xFF, 0xD8, 0xFF], len := 3, width := 2, height := 1,
    format := pixformat_t.PIXFORMAT_JPEG }

/-- A successful `frame2jpg` call that produced a 2-byte buffer. -/
def jpg_ok : frame2jpg_result := { ok := true, jpg_buf := some [0xFF, 0xD8], jpg_len := 2 }

/-- A failed `frame2jpg` call. -/
def jpg_failed : frame2jpg_result := { ok := false, jpg_buf := none, jpg_len := 0 }

/-- A build configuration with both detectors enabled. -/
def config_default : sdkconfig :=
  { CONFIG_ENABLE_MOTION_DETECTION := true, CONFIG_ENABLE_FACE_DETECTION := true,
    CONFIG_MOTION_THRESHOLD := 15, CONFIG_MOTION_PIXEL_THRESHOLD := 5,
    CONFIG_DETECTION_INTERVAL_MS := 500, CONFIG_TELEGRAM_COOLDOWN_SEC := 60 }

/-- The state of `detection_task` with a 2 x 2 detector, a 4-byte scratch
buffer and the given queue. -/
def detection_state_2x2 (q : queue_t) : detection_state :=
  { motion := detector_2x2, gray_buffer := [0, 0, 0, 0], queue := q }

/-- An event that carries a re-encoded JPEG buffer. -/
def event_jpg : detection_event_t :=
  { type := detection_event_type_t.DETECTION_EVENT_FACE, fb := none,
    jpg_buf := some [0xFF, 0xD8], jpg_len := 2 }

/-- An event whose re-encoded buffer has length zero. -/
def event_empty_jpg : detection_event_t :=
  { type := detection_event_type_t.DETECTION_EVENT_BOTH, fb := none,
    jpg_buf := some [], jpg_len := 0 }

/-- An event that carries a camera frame. -/
def event_fb : detection_event_t :=
  { type := detection_event_type_t.DETECTION_EVENT_MOTION, fb := some frame_jpeg,
    jpg_buf := none, jpg_len := 0 }

/-- A queue of capacity 5 that already holds 5 events. -/
def queue_full : queue_t :=
  { uxQueueLength := 5, items := [event_jpg, event_jpg, event_jpg, event_jpg, event_jpg] }

/-- The notifier with an initialized messaging client and the given time of
the last delivered photo. -/
def notifier_at (last : Int) : notifier_state :=
  { bot := { s_last_notification_time := last, s_initialized := true },
    s_motion_count := 0, s_face_count := 0, s_telegram_sent := 0 }

/-- A delivered request: HTTP status 200 at clock value 1000. -/
def http_delivered : http_outcome :=
  { body_allocated := true, client_created := true, perform := esp_err_t.ESP_OK,
    status := 200, clock := 1000 }

/-- A request answered with HTTP status 500. -/
def http_rejected : http_outcome :=
  { body_allocated := true, client_created := true, perform := esp_err_t.ESP_OK,
    status := 500, clock := 1000 }

/-! ## main.c: the queue of app_main and the loop of the detection task -/

/-- The value that `app_main` stores in `s_detection_queue`:
`xQueueCreate(5, sizeof(detection_event_t))`. -/
def s_detection_queue_created : queue_t := xQueueCreate 5

/-- A run of `xQueueSend(queue, &event, 0)` calls, one per event of the list
and with no receive in between: the queue afterwards and the return values in
call order. -/
def send_each (q : queue_t) : List detection_event_t → queue_t × List Bool
  | [] => (q, [])
  | e :: rest =>
    ((send_each (xQueueSend q e).1 rest).1,
      (xQueueSend q e).2 :: (send_each (xQueueSend q e).1 rest).2)

/-- Up to `n` calls of `xQueueReceive` in a row: the events received, in the
order of the calls, and the queue afterwards; the run ends early when a call
finds the queue empty. -/
def receive_each : Nat → queue_t → List detection_event_t × queue_t
  | 0, q => ([], q)
  | n + 1, q =>
    match xQueueReceive q with
    | none => ([], q)
    | some (e, q1) => (e :: (receive_each n q1).1, (receive_each n q1).2)

/-! ## Terms used in the statements about pixel formats -/

/-- A 5-bit channel value widened to 8 bits by bit replication: the five bits
followed by their top three bits. -/
def expand5 (c : Nat) : Nat := c * 8 + c / 4

/-- A 6-bit channel value widened to 8 bits by bit replication: the six bits
followed by their top two bits. -/
def expand6 (c : Nat) : Nat := c * 4 + c / 16

/-- The red channel of an RGB565 pixel, bits 11 to 15, widened to 8 bits. -/
def rgb565_red (pixel : Nat) : Nat := expand5 (pixel / 2048 % 32)

/-- The green channel of an RGB565 pixel, bits 5 to 10, widened to 8 bits. -/
def rgb565_green (pixel : Nat) : Nat := expand6 (pixel / 32 % 64)

/-- The blue channel of an RGB565 pixel, bits 0 to 4, widened to 8 bits. -/
def rgb565_blue (pixel : Nat) : Nat := expand5 (pixel % 32)

/-- The RGB565 encoding of an 8-bit colour: the top 5, 6 and 5 bits of red,
green and blue. -/
def rgb565_encode (r g b : Nat) : Nat := r / 8 * 2048 + g / 4 * 32 + b / 8

/-- The skin-tone rule on 8-bit channels, as the specification words it:
green and blue present, red dominant over both, a bounded red-green gap. -/
def skin_tone_rule (r g b : Nat) : Prop :=
  60 < r ∧ 40 < g ∧ 20 < b ∧ g < r ∧ b < r ∧ 10 < (r : Int) - (g : Int) ∧
    (r : Int) - (g : Int) < 100

instance (r g b : Nat) : Decidable (skin_tone_rule r g b) :=
  inferInstanceAs (Decidable (60 < r ∧ 40 < g ∧ 20 < b ∧ g < r ∧ b < r ∧
    10 < (r : Int) - (g : Int) ∧ (r : Int) - (g : Int) < 100))

/-- The little-endian 16-bit pixel stored in the bytes `2 * i` and `2 * i + 1`
of a byte buffer. -/
def rgb565_le_pixel (bytes : List Nat) (i : Nat) : Nat :=
  bytes.getD (2 * i) 0 + 256 * bytes.getD (2 * i + 1) 0

/-- The luminance of an RGB565 pixel as the specification of
`rgb565_to_grayscale` words it: `(77 * r + 150 * g + 29 * b) >> 8` on the
widened channels. -/
def luminance (pixel : Nat) : Nat :=
  (77 * rgb565_red pixel + 150 * rgb565_green pixel + 29 * rgb565_blue pixel) / 256

/-! ## Terms used in the statements about the window scan -/

/-- A grid cell as the specification words the marking rule: more than half,
that is more than 32, of its 64 pixels satisfy the skin-tone predicate. -/
def cell_mostly_skin (rgb565_data : List Nat) (width : Int) (gy gx : Nat) : Bool :=
  decide (32 < skin_pixels_in_cell rgb565_data width gy gx)

/-- The number of marked cells among the 16 cells of the 4 x 4 window whose
top-left cell is `(gx, gy)`. -/
def window_marked_cells (rgb565_data : List Nat) (width : Int) (gy gx : Nat) : Nat :=
  ((List.range 4).map (fun dy =>
    (List.range 4).countP (fun dx =>
      cell_mostly_skin rgb565_data width (gy + dy) (gx + dx)))).sum

/-- A window position of a `width` x `height` frame at which at least 10 of
the 16 cells are marked: `gx + 4 <= width / 8` and `gy + 4 <= height / 8`. -/
def window_qualifies (rgb565_data : List Nat) (width height : Nat) (gy gx : Nat) : Prop :=
  gx + 4 ≤ width / 8 ∧ gy + 4 ≤ height / 8 ∧
    10 ≤ window_marked_cells rgb565_data (width : Int) gy gx

instance (rgb565_data : List Nat) (width height gy gx : Nat) :
    Decidable (window_qualifies rgb565_data width height gy gx) :=
  inferInstanceAs (Decidable (gx + 4 ≤ width / 8 ∧ gy + 4 ≤ height / 8 ∧
    10 ≤ window_marked_cells rgb565_data (width : Int) gy gx))

/-! ## face_detector.c with every access to `rgb565_data` and `grid` checked -/

/-- A read `buf[i]` that fails, with `none`, unless `0 <= i < length`. -/
def read_at (buf : List Nat) (i : Int) : Option Nat :=
  if 0 ≤ i ∧ i < (buf.length : Int) then buf[i.toNat]? else none

/-- A store `buf[i] = v` that fails, with `none`, unless `0 <= i < length`. -/
def write_at (buf : List Nat) (i : Int) (v : Nat) : Option (List Nat) :=
  if 0 ≤ i ∧ i < (buf.length : Int) then some (buf.set i.toNat v) else none

/-- The two innermost loops of the first part of `find_skin_regions` for the
grid cell `(gx, gy)`, with the reads `rgb565_data[idx + 1]` and
`rgb565_data[idx]`, `idx = (y * width + x) * 2`, checked: `none` as soon as one
of them leaves the buffer. -/
def cell_skin_count_checked (rgb565_data : List Nat) (width height : Int) (gy gx : Nat) :
    Option (Nat × Nat) :=
  ((List.range' (gy * 8) 8).takeWhile (fun (y : Nat) => decide ((y : Int) < height))).foldl
    (fun (acc : Option (Nat × Nat)) (y : Nat) =>
      ((List.range' (gx * 8) 8).takeWhile (fun (x : Nat) => decide ((x : Int) < width))).foldl
        (fun (acc : Option (Nat × Nat)) (x : Nat) =>
          match acc, read_at rgb565_data (((y : Int) * width + (x : Int)) * 2 + 1),
              read_at rgb565_data (((y : Int) * width + (x : Int)) * 2) with
          | some acc, some hi, some lo =>
            some
              (if is_skin_tone_rgb565 (((hi <<< 8) ||| lo) % 2 ^ 16) then acc.1 + 1 else acc.1,
               acc.2 + 1)
          | _, _, _ => none)
        acc)
    (some (0, 0))

/-- The first part of `find_skin_regions` with checked reads of `rgb565_data`
and checked stores `grid[gy * grid_w + gx] = 1`. -/
def mark_skin_cells_checked (rgb565_data : List Nat) (width height grid_w grid_h : Int)
    (grid : List Nat) : Option (List Nat) :=
  (List.range grid_h.toNat).foldl
    (fun (grid : Option (List Nat)) (gy : Nat) =>
      (List.range grid_w.toNat).foldl
        (fun (grid : Option (List Nat)) (gx : Nat) =>
          match grid, cell_skin_count_checked rgb565_data width height gy gx with
          | some grid, some counts =>
            if counts.2 / 2 < counts.1 then write_at grid ((gy : Int) * grid_w + (gx : Int)) 1
            else some grid
          | _, _ => none)
        grid)
    (some grid)

/-- The window count at `(gx, gy)` with the reads
`grid[(gy + dy) * grid_w + gx + dx]` checked. -/
def cluster_count_checked (grid : List Nat) (grid_w : Int) (gy gx : Nat) : Option Nat :=
  (List.range 4).foldl
    (fun (cluster : Option Nat) (dy : Nat) =>
      (List.range 4).foldl
        (fun (cluster : Option Nat) (dx : Nat) =>
          match cluster,
              read_at grid (((gy + dy : Nat) : Int) * grid_w + (gx : Int) + (dx : Int)) with
          | some c, some v => some (if v ≠ 0 then c + 1 else c)
          | _, _ => none)
        cluster)
    (some 0)

/-- The body of the inner scan loop of `find_skin_regions` at the window
`(gx, gy)`, with the window count taken from the checked reads of `grid`. -/
def scan_window_checked (grid : List Nat) (grid_w min_face_size : Int) (gy gx : Nat)
    (s : scan_state) : Option (Nat × scan_state) :=
  match cluster_count_checked grid grid_w gy gx with
  | none => none
  | some cluster =>
    some
      (if 10 ≤ cluster then
        let faces1 := s.faces.set s.face_count
          { x := (gx : Int) * 8, y := (gy : Int) * 8, w := 4 * 8, h := 4 * 8 }
        let writes1 := s.writes ++ [s.face_count]
        let cand := faces1.getD s.face_count face_box_zero
        let overlap := (List.range s.face_count).any (fun i =>
          decide (((Int.natAbs ((faces1.getD i face_box_zero).x - cand.x) : Nat) : Int)
            < min_face_size) &&
          decide (((Int.natAbs ((faces1.getD i face_box_zero).y - cand.y) : Nat) : Int)
            < min_face_size))
        if !overlap && decide (min_face_size ≤ cand.w) then
          (gx + 3, { faces := faces1, face_count := s.face_count + 1, writes := writes1 })
        else (gx, { faces := faces1, face_count := s.face_count, writes := writes1 })
      else (gx, s))

/-- The inner scan loop of `find_skin_regions` for the grid row `gy` with
checked reads of `grid`; a failed read ends the loop with `none`. -/
def scan_row_checked (grid : List Nat) (grid_w min_face_size max_faces : Int) (gy : Nat)
    (s : scan_state) : Option scan_state :=
  for_loop
    (fun gx (s : Option scan_state) =>
      match s with
      | none => false
      | some s =>
        decide ((gx : Int) < grid_w - 3) && decide ((s.face_count : Int) < max_faces))
    (fun gx (s : Option scan_state) =>
      match s with
      | none => (gx, none)
      | some s =>
        match scan_window_checked grid grid_w min_face_size gy gx s with
        | none => (gx, none)
        | some r => (r.1, some r.2))
    (grid_w - 3).toNat 0 (some s)

/-- The outer scan loop of `find_skin_regions` with checked reads of `grid`. -/
def scan_grid_checked (grid : List Nat) (grid_w grid_h min_face_size max_faces : Int)
    (s : scan_state) : Option scan_state :=
  for_loop
    (fun gy (s : Option scan_state) =>
      match s with
      | none => false
      | some s =>
        decide ((gy : Int) < grid_h - 3) && decide ((s.face_count : Int) < max_faces))
    (fun gy (s : Option scan_state) =>
      match s with
      | none => (gy, none)
      | some s => (gy, scan_row_checked grid grid_w min_face_size max_faces gy s))
    (grid_h - 3).toNat 0 (some s)

/-- Function `find_skin_regions` with every read of `rgb565_data` and every
read of and store to `grid` checked against the bounds of the array: the
result is `none` when one of them falls outside, and otherwise the state that
the function leaves. -/
def find_skin_regions_checked (rgb565_data : Option (List Nat)) (width height : Int)
    (faces : Option (List face_box_t)) (max_faces : Int) (min_face_size : Int)
    (grid_allocated : Bool) : Option scan_state :=
  match rgb565_data, faces with
  | none, _ => some { faces := faces.getD [], face_count := 0, writes := [] }
  | some _, none => some { faces := [], face_count := 0, writes := [] }
  | some data, some faces0 =>
    let grid_size : Int := 8
    let grid_w := Int.tdiv width grid_size
    let grid_h := Int.tdiv height grid_size
    if !grid_allocated then some { faces := faces0, face_count := 0, writes := [] }
    else
      let grid0 := List.replicate (grid_w * grid_h).toNat 0
      match mark_skin_cells_checked data width height grid_w grid_h grid0 with
      | none => none
      | some grid =>
        scan_grid_checked grid grid_w grid_h min_face_size max_faces
          { faces := faces0, face_count := 0, writes := [] }

/-! ## main.c: the start of the detection task and a run of its loop -/

/-- The state in which `detection_task` enters its `while (1)` loop: the
grayscale buffer of 320 x 240 bytes, taken from PSRAM or else from the regular
heap, and the motion detector after `motion_detector_init(320, 240,
CONFIG_MOTION_THRESHOLD, (float)CONFIG_MOTION_PIXEL_THRESHOLD)`.  `none` stands
for the task deleting itself because no buffer could be allocated.  The four
heap arguments are the states of the heaps at the four allocation attempts.
The five warm-up captures before the loop only return their frames and leave
this state as it is. -/
def detection_task_start (cfg : sdkconfig) (motion : motion_state)
    (gray_psram gray_ram motion_psram motion_ram : Option (Nat → Nat)) (q : queue_t) :
    Option detection_state :=
  let gray_buffer := match malloc gray_size gray_psram with
    | some b => some b
    | none => malloc gray_size gray_ram
  match gray_buffer with
  | none => none
  | some buf =>
    some
      { motion :=
          if cfg.CONFIG_ENABLE_MOTION_DETECTION then
            (motion_detector_init motion 320 240 cfg.CONFIG_MOTION_THRESHOLD
              (float32_of_int cfg.CONFIG_MOTION_PIXEL_THRESHOLD) motion_psram motion_ram).1
          else motion,
        gray_buffer := buf,
        queue := q }

/-- What one iteration of the loop of `detection_task` receives from outside:
the captured frame, the contents of the local array of `face_detector_detect`
before the call, whether the grid allocation of `find_skin_regions` succeeds,
and what `frame2jpg` leaves behind. -/
structure detection_input where
  capture : Option camera_fb_t
  stack : Nat → face_box_t
  grid_allocated : Bool
  jpg : frame2jpg_result

/-- Consecutive iterations of the `while (1)` loop of `detection_task`, one per
element of `inputs`, with `face_detector_detect` called on the captured frame
as the loop body does; the calls made are listed in program order. -/
def detection_task_loop (cfg : sdkconfig) (face : face_state) :
    detection_state → List detection_input → detection_state × List effect
  | st, [] => (st, [])
  | st, i :: rest =>
    ((detection_task_loop cfg face
        (detection_task_iteration cfg st i.capture
          (face_detector_detect face i.capture i.stack i.grid_allocated).detected i.jpg).1
        rest).1,
      (detection_task_iteration cfg st i.capture
          (face_detector_detect face i.capture i.stack i.grid_allocated).detected i.jpg).2
        ++ (detection_task_loop cfg face
        (detection_task_iteration cfg st i.capture
          (face_detector_detect face i.capture i.stack i.grid_allocated).detected i.jpg).1
        rest).2)

/-- The state in which frames without motion leave the loop of
`detection_task` alone, for the frame `fb`: the scratch buffer has 320 x 240
bytes, the detector compares frames of that size with a pixel threshold that
is not negative and a change threshold above zero, and once a baseline is set
it equals the scratch buffer, which already holds the luminance of `fb`. -/
def quiet_state (fb : camera_fb_t) (st : detection_state) : Prop :=
  st.gray_buffer.length = gray_size ∧
  (∀ x ∈ st.gray_buffer, x < 256) ∧
  0 ≤ st.motion.s_threshold ∧
  float32_ge float32_zero st.motion.s_change_threshold = false ∧
  (∀ prev, st.motion.s_prev_frame = some prev →
    st.motion.s_frame_size = gray_size ∧ prev.length = gray_size ∧
    (st.motion.s_has_baseline = true →
      prev = st.gray_buffer ∧
      (rgb565_to_grayscale fb.buf fb.len (some st.gray_buffer) gray_size).2
        = some st.gray_buffer))

/-- Five captures of the all-black 8 x 8 frame, each with a zeroed local array,
a successful grid allocation and a working JPEG encoder. -/
def five_dark_frames : List detection_input :=
  List.replicate 5
    { capture := some frame_dark, stack := fun _ => face_box_zero, grid_allocated := true,
      jpg := jpg_ok }

/-- The state in which `detection_task` enters its loop under the default
configuration when every allocation is served from a zeroed PSRAM. -/
def detection_state_fresh : detection_state :=
  { motion :=
      (motion_detector_init motion_state_boot 320 240 15 (float32_of_int 5)
        (some (fun _ => 0)) none).1,
    gray_buffer := (List.range gray_size).map (fun _ => 0 % 256),
    queue := s_detection_queue_created }

/-! # Theorems -/

/-! ## Loop lemmas for motion_detector.c -/

theorem foldl_changed_eq_countP (p : Nat → Prop) [DecidablePred p] (l : List Nat) (c : Nat)
    (h : c + l.countP (fun i => decide (p i)) < 2 ^ 32) :
    l.foldl (fun changed i => if p i then (changed + 1) % 2 ^ 32 else changed) c
      = c + l.countP (fun i => decide (p i)) := by
  induction l generalizing c with
  | nil => simp
  | cons a l ih =>
    simp only [List.foldl_cons, List.countP_cons] at h ⊢
    by_cases ha : p a
    · simp only [ha, if_true, decide_True] at h ⊢
      have h1 : (c + 1) % 2 ^ 32 = c + 1 := Nat.mod_eq_of_lt (by omega)
      rw [h1, ih (c + 1) (by omega)]
      omega
    · simp only [ha, if_false, decide_False] at h ⊢
      simp only [Bool.false_eq_true, if_false, Nat.add_zero] at h ⊢
      exact ih c h

theorem count_changed_eq (data prev : List Nat) (threshold : Int) (size : Nat)
    (hsize : size < 2 ^ 32) :
    count_changed data prev threshold size
      = (List.range size).countP (fun i =>
          decide (threshold < ((Int.natAbs ((data.getD i 0 : Int) - (prev.getD i 0 : Int)) : Nat) : Int))) := by
  unfold count_changed
  have hle := List.countP_le_length (fun i =>
          decide (threshold < ((Int.natAbs ((data.getD i 0 : Int) - (prev.getD i 0 : Int)) : Nat) : Int)))
          (l := List.range size)
  rw [List.length_range] at hle
  have := foldl_changed_eq_countP
    (fun i => threshold < ((Int.natAbs ((data.getD i 0 : Int) - (prev.getD i 0 : Int)) : Nat) : Int))
    (List.range size) 0 (by simp only [Nat.zero_add]; omega)
  simpa using this

theorem blend_baseline_length (data prev : List Nat) (size : Nat) :
    (blend_baseline data prev size).length = prev.length := by
  unfold blend_baseline
  induction size with
  | zero => simp
  | succ k ih =>
    rw [List.range_succ, List.foldl_append, List.foldl_cons, List.foldl_nil, List.length_set]
    exact ih

theorem blend_baseline_getD (data prev : List Nat) (size i : Nat) :
    (blend_baseline data prev size).getD i 0
      = if i < size ∧ i < prev.length then (prev.getD i 0 * 9 + data.getD i 0) / 10 % 256
        else prev.getD i 0 := by
  induction size with
  | zero => simp [blend_baseline]
  | succ k ih =>
    have hlen := blend_baseline_length data prev k
    have hstep : blend_baseline data prev (k + 1)
        = (blend_baseline data prev k).set k
            (((blend_baseline data prev k).getD k 0 * 9 + data.getD k 0) / 10 % 256) := by
      unfold blend_baseline
      rw [List.range_succ, List.foldl_append]
      rfl
    rw [hstep]
    by_cases hik : i = k
    · subst hik
      by_cases hlt : i < prev.length
      · have h1 : (((blend_baseline data prev i).set i
            (((blend_baseline data prev i).getD i 0 * 9 + data.getD i 0) / 10 % 256)).getD i 0)
            = ((blend_baseline data prev i).getD i 0 * 9 + data.getD i 0) / 10 % 256 := by
          simp [List.getD_eq_getElem?_getD, hlen, hlt]
        rw [h1, ih]
        simp [hlt]
      · have h1 : (blend_baseline data prev i).set i
            (((blend_baseline data prev i).getD i 0 * 9 + data.getD i 0) / 10 % 256)
            = blend_baseline data prev i := by
          apply List.set_eq_of_length_le
          omega
        rw [h1, ih]
        simp [hlt]
    · have h1 : (((blend_baseline data prev k).set k
            (((blend_baseline data prev k).getD k 0 * 9 + data.getD k 0) / 10 % 256)).getD i 0)
            = (blend_baseline data prev k).getD i 0 := by
        simp only [List.getD_eq_getElem?_getD]
        rw [List.getElem?_set_ne (Ne.symm hik)]
      rw [h1, ih]
      have : (i < k + 1) ↔ (i < k) := by omega
      simp only [this]

theorem size_t_of_int_length (n : Nat) (z : Int) (h : (n : Int) = z) (hn : n < 2 ^ 32) :
    size_t_of_int z = n := by
  unfold size_t_of_int
  subst h
  have : ((n : Int) % 2 ^ 32) = (n : Int) := Int.emod_eq_of_lt (by omega) (by omega)
  rw [this]
  simp

theorem malloc_length (size : Nat) (heap : Option (Nat → Nat)) (b : List Nat)
    (h : malloc size heap = some b) : b.length = size := by
  unfold malloc at h
  cases heap with
  | none => simp at h
  | some junk =>
    simp only [Option.map_some', Option.some.injEq] at h
    subst h
    simp

theorem memcpy_full (dst src : List Nat) (h : dst.length = src.length) :
    memcpy dst src src.length = src := by
  unfold memcpy
  rw [List.take_length, List.drop_eq_nil_of_le (by omega), List.append_nil]

theorem countP_range_getD (q : Nat → Bool) (l : List Nat) :
    (List.range l.length).countP (fun i => q (l.getD i 0)) = l.countP q := by
  induction l with
  | nil => simp
  | cons a l ih =>
    rw [List.length_cons, List.range_succ_eq_map, List.countP_cons, List.countP_map,
      List.countP_cons]
    have : ((fun i => q ((a :: l).getD i 0)) ∘ Nat.succ) = (fun i => q (l.getD i 0)) := by
      funext i
      simp
    rw [this, ih]
    simp

/-- C6: the first `motion_detector_process` call after a successful
`motion_detector_init`, and the first call after `motion_detector_reset` on an
initialized detector, on a buffer whose length is the configured width times
height, returns detected = false with zero changed pixels and zero percentage,
and leaves the baseline equal to the input. -/
theorem first_process_call_sets_baseline (st : motion_state) (data : List Nat) :
    (∀ (width height threshold : Int) (change_threshold : float32)
        (psram ram : Option (Nat → Nat)),
      (motion_detector_init st width height threshold change_threshold psram ram).2
        = esp_err_t.ESP_OK →
      (data.length : Int) = width * height → data.length < 2 ^ 32 →
      motion_detector_process
          (motion_detector_init st width height threshold change_threshold psram ram).1
          (some data) data.length
        = ({ (motion_detector_init st width height threshold change_threshold psram ram).1 with
              s_prev_frame := some data, s_has_baseline := true },
           { detected := false, change_percentage := float32_zero, changed_pixels := 0 })) ∧
    (∀ prev : List Nat, st.s_prev_frame = some prev → prev.length = st.s_frame_size →
      data.length = st.s_frame_size →
      motion_detector_process (motion_detector_reset st) (some data) data.length
        = ({ st with s_prev_frame := some data, s_has_baseline := true },
           { detected := false, change_percentage := float32_zero, changed_pixels := 0 })) := by
  constructor
  · intro width height threshold change_threshold psram ram hok hlen hlt
    have hsz := size_t_of_int_length data.length (width * height) hlen hlt
    unfold motion_detector_init at hok ⊢
    simp only [hsz] at hok ⊢
    cases hp : malloc data.length psram with
    | some b =>
      have hb := malloc_length _ _ _ hp
      simp only [motion_detector_process, motion_result_none, ne_eq, not_true_eq_false,
        if_false, Bool.not_false, if_true]
      rw [memcpy_full b data hb]
    | none =>
      cases hr : malloc data.length ram with
      | some b =>
        have hb := malloc_length _ _ _ hr
        simp only [motion_detector_process, motion_result_none, ne_eq, not_true_eq_false,
          if_false, Bool.not_false, if_true]
        rw [memcpy_full b data hb]
      | none => simp [hp, hr] at hok
  · intro prev hprev hplen hdlen
    simp only [motion_detector_process, motion_detector_reset, motion_result_none, hprev, hdlen,
      ne_eq, not_true_eq_false, if_false, Bool.not_false, if_true]
    rw [← hdlen, memcpy_full prev data (by omega)]

/-! ## Facts about the float model -/

theorem bit_length_zero (fuel : Nat) : bit_length fuel 0 = 0 := by
  cases fuel <;> simp [bit_length]

theorem bit_length_pos (fuel n : Nat) (hle : n ≤ fuel) (hn : 0 < n) :
    0 < bit_length fuel n := by
  cases fuel with
  | zero => omega
  | succ f =>
    have : n ≠ 0 := by omega
    simp [bit_length, this]

theorem two_pow_bit_length_le (fuel : Nat) :
    ∀ n : Nat, n ≤ fuel → 0 < n → 2 ^ (bit_length fuel n - 1) ≤ n := by
  induction fuel with
  | zero => intro n hle hn; omega
  | succ f ih =>
    intro n hle hn
    have hne : n ≠ 0 := by omega
    simp only [bit_length, hne, if_false, Nat.add_sub_cancel]
    by_cases h2 : n / 2 = 0
    · rw [h2, bit_length_zero]
      simpa using hn
    · have hpos : 0 < n / 2 := Nat.pos_of_ne_zero h2
      have hle2 : n / 2 ≤ f := by omega
      have hb := bit_length_pos f (n / 2) hle2 hpos
      have := ih (n / 2) hle2 hpos
      have hs : bit_length f (n / 2) = (bit_length f (n / 2) - 1) + 1 := by omega
      rw [hs, Nat.pow_succ]
      omega

theorem float32_round_zero (neg : Bool) (q : Nat) :
    float32_round neg 0 q = float32.fin neg 0 (-149) := by
  simp [float32_round]

theorem float32_pack_ne_zero (neg : Bool) (p q : Nat) (e : Int) (hq : 0 < q)
    (hle : q * 2 ^ e.toNat ≤ p * 2 ^ (-e).toNat) :
    float32_pack neg p q e = float32.inf neg ∨
    ∃ m f, m ≠ 0 ∧ float32_pack neg p q e = float32.fin neg m f := by
  unfold float32_pack
  have hden : 0 < q * 2 ^ e.toNat := Nat.mul_pos hq (Nat.two_pow_pos _)
  have hm0 : 0 < p * 2 ^ (-e).toNat / (q * 2 ^ e.toNat) := Nat.div_pos hle hden
  simp only []
  have hm : 0 < (if q * 2 ^ e.toNat < 2 * (p * 2 ^ (-e).toNat % (q * 2 ^ e.toNat)) ∨
      (2 * (p * 2 ^ (-e).toNat % (q * 2 ^ e.toNat)) = q * 2 ^ e.toNat ∧
        p * 2 ^ (-e).toNat / (q * 2 ^ e.toNat) % 2 = 1)
      then p * 2 ^ (-e).toNat / (q * 2 ^ e.toNat) + 1
      else p * 2 ^ (-e).toNat / (q * 2 ^ e.toNat)) := by
    split <;> omega
  generalize (if q * 2 ^ e.toNat < 2 * (p * 2 ^ (-e).toNat % (q * 2 ^ e.toNat)) ∨
      (2 * (p * 2 ^ (-e).toNat % (q * 2 ^ e.toNat)) = q * 2 ^ e.toNat ∧
        p * 2 ^ (-e).toNat / (q * 2 ^ e.toNat) % 2 = 1)
      then p * 2 ^ (-e).toNat / (q * 2 ^ e.toNat) + 1
      else p * 2 ^ (-e).toNat / (q * 2 ^ e.toNat)) = m at hm ⊢
  by_cases h24 : m = 2 ^ 24
  · simp only [h24, if_true]
    by_cases h104 : 104 < e + 1
    · left; simp [h104]
    · right; exact ⟨2 ^ 23, e + 1, by decide, by simp [h104]⟩
  · simp only [h24, if_false]
    by_cases h104 : 104 < e
    · left; simp [h104]
    · right; exact ⟨m, e, by omega, by simp [h104]⟩

theorem float32_exponent_one (n : Nat) (hn : 0 < n) :
    float32_exponent n 1 = ((bit_length n n - 1 : Nat) : Int) - 23 := by
  have hb1 : bit_length 1 1 = 1 := by decide
  have hbl := two_pow_bit_length_le n n (Nat.le_refl n) hn
  have hpos := bit_length_pos n n (Nat.le_refl n) hn
  obtain ⟨b, hb⟩ : ∃ b, bit_length n n = b + 1 := ⟨bit_length n n - 1, by omega⟩
  unfold float32_exponent
  rw [hb] at hbl ⊢
  rw [hb1]
  have hk : (((b + 1 : Nat) : Int) - ((1 : Nat) : Int)) = (b : Int) := by
    push_cast
    ring
  simp only [hk, Nat.add_sub_cancel, Int.toNat_ofNat, Int.toNat_neg_nat, pow_zero, mul_one,
    one_mul] at hbl ⊢
  rw [if_pos hbl]
  apply max_eq_left
  omega

theorem float32_of_nat_pos (n : Nat) (hn : 0 < n) :
    float32_of_nat n = float32.inf false ∨
    ∃ m e, m ≠ 0 ∧ float32_of_nat n = float32.fin false m e := by
  unfold float32_of_nat float32_round
  rw [if_neg (by omega)]
  apply float32_pack_ne_zero false n 1 _ (by decide)
  rw [float32_exponent_one n hn]
  have hbl := two_pow_bit_length_le n n (Nat.le_refl n) hn
  generalize bit_length n n - 1 = b at hbl
  by_cases h : 23 ≤ b
  · have h1 : (((b : Nat) : Int) - 23).toNat = b - 23 := by omega
    have h2 : (-(((b : Nat) : Int) - 23)).toNat = 0 := by omega
    rw [h1, h2, pow_zero, mul_one, one_mul]
    exact le_trans (Nat.pow_le_pow_right (by decide) (by omega)) hbl
  · have h1 : (((b : Nat) : Int) - 23).toNat = 0 := by omega
    rw [h1, pow_zero, mul_one]
    exact Nat.mul_pos hn (Nat.two_pow_pos _)

/-- The percentage computed from a zero count on a non-empty frame is `0.0f`. -/
theorem percentage_of_zero_changed (size : Nat) (hsize : 0 < size) :
    float32_mul (float32_div (float32_of_nat 0) (float32_of_nat size)) float32_hundred
      = float32_zero := by
  have h0 : float32_of_nat 0 = float32.fin false 0 (-149) := by decide
  have hdiv : float32_div (float32_of_nat 0) (float32_of_nat size) = float32.fin false 0 (-149) := by
    rw [h0]
    rcases float32_of_nat_pos size hsize with h | ⟨m, e, hm, h⟩
    · rw [h]; rfl
    · rw [h]
      simp [float32_div, hm, float32_round_zero]
  rw [hdiv]
  decide

theorem process_compare_eq (st : motion_state) (prev data : List Nat) (size : Nat)
    (hprev : st.s_prev_frame = some prev) (hbase : st.s_has_baseline = true)
    (hsize : size = st.s_frame_size) :
    motion_detector_process st (some data) size
      = ({ st with s_prev_frame := some (blend_baseline data prev size) },
         { detected :=
             float32_ge
               (float32_mul
                 (float32_div (float32_of_nat (count_changed data prev st.s_threshold size))
                   (float32_of_nat size))
                 float32_hundred)
               st.s_change_threshold,
           change_percentage :=
             float32_mul
               (float32_div (float32_of_nat (count_changed data prev st.s_threshold size))
                 (float32_of_nat size))
               float32_hundred,
           changed_pixels := count_changed data prev st.s_threshold size }) := by
  simp [motion_detector_process, hprev, hbase, hsize]

/-- C7: with an established baseline and a sample of the configured length,
`changed_pixels` is the number of indices whose absolute difference to the
baseline exceeds the pixel threshold, the percentage is
`(float)changed / (float)size * 100.0f`, and `detected` is the comparison of
that percentage with the change threshold.  For an all-zero baseline and a
sample whose pixels are 0 or 255, with a pixel threshold in 0..254, the count
is the number of pixels set to 255. -/
theorem process_counts_changed_pixels (st : motion_state) (prev data : List Nat) (size : Nat)
    (hprev : st.s_prev_frame = some prev) (hbase : st.s_has_baseline = true)
    (hsize : size = st.s_frame_size) (hdata : data.length = size) (hlt : size < 2 ^ 32) :
    (motion_detector_process st (some data) size).2.changed_pixels
        = (List.range size).countP (fun i =>
            decide (st.s_threshold
              < ((Int.natAbs ((data.getD i 0 : Int) - (prev.getD i 0 : Int)) : Nat) : Int))) ∧
    (motion_detector_process st (some data) size).2.change_percentage
        = float32_mul
            (float32_div
              (float32_of_nat (motion_detector_process st (some data) size).2.changed_pixels)
              (float32_of_nat size))
            float32_hundred ∧
    (motion_detector_process st (some data) size).2.detected
        = float32_ge (motion_detector_process st (some data) size).2.change_percentage
            st.s_change_threshold ∧
    (prev = List.replicate size 0 → (∀ x ∈ data, x = 0 ∨ x = 255) →
      0 ≤ st.s_threshold → st.s_threshold < 255 →
      (motion_detector_process st (some data) size).2.changed_pixels = data.count 255 ∧
      (motion_detector_process st (some data) size).2.change_percentage
        = float32_mul (float32_div (float32_of_nat (data.count 255)) (float32_of_nat size))
            float32_hundred) := by
  rw [process_compare_eq st prev data size hprev hbase hsize]
  have hcount := count_changed_eq data prev st.s_threshold size hlt
  refine ⟨hcount, rfl, rfl, ?_⟩
  intro hzero hvals hlo hhi
  have hk : count_changed data prev st.s_threshold size = data.count 255 := by
    rw [hcount, hzero, ← hdata]
    have h0 : ∀ i, (List.replicate data.length 0).getD i 0 = 0 := by
      intro i
      simp only [List.getD_eq_getElem?_getD, List.getElem?_replicate]
      split <;> rfl
    simp only [h0]
    rw [countP_range_getD (fun x => decide (st.s_threshold
      < ((Int.natAbs ((x : Int) - ((0 : Nat) : Int)) : Nat) : Int))) data]
    rw [List.count_eq_countP]
    apply List.countP_congr
    intro x hx
    rcases hvals x hx with h | h
    · subst h
      simp
      omega
    · subst h
      simp
      omega
  simp only [hk, and_self]

/-- C8: a `motion_detector_process` call that compares against an established
baseline replaces every baseline pixel by `(old * 9 + new) / 10`, rounded
down, whatever the verdict of the comparison is. -/
theorem process_blends_baseline (st : motion_state) (prev data : List Nat) (size : Nat)
    (hprev : st.s_prev_frame = some prev) (hbase : st.s_has_baseline = true)
    (hsize : size = st.s_frame_size) (hdata : data.length = size)
    (hplen : prev.length = size)
    (hbytes_data : ∀ x ∈ data, x < 256) (hbytes_prev : ∀ x ∈ prev, x < 256) :
    (motion_detector_process st (some data) size).1
      = { st with
          s_prev_frame := some (List.zipWith (fun o n => (o * 9 + n) / 10) prev data) } := by
  rw [process_compare_eq st prev data size hprev hbase hsize]
  have hb : blend_baseline data prev size
      = List.zipWith (fun o n => (o * 9 + n) / 10) prev data := by
    apply List.ext_getElem
    · rw [blend_baseline_length, List.length_zipWith]
      omega
    · intro i h1 h2
      have hlen := blend_baseline_length data prev size
      have hi : i < size := by omega
      have hg := blend_baseline_getD data prev size i
      rw [List.getD_eq_getElem?_getD, List.getElem?_eq_getElem h1, Option.getD_some] at hg
      rw [hg, List.getElem_zipWith]
      have hip : i < prev.length := by omega
      have hid : i < data.length := by omega
      simp only [hi, hip, and_self, if_true, List.getD_eq_getElem?_getD,
        List.getElem?_eq_getElem hip, List.getElem?_eq_getElem hid, Option.getD_some]
      have hp := hbytes_prev prev[i] (List.getElem_mem hip)
      have hd := hbytes_data data[i] (List.getElem_mem hid)
      omega
  simp only [hb]

/-- C9: a `motion_detector_process` call with a length different from the
configured frame size returns detected = false and leaves every variable of
the detector (baseline buffer, baseline flag, both thresholds) as it was. -/
theorem process_size_mismatch (st : motion_state) (grayscale_data : Option (List Nat))
    (size : Nat) (hsize : size ≠ st.s_frame_size) :
    (motion_detector_process st grayscale_data size).1 = st ∧
    (motion_detector_process st grayscale_data size).2
      = { detected := false, change_percentage := float32_zero, changed_pixels := 0 } := by
  unfold motion_detector_process motion_result_none
  cases hp : st.s_prev_frame with
  | none => simp
  | some prev =>
    cases grayscale_data with
    | none => simp
    | some data => simp [hsize]

/-- C10, as stated, fails: an uninitialized detector, a detector called with a
wrong length, and a genuine comparison of a frame with an identical baseline
all return the same value; nothing in the result tells them apart. -/
theorem error_result_equals_no_motion_result :
    motion_error_condition motion_state_boot 4 ∧
    motion_error_condition detector_2x2 3 ∧
    motion_genuine_comparison detector_2x2 (some [10, 20, 30, 40]) 4 ∧
    (motion_detector_process detector_2x2 (some [10, 20, 30, 40]) 4).2.detected = false ∧
    (motion_detector_process motion_state_boot (some [10, 20, 30, 40]) 4).2
      = (motion_detector_process detector_2x2 (some [10, 20, 30, 40]) 4).2 ∧
    (motion_detector_process detector_2x2 (some [10, 20, 30]) 3).2
      = (motion_detector_process detector_2x2 (some [10, 20, 30, 40]) 4).2 := by
  decide

/-- C10, amended: for an error condition `motion_detector_process` returns the
fixed all-zero result and leaves the detector as it was.  A genuine comparison
on a non-empty frame that found no motion returns this very value exactly when
it counted no changed pixel: the result carries no separate status signal. -/
theorem error_result_is_all_zero (st : motion_state) (grayscale_data : Option (List Nat))
    (size : Nat) (herr : motion_error_condition st size) :
    (motion_detector_process st grayscale_data size).2
      = { detected := false, change_percentage := float32_zero, changed_pixels := 0 } ∧
    (motion_detector_process st grayscale_data size).1 = st ∧
    (∀ (st2 : motion_state) (data2 : Option (List Nat)) (size2 : Nat),
      motion_genuine_comparison st2 data2 size2 → 0 < size2 →
      (motion_detector_process st2 data2 size2).2.detected = false →
      ((motion_detector_process st2 data2 size2).2
          = (motion_detector_process st grayscale_data size).2 ↔
        (motion_detector_process st2 data2 size2).2.changed_pixels = 0)) := by
  have hres : motion_detector_process st grayscale_data size = (st, motion_result_none) := by
    unfold motion_detector_process
    rcases herr with h | h
    · simp [h]
    · cases hp : st.s_prev_frame with
      | none => simp
      | some prev =>
        cases grayscale_data with
        | none => simp
        | some data => simp [h]
  rw [hres]
  refine ⟨rfl, rfl, ?_⟩
  intro st2 data2 size2 hgen hpos hdet
  obtain ⟨hp, hd, hs, hb⟩ := hgen
  obtain ⟨prev, hprev⟩ := Option.ne_none_iff_exists'.mp hp
  obtain ⟨data, hdata⟩ := Option.ne_none_iff_exists'.mp hd
  subst hdata
  rw [process_compare_eq st2 prev data size2 hprev hb hs] at hdet ⊢
  constructor
  · intro heq
    have := congrArg motion_result_t.changed_pixels heq
    simpa [motion_result_none] using this
  · intro hzero
    simp only at hzero hdet
    simp only [motion_result_none, hzero, percentage_of_zero_changed size2 hpos] at hdet ⊢
    simp only [hdet]

/-- Witness for C10, amended: a length mismatch on the 2 x 2 detector, against
a comparison with one changed pixel and a change threshold of 50 percent. -/
theorem error_result_is_all_zero_witness :
    motion_error_condition detector_2x2 3 ∧
    (motion_detector_process detector_2x2 (some [10, 20, 30]) 3).2
      = { detected := false, change_percentage := float32_zero, changed_pixels := 0 } ∧
    (motion_detector_process detector_2x2 (some [10, 20, 30]) 3).1 = detector_2x2 ∧
    motion_genuine_comparison { detector_2x2 with s_change_threshold := float32_of_nat 50 }
      (some [10, 200, 30, 40]) 4 ∧
    (motion_detector_process { detector_2x2 with s_change_threshold := float32_of_nat 50 }
        (some [10, 200, 30, 40]) 4).2.detected = false ∧
    (motion_detector_process { detector_2x2 with s_change_threshold := float32_of_nat 50 }
        (some [10, 200, 30, 40]) 4).2
      ≠ (motion_detector_process detector_2x2 (some [10, 20, 30]) 3).2 ∧
    (motion_detector_process detector_2x2 (some [10, 20, 30, 40]) 4).2
      = (motion_detector_process detector_2x2 (some [10, 20, 30]) 3).2 :=
  ⟨by decide,
   (error_result_is_all_zero detector_2x2 (some [10, 20, 30]) 3 (by decide)).1,
   (error_result_is_all_zero detector_2x2 (some [10, 20, 30]) 3 (by decide)).2.1,
   by decide, by decide,
   fun h => absurd
     (((error_result_is_all_zero detector_2x2 (some [10, 20, 30]) 3 (by decide)).2.2
       { detector_2x2 with s_change_threshold := float32_of_nat 50 }
       (some [10, 200, 30, 40]) 4 (by decide) (by decide) (by decide)).mp h)
     (by decide),
   ((error_result_is_all_zero detector_2x2 (some [10, 20, 30]) 3 (by decide)).2.2
     detector_2x2 (some [10, 20, 30, 40]) 4 (by decide) (by decide) (by decide)).mpr
     (by decide)⟩

/-- Witness for C6: a 2 x 2 detector, first call after init and first call after
reset. -/
theorem first_process_call_sets_baseline_witness :
    (motion_detector_init motion_state_boot 2 2 15 (float32_of_int 5)
        (some (fun _ => 7)) none).2 = esp_err_t.ESP_OK ∧
    motion_detector_process
        (motion_detector_init motion_state_boot 2 2 15 (float32_of_int 5)
          (some (fun _ => 7)) none).1 (some [10, 20, 30, 40]) 4
      = ({ (motion_detector_init motion_state_boot 2 2 15 (float32_of_int 5)
              (some (fun _ => 7)) none).1 with
            s_prev_frame := some [10, 20, 30, 40], s_has_baseline := true },
         { detected := false, change_percentage := float32_zero, changed_pixels := 0 }) ∧
    motion_detector_process (motion_detector_reset detector_2x2) (some [1, 2, 3, 4]) 4
      = ({ detector_2x2 with s_prev_frame := some [1, 2, 3, 4], s_has_baseline := true },
         { detected := false, change_percentage := float32_zero, changed_pixels := 0 }) :=
  ⟨by decide,
   (first_process_call_sets_baseline motion_state_boot [10, 20, 30, 40]).1 2 2 15
     (float32_of_int 5) (some (fun _ => 7)) none (by decide) (by decide) (by decide),
   (first_process_call_sets_baseline detector_2x2 [1, 2, 3, 4]).2 [10, 20, 30, 40]
     (by decide) (by decide) (by decide)⟩

/-- Witness for C7: all-zero 2 x 2 baseline, two pixels of four set to 255; the
count is 2, the percentage is 50.0f and motion is detected. -/
theorem process_counts_changed_pixels_witness :
    (detector_after [0, 0, 0, 0]).s_prev_frame = some (List.replicate 4 0) ∧
    (motion_detector_process (detector_after [0, 0, 0, 0]) (some [0, 255, 0, 255]) 4).2.changed_pixels
      = [0, 255, 0, 255].count 255 ∧
    (motion_detector_process (detector_after [0, 0, 0, 0]) (some [0, 255, 0, 255]) 4).2.change_percentage
      = float32_mul (float32_div (float32_of_nat ([0, 255, 0, 255].count 255)) (float32_of_nat 4))
          float32_hundred ∧
    (motion_detector_process (detector_after [0, 0, 0, 0]) (some [0, 255, 0, 255]) 4).2
      = { detected := true, change_percentage := float32_of_nat 50, changed_pixels := 2 } :=
  ⟨by decide,
   ((process_counts_changed_pixels (detector_after [0, 0, 0, 0]) (List.replicate 4 0)
      [0, 255, 0, 255] 4 (by decide) (by decide) (by decide) (by decide) (by decide)).2.2.2
      (by decide) (by decide) (by decide) (by decide)).1,
   ((process_counts_changed_pixels (detector_after [0, 0, 0, 0]) (List.replicate 4 0)
      [0, 255, 0, 255] 4 (by decide) (by decide) (by decide) (by decide) (by decide)).2.2.2
      (by decide) (by decide) (by decide) (by decide)).2,
   by decide⟩

/-- Witness for C8: old 0 with new 100 gives 10, old 200 with new 0 gives 180,
in a call that detects motion; a second call that detects none blends as well. -/
theorem process_blends_baseline_witness :
    (detector_after [0, 200, 7, 255]).s_prev_frame = some [0, 200, 7, 255] ∧
    (motion_detector_process (detector_after [0, 200, 7, 255]) (some [100, 0, 9, 0]) 4).1
      = { detector_after [0, 200, 7, 255] with s_prev_frame := some [10, 180, 7, 229] } ∧
    (motion_detector_process (detector_after [0, 200, 7, 255]) (some [100, 0, 9, 0]) 4).2.detected
      = true ∧
    (motion_detector_process (detector_after [0, 200, 7, 255]) (some [0, 200, 9, 255]) 4).1
      = { detector_after [0, 200, 7, 255] with s_prev_frame := some [0, 200, 7, 255] } ∧
    (motion_detector_process (detector_after [0, 200, 7, 255]) (some [0, 200, 9, 255]) 4).2.detected
      = false :=
  ⟨by decide,
   process_blends_baseline (detector_after [0, 200, 7, 255]) [0, 200, 7, 255] [100, 0, 9, 0] 4
     (by decide) (by decide) (by decide) (by decide) (by decide) (by decide) (by decide),
   by decide,
   process_blends_baseline (detector_after [0, 200, 7, 255]) [0, 200, 7, 255] [0, 200, 9, 255] 4
     (by decide) (by decide) (by decide) (by decide) (by decide) (by decide) (by decide),
   by decide⟩

/-- Witness for C9: three bytes offered to the 2 x 2 detector. -/
theorem process_size_mismatch_witness :
    (3 : Nat) ≠ detector_2x2.s_frame_size ∧
    (motion_detector_process detector_2x2 (some [10, 200, 30]) 3).1 = detector_2x2 ∧
    (motion_detector_process detector_2x2 (some [10, 200, 30]) 3).2
      = { detected := false, change_percentage := float32_zero, changed_pixels := 0 } :=
  ⟨by decide,
   (process_size_mismatch detector_2x2 (some [10, 200, 30]) 3 (by decide)).1,
   (process_size_mismatch detector_2x2 (some [10, 200, 30]) 3 (by decide)).2⟩

/-! ## The detection task -/

theorem handle_rgb565_return_fb (fb : camera_fb_t) (md fd : Bool) (jpg : frame2jpg_result)
    (q : queue_t) (hfmt : fb.format = pixformat_t.PIXFORMAT_RGB565) :
    (detection_task_handle fb md fd jpg q).2.filter effect.is_return_fb
      = [effect.camera_manager_return_fb fb] := by
  unfold detection_task_handle release_event xQueueSend
  simp only [hfmt]
  rcases jpg with ⟨ok, buf, len⟩
  cases md <;> cases fd <;> cases ok <;> cases buf <;>
    simp [effect.is_return_fb] <;> split <;> simp [effect.is_return_fb]

theorem iteration_effects (cfg : sdkconfig) (st : detection_state) (fb : camera_fb_t)
    (face : Bool) (jpg : frame2jpg_result) :
    ∃ (md fd : Bool),
      (fb.format ≠ pixformat_t.PIXFORMAT_RGB565 → md = false ∧ fd = false) ∧
      (detection_task_iteration cfg st (some fb) face jpg).2
        = (detection_task_handle fb md fd jpg st.queue).2
            ++ [effect.vTaskDelay cfg.CONFIG_DETECTION_INTERVAL_MS] ∧
      (detection_task_iteration cfg st (some fb) face jpg).1.queue
        = (detection_task_handle fb md fd jpg st.queue).1 := by
  unfold detection_task_iteration
  by_cases hfmt : fb.format = pixformat_t.PIXFORMAT_RGB565
  · exact ⟨_, _, fun h => absurd hfmt h, rfl, rfl⟩
  · refine ⟨false, false, fun _ => ⟨rfl, rfl⟩, ?_, ?_⟩ <;> simp [hfmt]

/-- C1: in an iteration of `detection_task` whose captured frame is RGB565,
the calls of `camera_manager_return_fb` made by the iteration are exactly one
call on the captured frame, whatever the detectors, the JPEG encoder and the
queue do. -/
theorem rgb565_frame_returned_exactly_once (cfg : sdkconfig) (st : detection_state)
    (fb : camera_fb_t) (face_result_detected : Bool) (jpg : frame2jpg_result)
    (hfmt : fb.format = pixformat_t.PIXFORMAT_RGB565) :
    (detection_task_iteration cfg st (some fb) face_result_detected jpg).2.filter
        effect.is_return_fb
      = [effect.camera_manager_return_fb fb] := by
  obtain ⟨md, fd, _, heff, _⟩ := iteration_effects cfg st fb face_result_detected jpg
  rw [heff, List.filter_append, handle_rgb565_return_fb fb md fd jpg st.queue hfmt]
  simp [effect.is_return_fb]

theorem handle_queue_send_payload (fb : camera_fb_t) (md fd : Bool) (jpg : frame2jpg_result)
    (q : queue_t) (e : detection_event_t) (acc : Bool)
    (h : effect.xQueueSend e acc ∈ (detection_task_handle fb md fd jpg q).2) :
    (e.fb = some fb ∧ e.jpg_buf = none ∧ fb.format = pixformat_t.PIXFORMAT_JPEG) ∨
    (e.fb = none ∧ e.jpg_buf ≠ none ∧ e.jpg_buf = jpg.jpg_buf ∧ jpg.ok = true ∧
      fb.format = pixformat_t.PIXFORMAT_RGB565) := by
  unfold detection_task_handle release_event xQueueSend at h
  rcases jpg with ⟨ok, buf, len⟩
  by_cases hj : fb.format = pixformat_t.PIXFORMAT_JPEG
  · simp only [hj] at h
    cases md <;> cases fd <;> simp at h <;> split at h <;> simp at h <;>
      (rcases h with ⟨h1, h2⟩; subst h1; simp [hj])
  · by_cases hr : fb.format = pixformat_t.PIXFORMAT_RGB565
    · simp only [hr] at h
      cases md <;> cases fd <;> cases ok <;> cases buf <;> simp at h <;> split at h <;>
        simp at h <;> (rcases h with ⟨h1, h2⟩; subst h1; simp [hr])
    · simp only [hj, hr] at h
      cases md <;> cases fd <;> simp at h

theorem handle_no_event_on_failure (fb : camera_fb_t) (md fd : Bool) (jpg : frame2jpg_result)
    (q : queue_t) (hfmt : fb.format = pixformat_t.PIXFORMAT_RGB565) (hfail : jpg.ok = false) :
    (detection_task_handle fb md fd jpg q).2 = [effect.camera_manager_return_fb fb] ∧
    (detection_task_handle fb md fd jpg q).1 = q := by
  unfold detection_task_handle release_event xQueueSend
  simp only [hfmt, hfail]
  cases md <;> cases fd <;> simp

/-- C2: every event that an iteration of `detection_task` passes to
`xQueueSend` carries exactly one payload, a frame or a re-encoded buffer; when
`frame2jpg` fails for an RGB565 frame the iteration makes no `xQueueSend` call
and leaves the queue as it was. -/
theorem enqueued_event_has_exactly_one_payload (cfg : sdkconfig) (st : detection_state)
    (fb : camera_fb_t) (face_result_detected : Bool) (jpg : frame2jpg_result) :
    (∀ (e : detection_event_t) (accepted : Bool),
      effect.xQueueSend e accepted
          ∈ (detection_task_iteration cfg st (some fb) face_result_detected jpg).2 →
      (e.fb ≠ none ∧ e.jpg_buf = none) ∨ (e.jpg_buf ≠ none ∧ e.fb = none)) ∧
    (fb.format = pixformat_t.PIXFORMAT_RGB565 → jpg.ok = false →
      (detection_task_iteration cfg st (some fb) face_result_detected jpg).2.filter
          effect.is_queue_send = [] ∧
      (detection_task_iteration cfg st (some fb) face_result_detected jpg).1.queue
        = st.queue) := by
  obtain ⟨md, fd, _, heff, hq⟩ := iteration_effects cfg st fb face_result_detected jpg
  rw [heff, hq]
  constructor
  · intro e accepted hmem
    rw [List.mem_append] at hmem
    rcases hmem with hmem | hmem
    · rcases handle_queue_send_payload fb md fd jpg st.queue e accepted hmem with h | h
      · left
        exact ⟨by simp [h.1], h.2.1⟩
      · right
        exact ⟨h.2.1, h.1⟩
    · simp at hmem
  · intro hfmt hfail
    obtain ⟨h1, h2⟩ := handle_no_event_on_failure fb md fd jpg st.queue hfmt hfail
    rw [h1, h2]
    simp [effect.is_queue_send]

/-- C3: when `xQueueSend` rejects the event in the handling block of
`detection_task`, the block makes no second `xQueueSend` call, leaves the queue
as it was, and releases the payload of the event exactly once: for a frame
payload the only `camera_manager_return_fb` call of the iteration is the one on
that frame (none follows at the end of the iteration), for a re-encoded buffer
the only `free` call of the iteration is the one on that buffer. -/
theorem rejected_event_payload_released_once (fb : camera_fb_t)
    (motion_detected face_detected : Bool) (jpg : frame2jpg_result) (q : queue_t)
    (e : detection_event_t)
    (hrej : effect.xQueueSend e false
      ∈ (detection_task_handle fb motion_detected face_detected jpg q).2) :
    (detection_task_handle fb motion_detected face_detected jpg q).2.filter
        effect.is_queue_send = [effect.xQueueSend e false] ∧
    (detection_task_handle fb motion_detected face_detected jpg q).1 = q ∧
    (∀ f, e.fb = some f →
      (detection_task_handle fb motion_detected face_detected jpg q).2.filter
          effect.is_return_fb = [effect.camera_manager_return_fb f] ∧
      (detection_task_handle fb motion_detected face_detected jpg q).2.filter
          effect.is_free = []) ∧
    (∀ b, e.jpg_buf = some b →
      (detection_task_handle fb motion_detected face_detected jpg q).2.filter
          effect.is_free = [effect.free b] ∧
      (detection_task_handle fb motion_detected face_detected jpg q).2.filter
          effect.is_return_fb = [effect.camera_manager_return_fb fb]) := by
  unfold detection_task_handle release_event xQueueSend at hrej ⊢
  rcases jpg with ⟨ok, buf, len⟩
  by_cases hj : fb.format = pixformat_t.PIXFORMAT_JPEG
  · simp only [hj] at hrej ⊢
    cases motion_detected <;> cases face_detected <;> simp at hrej ⊢ <;>
      split at hrej <;> simp at hrej <;> subst hrej <;>
      simp [effect.is_queue_send, effect.is_return_fb, effect.is_free, *]
  · by_cases hr : fb.format = pixformat_t.PIXFORMAT_RGB565
    · simp only [hr] at hrej ⊢
      cases motion_detected <;> cases face_detected <;> cases ok <;> cases buf <;>
        simp at hrej ⊢ <;> split at hrej <;> simp at hrej <;> subst hrej <;>
        simp [effect.is_queue_send, effect.is_return_fb, effect.is_free, *]
    · simp only [hj, hr] at hrej
      cases motion_detected <;> cases face_detected <;> simp at hrej

/-- C4: when the handling block of `detection_task` hands an event made from
a JPEG frame over to the queue, the payload of the event is the captured frame
itself (and no re-encoded buffer), the event is the new last element of the
queue, and the iteration makes no `camera_manager_return_fb` call and no `free`
call at all. -/
theorem jpeg_frame_is_transferred (fb : camera_fb_t) (motion_detected face_detected : Bool)
    (jpg : frame2jpg_result) (q : queue_t) (e : detection_event_t)
    (hfmt : fb.format = pixformat_t.PIXFORMAT_JPEG)
    (hyield : effect.xQueueSend e true
      ∈ (detection_task_handle fb motion_detected face_detected jpg q).2) :
    e.fb = some fb ∧ e.jpg_buf = none ∧
    (detection_task_handle fb motion_detected face_detected jpg q).1.items = q.items ++ [e] ∧
    (detection_task_handle fb motion_detected face_detected jpg q).2.filter
        effect.is_return_fb = [] ∧
    (detection_task_handle fb motion_detected face_detected jpg q).2.filter
        effect.is_release = [] := by
  unfold detection_task_handle release_event xQueueSend at hyield ⊢
  simp only [hfmt] at hyield ⊢
  cases motion_detected <;> cases face_detected <;> simp at hyield ⊢ <;>
    split at hyield <;> simp at hyield <;> subst hyield <;>
    simp [effect.is_return_fb, effect.is_release, *]

/-! ## The notification task -/

/-- C5: for every event taken from the queue, the release calls made by one
iteration of `telegram_notification_task` are exactly the release of the
payload of the event, once: `camera_manager_return_fb` for a frame, `free` for
a re-encoded buffer.  This holds for every answer of the cooldown gate and of
the messaging client, and on the text fallback. -/
theorem dequeued_event_released_exactly_once (cfg : sdkconfig) (st : notifier_state)
    (event : detection_event_t) (now : Int) (net : http_outcome) :
    (telegram_notification_iteration cfg st event now net).2.filter effect.is_release
        = release_event event ∧
    (∀ f, event.fb = some f → event.jpg_buf = none →
      (telegram_notification_iteration cfg st event now net).2.filter effect.is_release
        = [effect.camera_manager_return_fb f]) ∧
    (∀ b, event.fb = none → event.jpg_buf = some b →
      (telegram_notification_iteration cfg st event now net).2.filter effect.is_release
        = [effect.free b]) := by
  have hrel : (release_event event).filter effect.is_release = release_event event := by
    unfold release_event
    cases event.fb <;> cases event.jpg_buf <;> simp [effect.is_release]
  have hmain : (telegram_notification_iteration cfg st event now net).2.filter
      effect.is_release = release_event event := by
    unfold telegram_notification_iteration
    by_cases hgate : telegram_bot_can_send st.bot cfg.CONFIG_TELEGRAM_COOLDOWN_SEC now = true
    · simp only [hgate, Bool.not_true, Bool.false_eq_true, if_false]
      rw [List.filter_append, List.filter_append, List.filter_append, hrel]
      split <;> simp [effect.is_release]
    · simp only [hgate, Bool.not_false, if_true]
      simpa using hrel
  refine ⟨hmain, ?_, ?_⟩
  · intro f hf hj
    rw [hmain]
    simp [release_event, hf, hj]
  · intro b hf hj
    rw [hmain]
    simp [release_event, hf, hj]

/-- Witness for C1: no detection, detection with enqueue, detection with a
failed re-encoding, detection with a full queue. -/
theorem rgb565_frame_returned_exactly_once_witness :
    frame_rgb565.format = pixformat_t.PIXFORMAT_RGB565 ∧
    (detection_task_iteration config_default (detection_state_2x2 (xQueueCreate 5))
        (some frame_rgb565) false jpg_ok).2.filter effect.is_return_fb
      = [effect.camera_manager_return_fb frame_rgb565] ∧
    (detection_task_iteration config_default (detection_state_2x2 (xQueueCreate 5))
        (some frame_rgb565) true jpg_ok).2.filter effect.is_return_fb
      = [effect.camera_manager_return_fb frame_rgb565] ∧
    (detection_task_iteration config_default (detection_state_2x2 (xQueueCreate 5))
        (some frame_rgb565) true jpg_failed).2.filter effect.is_return_fb
      = [effect.camera_manager_return_fb frame_rgb565] ∧
    (detection_task_iteration config_default (detection_state_2x2 queue_full)
        (some frame_rgb565) true jpg_ok).2.filter effect.is_return_fb
      = [effect.camera_manager_return_fb frame_rgb565] ∧
    (detection_task_iteration config_default (detection_state_2x2 queue_full)
        (some frame_rgb565) true jpg_ok).2
      = [effect.xQueueSend event_jpg false, effect.free [0xFF, 0xD8],
         effect.camera_manager_return_fb frame_rgb565, effect.vTaskDelay 500] :=
  ⟨by decide,
   rgb565_frame_returned_exactly_once config_default (detection_state_2x2 (xQueueCreate 5))
     frame_rgb565 false jpg_ok (by decide),
   rgb565_frame_returned_exactly_once config_default (detection_state_2x2 (xQueueCreate 5))
     frame_rgb565 true jpg_ok (by decide),
   rgb565_frame_returned_exactly_once config_default (detection_state_2x2 (xQueueCreate 5))
     frame_rgb565 true jpg_failed (by decide),
   rgb565_frame_returned_exactly_once config_default (detection_state_2x2 queue_full)
     frame_rgb565 true jpg_ok (by decide),
   by decide⟩

/-- Witness for C2: an enqueued event with a re-encoded buffer, and a failed
re-encoding that enqueues nothing. -/
theorem enqueued_event_has_exactly_one_payload_witness :
    effect.xQueueSend event_jpg true
      ∈ (detection_task_iteration config_default (detection_state_2x2 (xQueueCreate 5))
          (some frame_rgb565) true jpg_ok).2 ∧
    ((event_jpg.fb ≠ none ∧ event_jpg.jpg_buf = none) ∨
      (event_jpg.jpg_buf ≠ none ∧ event_jpg.fb = none)) ∧
    (detection_task_iteration config_default (detection_state_2x2 (xQueueCreate 5))
        (some frame_rgb565) true jpg_failed).2.filter effect.is_queue_send = [] ∧
    (detection_task_iteration config_default (detection_state_2x2 (xQueueCreate 5))
        (some frame_rgb565) true jpg_failed).1.queue = xQueueCreate 5 :=
  ⟨by decide,
   (enqueued_event_has_exactly_one_payload config_default (detection_state_2x2 (xQueueCreate 5))
     frame_rgb565 true jpg_ok).1 event_jpg true (by decide),
   ((enqueued_event_has_exactly_one_payload config_default
     (detection_state_2x2 (xQueueCreate 5)) frame_rgb565 true jpg_failed).2
     (by decide) (by decide)).1,
   ((enqueued_event_has_exactly_one_payload config_default
     (detection_state_2x2 (xQueueCreate 5)) frame_rgb565 true jpg_failed).2
     (by decide) (by decide)).2⟩

/-- Witness for C3: a full queue rejects an event with a frame payload and an
event with a re-encoded buffer. -/
theorem rejected_event_payload_released_once_witness :
    effect.xQueueSend event_fb false
      ∈ (detection_task_handle frame_jpeg true false jpg_ok queue_full).2 ∧
    (detection_task_handle frame_jpeg true false jpg_ok queue_full).2.filter
        effect.is_queue_send = [effect.xQueueSend event_fb false] ∧
    (detection_task_handle frame_jpeg true false jpg_ok queue_full).2.filter
        effect.is_return_fb = [effect.camera_manager_return_fb frame_jpeg] ∧
    effect.xQueueSend event_jpg false
      ∈ (detection_task_handle frame_rgb565 false true jpg_ok queue_full).2 ∧
    (detection_task_handle frame_rgb565 false true jpg_ok queue_full).2.filter
        effect.is_free = [effect.free [0xFF, 0xD8]] ∧
    (detection_task_handle frame_rgb565 false true jpg_ok queue_full).2.filter
        effect.is_return_fb = [effect.camera_manager_return_fb frame_rgb565] :=
  ⟨by decide,
   (rejected_event_payload_released_once frame_jpeg true false jpg_ok queue_full event_fb
     (by decide)).1,
   ((rejected_event_payload_released_once frame_jpeg true false jpg_ok queue_full event_fb
     (by decide)).2.2.1 frame_jpeg rfl).1,
   by decide,
   ((rejected_event_payload_released_once frame_rgb565 false true jpg_ok queue_full event_jpg
     (by decide)).2.2.2 [0xFF, 0xD8] rfl).1,
   ((rejected_event_payload_released_once frame_rgb565 false true jpg_ok queue_full event_jpg
     (by decide)).2.2.2 [0xFF, 0xD8] rfl).2⟩

/-- Witness for C4: a JPEG frame with a motion verdict and an empty queue. -/
theorem jpeg_frame_is_transferred_witness :
    frame_jpeg.format = pixformat_t.PIXFORMAT_JPEG ∧
    effect.xQueueSend event_fb true
      ∈ (detection_task_handle frame_jpeg true false jpg_ok (xQueueCreate 5)).2 ∧
    event_fb.fb = some frame_jpeg ∧ event_fb.jpg_buf = none ∧
    (detection_task_handle frame_jpeg true false jpg_ok (xQueueCreate 5)).1.items
      = (xQueueCreate 5).items ++ [event_fb] ∧
    (detection_task_handle frame_jpeg true false jpg_ok (xQueueCreate 5)).2.filter
        effect.is_return_fb = [] ∧
    (detection_task_handle frame_jpeg true false jpg_ok (xQueueCreate 5)).2.filter
        effect.is_release = [] :=
  ⟨by decide, by decide,
   jpeg_frame_is_transferred frame_jpeg true false jpg_ok (xQueueCreate 5) event_fb
     (by decide) (by decide)⟩

/-- Witness for C5: cooldown rejected, photo delivered, photo refused by the
server, and the text fallback. -/
theorem dequeued_event_released_exactly_once_witness :
    telegram_bot_can_send (notifier_at 990).bot 60 1000 = false ∧
    (telegram_notification_iteration config_default (notifier_at 990) event_fb 1000
        http_delivered).2.filter effect.is_release
      = [effect.camera_manager_return_fb frame_jpeg] ∧
    (telegram_notification_iteration config_default (notifier_at 0) event_jpg 1000
        http_delivered).2.filter effect.is_release = [effect.free [0xFF, 0xD8]] ∧
    (telegram_notification_iteration config_default (notifier_at 0) event_jpg 1000
        http_rejected).2.filter effect.is_release = [effect.free [0xFF, 0xD8]] ∧
    (telegram_notification_iteration config_default (notifier_at 0) event_empty_jpg 1000
        http_delivered).2.filter effect.is_release = [effect.free []] ∧
    (telegram_notification_iteration config_default (notifier_at 0) event_jpg 1000
        http_delivered).2
      = [effect.led_flash_capture,
         effect.telegram_bot_send_photo (some [0xFF, 0xD8]) 2 (caption_t.face 1)
           esp_err_t.ESP_OK,
         effect.free [0xFF, 0xD8], effect.led_indicate_detection] ∧
    (telegram_notification_iteration config_default (notifier_at 0) event_jpg 1000
        http_rejected).2
      = [effect.led_flash_capture,
         effect.telegram_bot_send_photo (some [0xFF, 0xD8]) 2 (caption_t.face 1)
           esp_err_t.ESP_FAIL,
         effect.free [0xFF, 0xD8], effect.led_indicate_detection] ∧
    (telegram_notification_iteration config_default (notifier_at 0) event_empty_jpg 1000
        http_delivered).2
      = [effect.led_flash_capture,
         effect.telegram_bot_send_message (caption_t.both 1 1) esp_err_t.ESP_OK,
         effect.free [], effect.led_indicate_detection] :=
  ⟨by decide,
   (dequeued_event_released_exactly_once config_default (notifier_at 990) event_fb 1000
     http_delivered).2.1 frame_jpeg rfl rfl,
   (dequeued_event_released_exactly_once config_default (notifier_at 0) event_jpg 1000
     http_delivered).2.2 [0xFF, 0xD8] rfl rfl,
   (dequeued_event_released_exactly_once config_default (notifier_at 0) event_jpg 1000
     http_rejected).2.2 [0xFF, 0xD8] rfl rfl,
   (dequeued_event_released_exactly_once config_default (notifier_at 0) event_empty_jpg 1000
     http_delivered).2.2 [] rfl rfl,
   by decide, by decide, by decide⟩

/-! ## The cooldown gate and the dispatch of an accepted event -/

/-- C11: `telegram_bot_can_send` answers true exactly when the time of the last
delivered photo is 0 (nothing sent yet) or at least `cooldown_sec` seconds have
passed since then.  With a cooldown of 60 it answers false 30 seconds after a
delivery, true after 61 seconds and true after exactly 60 seconds. -/
theorem can_send_iff_cooldown_elapsed (st : telegram_state) (cooldown_sec now : Int) :
    (telegram_bot_can_send st cooldown_sec now = true ↔
      (st.s_last_notification_time = 0 ∨
        cooldown_sec ≤ now - st.s_last_notification_time)) ∧
    (st.s_last_notification_time ≠ 0 → now - st.s_last_notification_time = 30 →
      telegram_bot_can_send st 60 now = false) ∧
    (now - st.s_last_notification_time = 61 → telegram_bot_can_send st 60 now = true) ∧
    (now - st.s_last_notification_time = 60 → telegram_bot_can_send st 60 now = true) := by
  unfold telegram_bot_can_send
  refine ⟨?_, ?_, ?_, ?_⟩
  · by_cases h : st.s_last_notification_time = 0 <;> simp [h]
  · intro h0 h30
    simp [h0, h30]
  · intro h61
    by_cases h : st.s_last_notification_time = 0 <;> simp [h, h61]
  · intro h60
    by_cases h : st.s_last_notification_time = 0 <;> simp [h, h60]

/-- Witness for C11: a photo delivered at clock value 1000, cooldown 60. -/
theorem can_send_iff_cooldown_elapsed_witness :
    (notifier_at 1000).bot.s_last_notification_time ≠ 0 ∧
    telegram_bot_can_send (notifier_at 1000).bot 60 1030 = false ∧
    telegram_bot_can_send (notifier_at 1000).bot 60 1061 = true ∧
    telegram_bot_can_send (notifier_at 1000).bot 60 1060 = true ∧
    telegram_bot_can_send (notifier_at 1000).bot 60 1059 = false ∧
    telegram_bot_can_send (notifier_at 0).bot 60 30 = true :=
  ⟨by decide,
   (can_send_iff_cooldown_elapsed (notifier_at 1000).bot 60 1030).2.1 (by decide) (by decide),
   (can_send_iff_cooldown_elapsed (notifier_at 1000).bot 60 1061).2.2.1 (by decide),
   (can_send_iff_cooldown_elapsed (notifier_at 1000).bot 60 1060).2.2.2 (by decide),
   by decide, by decide⟩

/-- C12: when the cooldown gate rejects an event, the iteration of
`telegram_notification_task` only releases the payload of the event: it calls
neither `telegram_bot_send_photo` nor `telegram_bot_send_message`, does not
flash the LED, and leaves the three counters and the cooldown timestamp as
they were. -/
theorem rejected_event_sends_nothing (cfg : sdkconfig) (st : notifier_state)
    (event : detection_event_t) (now : Int) (net : http_outcome)
    (hgate : telegram_bot_can_send st.bot cfg.CONFIG_TELEGRAM_COOLDOWN_SEC now = false) :
    (telegram_notification_iteration cfg st event now net).1 = st ∧
    (telegram_notification_iteration cfg st event now net).2 = release_event event ∧
    (telegram_notification_iteration cfg st event now net).2.filter effect.is_send = [] ∧
    effect.led_flash_capture ∉ (telegram_notification_iteration cfg st event now net).2 := by
  unfold telegram_notification_iteration
  simp only [hgate, Bool.not_false, if_true]
  refine ⟨trivial, trivial, ?_, ?_⟩ <;>
    (unfold release_event; cases event.fb <;> cases event.jpg_buf <;> simp [effect.is_send])

/-- Witness for C12: an event that arrives 10 seconds after a delivery. -/
theorem rejected_event_sends_nothing_witness :
    telegram_bot_can_send (notifier_at 990).bot config_default.CONFIG_TELEGRAM_COOLDOWN_SEC 1000
      = false ∧
    (telegram_notification_iteration config_default (notifier_at 990) event_jpg 1000
        http_delivered).1 = notifier_at 990 ∧
    (telegram_notification_iteration config_default (notifier_at 990) event_jpg 1000
        http_delivered).2 = [effect.free [0xFF, 0xD8]] :=
  ⟨by decide,
   (rejected_event_sends_nothing config_default (notifier_at 990) event_jpg 1000 http_delivered
     (by decide)).1,
   (rejected_event_sends_nothing config_default (notifier_at 990) event_jpg 1000 http_delivered
     (by decide)).2.1⟩

theorem accepted_iteration_sends_once (cfg : sdkconfig) (st : notifier_state)
    (event : detection_event_t) (now : Int) (net : http_outcome)
    (hgate : telegram_bot_can_send st.bot cfg.CONFIG_TELEGRAM_COOLDOWN_SEC now = true) :
    ∃ send : effect, send.is_send = true ∧
      (telegram_notification_iteration cfg st event now net).2
        = [effect.led_flash_capture, send] ++ release_event event
            ++ [effect.led_indicate_detection] := by
  unfold telegram_notification_iteration
  simp only [hgate, Bool.not_true, Bool.false_eq_true, if_false]
  split
  · exact ⟨effect.telegram_bot_send_photo _ _ _ _, rfl, rfl⟩
  · exact ⟨effect.telegram_bot_send_message _ _, rfl, rfl⟩


/-- C13: for an event that passes the cooldown gate, the caption is formatted
first and counts the event by kind: a Motion event adds 1 to the motion counter
only, a Face event adds 1 to the face counter only, a Both event adds 1 to each
(32-bit counters).  The caption handed to the messaging client carries the new
numbers, and the new counter values stand for every outcome of the send. -/
theorem accepted_event_counted_by_kind (cfg : sdkconfig) (st : notifier_state)
    (event : detection_event_t) (now : Int) (net : http_outcome)
    (hgate : telegram_bot_can_send st.bot cfg.CONFIG_TELEGRAM_COOLDOWN_SEC now = true) :
    (event.type = detection_event_type_t.DETECTION_EVENT_MOTION →
      (telegram_notification_iteration cfg st event now net).1.s_motion_count
        = (st.s_motion_count + 1) % 2 ^ 32 ∧
      (telegram_notification_iteration cfg st event now net).1.s_face_count
        = st.s_face_count ∧
      ∀ e ∈ (telegram_notification_iteration cfg st event now net).2, e.is_send = true →
        e.caption = some (caption_t.motion ((st.s_motion_count + 1) % 2 ^ 32))) ∧
    (event.type = detection_event_type_t.DETECTION_EVENT_FACE →
      (telegram_notification_iteration cfg st event now net).1.s_motion_count
        = st.s_motion_count ∧
      (telegram_notification_iteration cfg st event now net).1.s_face_count
        = (st.s_face_count + 1) % 2 ^ 32 ∧
      ∀ e ∈ (telegram_notification_iteration cfg st event now net).2, e.is_send = true →
        e.caption = some (caption_t.face ((st.s_face_count + 1) % 2 ^ 32))) ∧
    (event.type = detection_event_type_t.DETECTION_EVENT_BOTH →
      (telegram_notification_iteration cfg st event now net).1.s_motion_count
        = (st.s_motion_count + 1) % 2 ^ 32 ∧
      (telegram_notification_iteration cfg st event now net).1.s_face_count
        = (st.s_face_count + 1) % 2 ^ 32 ∧
      ∀ e ∈ (telegram_notification_iteration cfg st event now net).2, e.is_send = true →
        e.caption = some (caption_t.both ((st.s_motion_count + 1) % 2 ^ 32)
          ((st.s_face_count + 1) % 2 ^ 32))) ∧
    (∃ e ∈ (telegram_notification_iteration cfg st event now net).2, e.is_send = true) := by
  unfold telegram_notification_iteration
  simp only [hgate, Bool.not_true, Bool.false_eq_true, if_false]
  have hrel : ∀ e ∈ release_event event, e.is_send = false := by
    intro e he
    unfold release_event at he
    cases hf : event.fb <;> cases hj : event.jpg_buf <;> simp [hf, hj] at he <;>
      (try rcases he with he | he) <;> subst_vars <;> rfl
  refine ⟨?_, ?_, ?_, ?_⟩
  · intro ht
    simp only [ht]
    refine ⟨by split <;> (try split) <;> rfl,
      by split <;> (try split) <;> rfl, ?_⟩
    intro e he hs
    simp only [List.mem_append, List.mem_singleton] at he
    rcases he with ((he | he) | he) | he
    · subst he; simp [effect.is_send] at hs
    · split at he <;> simp at he <;> subst he <;> rfl
    · rw [hrel e he] at hs; simp at hs
    · subst he; simp [effect.is_send] at hs
  · intro ht
    simp only [ht]
    refine ⟨by split <;> (try split) <;> rfl,
      by split <;> (try split) <;> rfl, ?_⟩
    intro e he hs
    simp only [List.mem_append, List.mem_singleton] at he
    rcases he with ((he | he) | he) | he
    · subst he; simp [effect.is_send] at hs
    · split at he <;> simp at he <;> subst he <;> rfl
    · rw [hrel e he] at hs; simp at hs
    · subst he; simp [effect.is_send] at hs
  · intro ht
    simp only [ht]
    refine ⟨by split <;> (try split) <;> rfl,
      by split <;> (try split) <;> rfl, ?_⟩
    intro e he hs
    simp only [List.mem_append, List.mem_singleton] at he
    rcases he with ((he | he) | he) | he
    · subst he; simp [effect.is_send] at hs
    · split at he <;> simp at he <;> subst he <;> rfl
    · rw [hrel e he] at hs; simp at hs
    · subst he; simp [effect.is_send] at hs
  · obtain ⟨send, hs, htrace⟩ := accepted_iteration_sends_once cfg st event now net hgate
    unfold telegram_notification_iteration at htrace
    simp only [hgate, Bool.not_true, Bool.false_eq_true, if_false] at htrace
    rw [htrace]
    exact ⟨send, by simp, hs⟩

/-- Witness for C13: a Face event whose photo the server refuses, and a Both
event that takes the text fallback. -/
theorem accepted_event_counted_by_kind_witness :
    telegram_bot_can_send (notifier_at 0).bot config_default.CONFIG_TELEGRAM_COOLDOWN_SEC 1000
      = true ∧
    (telegram_notification_iteration config_default (notifier_at 0) event_jpg 1000
        http_rejected).1.s_motion_count = 0 ∧
    (telegram_notification_iteration config_default (notifier_at 0) event_jpg 1000
        http_rejected).1.s_face_count = 1 ∧
    (telegram_notification_iteration config_default (notifier_at 0) event_empty_jpg 1000
        http_rejected).1.s_motion_count = 1 ∧
    (telegram_notification_iteration config_default (notifier_at 0) event_empty_jpg 1000
        http_rejected).1.s_face_count = 1 ∧
    (telegram_notification_iteration config_default (notifier_at 0) event_fb 1000
        http_delivered).1.s_motion_count = 1 ∧
    (telegram_notification_iteration config_default (notifier_at 0) event_fb 1000
        http_delivered).1.s_face_count = 0 :=
  ⟨by decide,
   ((accepted_event_counted_by_kind config_default (notifier_at 0) event_jpg 1000 http_rejected
     (by decide)).2.1 rfl).1,
   ((accepted_event_counted_by_kind config_default (notifier_at 0) event_jpg 1000 http_rejected
     (by decide)).2.1 rfl).2.1,
   ((accepted_event_counted_by_kind config_default (notifier_at 0) event_empty_jpg 1000
     http_rejected (by decide)).2.2.1 rfl).1,
   ((accepted_event_counted_by_kind config_default (notifier_at 0) event_empty_jpg 1000
     http_rejected (by decide)).2.2.1 rfl).2.1,
   ((accepted_event_counted_by_kind config_default (notifier_at 0) event_fb 1000
     http_delivered (by decide)).1 rfl).1,
   ((accepted_event_counted_by_kind config_default (notifier_at 0) event_fb 1000
     http_delivered (by decide)).1 rfl).2.1⟩

theorem send_photo_ok_iff (st : telegram_state) (photo_data : Option (List Nat))
    (photo_size : Nat) (net : http_outcome) :
    (telegram_bot_send_photo st photo_data photo_size net).2 = esp_err_t.ESP_OK ↔
      (st.s_initialized = true ∧ photo_data ≠ none ∧ 0 < photo_size ∧
        net.body_allocated = true ∧ net.client_created = true ∧
        net.perform = esp_err_t.ESP_OK ∧ net.status = 200) := by
  unfold telegram_bot_send_photo
  rcases st with ⟨last, init⟩
  rcases net with ⟨ba, cc, pf, status, clock⟩
  cases init <;> cases photo_data <;> cases ba <;> cases cc <;>
    by_cases hp : pf = esp_err_t.ESP_OK <;> by_cases hs : status = 200 <;>
    by_cases hz : photo_size = 0 <;> simp [hp, hs, hz, Nat.pos_iff_ne_zero]


theorem send_photo_state (st : telegram_state) (photo_data : Option (List Nat))
    (photo_size : Nat) (net : http_outcome) :
    (telegram_bot_send_photo st photo_data photo_size net).1
      = if (telegram_bot_send_photo st photo_data photo_size net).2 = esp_err_t.ESP_OK then
          { st with s_last_notification_time := net.clock }
        else st := by
  unfold telegram_bot_send_photo
  rcases st with ⟨last, init⟩
  rcases net with ⟨ba, cc, pf, status, clock⟩
  cases init <;> cases photo_data <;> cases ba <;> cases cc <;>
    by_cases hp : pf = esp_err_t.ESP_OK <;> by_cases hs : status = 200 <;>
    by_cases hz : photo_size = 0 <;> simp [hp, hs, hz]

/-- C14: in the dispatch of an accepted event the cooldown timestamp is set to
the current clock and the sent counter goes up by one (32-bit) exactly when
`telegram_bot_send_photo` was called and returned `ESP_OK`; otherwise both
keep their values.  `telegram_bot_send_photo` returns `ESP_OK` only when the
HTTP request completes with status 200; when the request fails or the status
is not 200 it returns an error and leaves the timestamp as it was. -/
theorem sent_counter_follows_photo_result (cfg : sdkconfig) (st : notifier_state)
    (event : detection_event_t) (now : Int) (net : http_outcome)
    (hgate : telegram_bot_can_send st.bot cfg.CONFIG_TELEGRAM_COOLDOWN_SEC now = true) :
    ((∃ d n c, effect.telegram_bot_send_photo d n c esp_err_t.ESP_OK
          ∈ (telegram_notification_iteration cfg st event now net).2) →
      (telegram_notification_iteration cfg st event now net).1.s_telegram_sent
        = (st.s_telegram_sent + 1) % 2 ^ 32 ∧
      (telegram_notification_iteration cfg st event now net).1.bot.s_last_notification_time
        = net.clock ∧
      net.perform = esp_err_t.ESP_OK ∧ net.status = 200) ∧
    ((¬ ∃ d n c, effect.telegram_bot_send_photo d n c esp_err_t.ESP_OK
          ∈ (telegram_notification_iteration cfg st event now net).2) →
      (telegram_notification_iteration cfg st event now net).1.s_telegram_sent
        = st.s_telegram_sent ∧
      (telegram_notification_iteration cfg st event now net).1.bot = st.bot) ∧
    (net.perform ≠ esp_err_t.ESP_OK ∨ net.status ≠ 200 →
      (∀ (bot : telegram_state) (photo_data : Option (List Nat)) (photo_size : Nat),
        (telegram_bot_send_photo bot photo_data photo_size net).2 ≠ esp_err_t.ESP_OK ∧
        (telegram_bot_send_photo bot photo_data photo_size net).1 = bot) ∧
      (telegram_notification_iteration cfg st event now net).1.s_telegram_sent
        = st.s_telegram_sent ∧
      (telegram_notification_iteration cfg st event now net).1.bot = st.bot) := by
  have hrel : ∀ d n c r, effect.telegram_bot_send_photo d n c r ∉ release_event event := by
    intro d n c r he
    unfold release_event at he
    cases hf : event.fb <;> cases hj : event.jpg_buf <;> simp [hf, hj] at he
  have hfail : net.perform ≠ esp_err_t.ESP_OK ∨ net.status ≠ 200 →
      ∀ (bot : telegram_state) (photo_data : Option (List Nat)) (photo_size : Nat),
        (telegram_bot_send_photo bot photo_data photo_size net).2 ≠ esp_err_t.ESP_OK ∧
        (telegram_bot_send_photo bot photo_data photo_size net).1 = bot := by
    intro hnet bot photo_data photo_size
    have hne : (telegram_bot_send_photo bot photo_data photo_size net).2 ≠ esp_err_t.ESP_OK := by
      intro hok
      have := (send_photo_ok_iff bot photo_data photo_size net).mp hok
      rcases hnet with h | h
      · exact h this.2.2.2.2.2.1
      · exact h this.2.2.2.2.2.2
    refine ⟨hne, ?_⟩
    rw [send_photo_state, if_neg hne]
  unfold telegram_notification_iteration
  simp only [hgate, Bool.not_true, Bool.false_eq_true, if_false]
  have hb : ∀ t : detection_event_type_t,
      (match t with
        | detection_event_type_t.DETECTION_EVENT_MOTION =>
          (({ st with s_motion_count := (st.s_motion_count + 1) % 2 ^ 32 } : notifier_state),
            caption_t.motion ((st.s_motion_count + 1) % 2 ^ 32))
        | detection_event_type_t.DETECTION_EVENT_FACE =>
          ({ st with s_face_count := (st.s_face_count + 1) % 2 ^ 32 },
            caption_t.face ((st.s_face_count + 1) % 2 ^ 32))
        | detection_event_type_t.DETECTION_EVENT_BOTH =>
          ({ st with s_motion_count := (st.s_motion_count + 1) % 2 ^ 32,
                     s_face_count := (st.s_face_count + 1) % 2 ^ 32 },
            caption_t.both ((st.s_motion_count + 1) % 2 ^ 32)
              ((st.s_face_count + 1) % 2 ^ 32))).1.bot = st.bot ∧
      (match t with
        | detection_event_type_t.DETECTION_EVENT_MOTION =>
          (({ st with s_motion_count := (st.s_motion_count + 1) % 2 ^ 32 } : notifier_state),
            caption_t.motion ((st.s_motion_count + 1) % 2 ^ 32))
        | detection_event_type_t.DETECTION_EVENT_FACE =>
          ({ st with s_face_count := (st.s_face_count + 1) % 2 ^ 32 },
            caption_t.face ((st.s_face_count + 1) % 2 ^ 32))
        | detection_event_type_t.DETECTION_EVENT_BOTH =>
          ({ st with s_motion_count := (st.s_motion_count + 1) % 2 ^ 32,
                     s_face_count := (st.s_face_count + 1) % 2 ^ 32 },
            caption_t.both ((st.s_motion_count + 1) % 2 ^ 32)
              ((st.s_face_count + 1) % 2 ^ 32))).1.s_telegram_sent = st.s_telegram_sent := by
    intro t
    cases t <;> exact ⟨rfl, rfl⟩
  obtain ⟨hbot, hsent⟩ := hb event.type
  generalize (match event.type with
        | detection_event_type_t.DETECTION_EVENT_MOTION =>
          (({ st with s_motion_count := (st.s_motion_count + 1) % 2 ^ 32 } : notifier_state),
            caption_t.motion ((st.s_motion_count + 1) % 2 ^ 32))
        | detection_event_type_t.DETECTION_EVENT_FACE =>
          ({ st with s_face_count := (st.s_face_count + 1) % 2 ^ 32 },
            caption_t.face ((st.s_face_count + 1) % 2 ^ 32))
        | detection_event_type_t.DETECTION_EVENT_BOTH =>
          ({ st with s_motion_count := (st.s_motion_count + 1) % 2 ^ 32,
                     s_face_count := (st.s_face_count + 1) % 2 ^ 32 },
            caption_t.both ((st.s_motion_count + 1) % 2 ^ 32)
              ((st.s_face_count + 1) % 2 ^ 32))) = built at hbot hsent ⊢
  generalize (match event.fb with
      | some fb => (fb.buf, fb.len)
      | none =>
        match event.jpg_buf with
        | some buf => (some buf, event.jpg_len)
        | none => (none, 0)) = to_send
  have hmem_elim : ∀ (x : effect) d n c r,
      effect.telegram_bot_send_photo d n c r
        ∈ [effect.led_flash_capture] ++ [x] ++ release_event event
            ++ [effect.led_indicate_detection] →
      effect.telegram_bot_send_photo d n c r = x := by
    intro x d n c r h
    simp only [List.mem_append, List.mem_singleton] at h
    rcases h with ((h | h) | h) | h
    · cases h
    · exact h
    · exact absurd h (hrel d n c r)
    · cases h
  split
  · -- the photo is sent
    dsimp only
    by_cases hok : (telegram_bot_send_photo built.1.bot to_send.1 to_send.2 net).2
        = esp_err_t.ESP_OK
    · have hiff := (send_photo_ok_iff built.1.bot to_send.1 to_send.2 net).mp hok
      have hst := send_photo_state built.1.bot to_send.1 to_send.2 net
      rw [if_pos hok] at hst
      simp only [hok, if_true]
      refine ⟨fun _ => ⟨by rw [hsent], by rw [hst], hiff.2.2.2.2.2.1, hiff.2.2.2.2.2.2⟩,
        fun hno => absurd ⟨to_send.1, to_send.2, built.2, by simp⟩ hno,
        fun hnet => absurd hok (hfail hnet _ _ _).1⟩
    · have hst := send_photo_state built.1.bot to_send.1 to_send.2 net
      rw [if_neg hok] at hst
      simp only [hok, if_false]
      refine ⟨?_, fun _ => ⟨hsent, hst.trans hbot⟩,
        fun hnet => ⟨hfail hnet, hsent, hst.trans hbot⟩⟩
      rintro ⟨d, n, c, hmem⟩
      have h := hmem_elim _ d n c _ hmem
      injection h with _ _ _ h4
      exact absurd h4.symm hok
  · -- the text fallback
    dsimp only
    refine ⟨?_, fun _ => ⟨hsent, hbot⟩, fun hnet => ⟨hfail hnet, hsent, hbot⟩⟩
    rintro ⟨d, n, c, hmem⟩
    have h := hmem_elim _ d n c _ hmem
    cases h

/-- Witness for C14: a delivered photo, a photo refused with status 500, and a
request that fails before any status arrives. -/
theorem sent_counter_follows_photo_result_witness :
    telegram_bot_can_send (notifier_at 0).bot config_default.CONFIG_TELEGRAM_COOLDOWN_SEC 1000
      = true ∧
    (telegram_notification_iteration config_default (notifier_at 0) event_jpg 1000
        http_delivered).1.s_telegram_sent = 1 ∧
    (telegram_notification_iteration config_default (notifier_at 0) event_jpg 1000
        http_delivered).1.bot.s_last_notification_time = 1000 ∧
    (telegram_notification_iteration config_default (notifier_at 0) event_jpg 1000
        http_rejected).1.s_telegram_sent = 0 ∧
    (telegram_notification_iteration config_default (notifier_at 0) event_jpg 1000
        http_rejected).1.bot = (notifier_at 0).bot ∧
    (telegram_bot_send_photo (notifier_at 0).bot (some [0xFF, 0xD8]) 2
        { http_delivered with perform := esp_err_t.ESP_ERR_HTTP 7 }).2
      = esp_err_t.ESP_ERR_HTTP 7 :=
  ⟨by decide,
   ((sent_counter_follows_photo_result config_default (notifier_at 0) event_jpg 1000
     http_delivered (by decide)).1 ⟨some [0xFF, 0xD8], 2, caption_t.face 1, by decide⟩).1,
   ((sent_counter_follows_photo_result config_default (notifier_at 0) event_jpg 1000
     http_delivered (by decide)).1 ⟨some [0xFF, 0xD8], 2, caption_t.face 1, by decide⟩).2.1,
   ((sent_counter_follows_photo_result config_default (notifier_at 0) event_jpg 1000
     http_rejected (by decide)).2.2 (Or.inr (by decide))).2.1,
   ((sent_counter_follows_photo_result config_default (notifier_at 0) event_jpg 1000
     http_rejected (by decide)).2.2 (Or.inr (by decide))).2.2,
   by decide⟩

/-! ## Loop rules for face_detector.c -/

theorem for_loop_succ {σ : Type} (cond : Nat → σ → Bool) (body : Nat → σ → Nat × σ)
    (fuel i : Nat) (s : σ) :
    for_loop cond body (fuel + 1) i s
      = if cond i s then for_loop cond body fuel ((body i s).1 + 1) (body i s).2 else s := rfl

/-- A property of the state that every executed loop body preserves holds when
the loop is left. -/
theorem for_loop_invariant {σ : Type} (cond : Nat → σ → Bool) (body : Nat → σ → Nat × σ)
    (inv : σ → Prop) (hstep : ∀ i s, inv s → cond i s = true → inv (body i s).2) :
    ∀ (fuel i : Nat) (s : σ), inv s → inv (for_loop cond body fuel i s) := by
  intro fuel
  induction fuel with
  | zero => intro i s hs; exact hs
  | succ n ih =>
    intro i s hs
    unfold for_loop
    by_cases hc : cond i s = true
    · rw [if_pos hc]
      exact ih _ _ (hstep i s hs hc)
    · rw [if_neg hc]
      exact hs

/-- A loop whose body never changes the state returns the state it started
with. -/
theorem for_loop_state_fixed {σ : Type} (cond : Nat → σ → Bool) (body : Nat → σ → Nat × σ)
    (s : σ) (hfix : ∀ i, cond i s = true → (body i s).2 = s) :
    ∀ (fuel i : Nat), for_loop cond body fuel i s = s := by
  intro fuel
  induction fuel with
  | zero => intro i; rfl
  | succ n ih =>
    intro i
    unfold for_loop
    by_cases hc : cond i s = true
    · rw [if_pos hc, hfix i hc]
      exact ih _
    · rw [if_neg hc]

/-- A loop that is entered with a false condition returns at once. -/
theorem for_loop_exit {σ : Type} (cond : Nat → σ → Bool) (body : Nat → σ → Nat × σ)
    (fuel i : Nat) (s : σ) (hc : cond i s = false) : for_loop cond body fuel i s = s := by
  cases fuel with
  | zero => rfl
  | succ n =>
    unfold for_loop
    rw [if_neg (by simp [hc])]

/-- The first `n` iterations of a loop can be passed over when each of them
runs and leaves index and state alone. -/
theorem for_loop_prefix {σ : Type} (cond : Nat → σ → Bool) (body : Nat → σ → Nat × σ)
    (s : σ) :
    ∀ (n fuel a : Nat),
      (∀ i, a ≤ i → i < a + n → cond i s = true ∧ body i s = (i, s)) →
      for_loop cond body (fuel + n) a s = for_loop cond body fuel (a + n) s := by
  intro n
  induction n with
  | zero => intro fuel a _; rfl
  | succ k ih =>
    intro fuel a h
    have h0 := h a (Nat.le_refl a) (by omega)
    have hrest : ∀ i, a + 1 ≤ i → i < a + 1 + k → cond i s = true ∧ body i s = (i, s) := by
      intro i h1 h2
      exact h i (by omega) (by omega)
    have := ih fuel (a + 1) hrest
    rw [show fuel + (k + 1) = (fuel + k) + 1 by omega, for_loop_succ, if_pos h0.1, h0.2]
    simp only []
    rw [this, show a + 1 + k = a + (k + 1) by omega]

/-- With enough fuel for the distance to a bound that the condition enforces,
more fuel does not change the result of a loop whose body never moves the
index backwards. -/
theorem for_loop_fuel_irrelevant {σ : Type} (cond : Nat → σ → Bool)
    (body : Nat → σ → Nat × σ) (bound : Nat)
    (hbound : ∀ i s, cond i s = true → i < bound)
    (hmono : ∀ i s, i ≤ (body i s).1) :
    ∀ (fuel extra i : Nat) (s : σ), bound - i ≤ fuel →
      for_loop cond body (fuel + extra) i s = for_loop cond body fuel i s := by
  intro fuel
  induction fuel with
  | zero =>
    intro extra i s h
    have hc : cond i s = false := by
      by_contra hc
      have := hbound i s (by simpa using hc)
      omega
    rw [for_loop_exit cond body _ i s hc, for_loop_exit cond body _ i s hc]
  | succ n ih =>
    intro extra i s h
    rw [show n + 1 + extra = (n + extra) + 1 by omega, for_loop_succ, for_loop_succ]
    by_cases hc : cond i s = true
    · rw [if_pos hc, if_pos hc]
      have := hmono i s
      exact ih extra _ _ (by omega)
    · rw [if_neg hc, if_neg hc]

/-- A property of the scan state that the window step preserves, at every
window that the two scan loops can visit, holds after the scan. -/
theorem scan_grid_invariant (grid : List Nat) (grid_w grid_h min_face_size max_faces : Int)
    (inv : scan_state → Prop)
    (hstep : ∀ (gy gx : Nat) (s : scan_state), inv s →
      (gy : Int) < grid_h - 3 → (gx : Int) < grid_w - 3 → (s.face_count : Int) < max_faces →
      inv (scan_window grid grid_w min_face_size gy gx s).2)
    (s : scan_state) (hs : inv s) :
    inv (scan_grid grid grid_w grid_h min_face_size max_faces s) := by
  unfold scan_grid scan_grid_from
  apply for_loop_invariant _ _ inv _ _ _ _ hs
  intro gy s1 hs1 hc1
  simp only [Bool.and_eq_true, decide_eq_true_eq] at hc1
  unfold scan_row scan_row_from
  apply for_loop_invariant _ _ inv _ _ _ _ hs1
  intro gx s2 hs2 hc2
  simp only [Bool.and_eq_true, decide_eq_true_eq] at hc2
  exact hstep gy gx s2 hs2 hc1.1 hc2.1 hc2.2

/-! ## The window step of find_skin_regions -/

theorem getD_set_self (l : List face_box_t) (i : Nat) (a : face_box_t) (h : i < l.length) :
    (l.set i a).getD i face_box_zero = a := by
  rw [List.getD_eq_getElem?_getD, List.getElem?_set_self h]
  rfl

theorem getD_set_other (l : List face_box_t) (i j : Nat) (a : face_box_t) (h : i ≠ j) :
    (l.set i a).getD j face_box_zero = l.getD j face_box_zero := by
  rw [List.getD_eq_getElem?_getD, List.getD_eq_getElem?_getD, List.getElem?_set_ne h]

/-- The three ways the window step can end: the window does not qualify and
nothing changes; the candidate is stored and dropped; the candidate is stored
and accepted, which requires that it is no near-duplicate of an accepted entry
and that the stored width reaches the minimum size. -/
theorem scan_window_cases (grid : List Nat) (grid_w min_face_size : Int) (gy gx : Nat)
    (s : scan_state) :
    (cluster_count grid grid_w gy gx < 10 ∧
      scan_window grid grid_w min_face_size gy gx s = (gx, s)) ∨
    (10 ≤ cluster_count grid grid_w gy gx ∧
      scan_window grid grid_w min_face_size gy gx s
        = (gx, { faces := s.faces.set s.face_count (window_box gy gx),
                 face_count := s.face_count,
                 writes := s.writes ++ [s.face_count] }) ∧
      ((∃ i, i < s.face_count ∧ near_duplicate min_face_size
          ((s.faces.set s.face_count (window_box gy gx)).getD i face_box_zero)
          ((s.faces.set s.face_count (window_box gy gx)).getD s.face_count face_box_zero)) ∨
        ((s.faces.set s.face_count (window_box gy gx)).getD s.face_count face_box_zero).w
          < min_face_size)) ∨
    (10 ≤ cluster_count grid grid_w gy gx ∧
      scan_window grid grid_w min_face_size gy gx s
        = (gx + 3, { faces := s.faces.set s.face_count (window_box gy gx),
                     face_count := s.face_count + 1,
                     writes := s.writes ++ [s.face_count] }) ∧
      (∀ i, i < s.face_count → ¬ near_duplicate min_face_size
          ((s.faces.set s.face_count (window_box gy gx)).getD i face_box_zero)
          ((s.faces.set s.face_count (window_box gy gx)).getD s.face_count face_box_zero)) ∧
      min_face_size
        ≤ ((s.faces.set s.face_count (window_box gy gx)).getD s.face_count face_box_zero).w) := by
  unfold scan_window
  by_cases hq : 10 ≤ cluster_count grid grid_w gy gx
  · right
    simp only [hq, if_true]
    by_cases hov : (List.range s.face_count).any (fun i =>
        decide (((Int.natAbs (((s.faces.set s.face_count
            { x := (gx : Int) * 8, y := (gy : Int) * 8, w := 4 * 8, h := 4 * 8 }).getD i
              face_box_zero).x
          - ((s.faces.set s.face_count
            { x := (gx : Int) * 8, y := (gy : Int) * 8, w := 4 * 8, h := 4 * 8 }).getD
              s.face_count face_box_zero).x) : Nat) : Int) < min_face_size) &&
        decide (((Int.natAbs (((s.faces.set s.face_count
            { x := (gx : Int) * 8, y := (gy : Int) * 8, w := 4 * 8, h := 4 * 8 }).getD i
              face_box_zero).y
          - ((s.faces.set s.face_count
            { x := (gx : Int) * 8, y := (gy : Int) * 8, w := 4 * 8, h := 4 * 8 }).getD
              s.face_count face_box_zero).y) : Nat) : Int) < min_face_size)) = true
    · left
      simp only [hov, Bool.not_true, Bool.false_and, Bool.false_eq_true, if_false]
      refine ⟨trivial, rfl, Or.inl ?_⟩
      rw [List.any_eq_true] at hov
      obtain ⟨i, hi, hcond⟩ := hov
      simp only [Bool.and_eq_true, decide_eq_true_eq] at hcond
      exact ⟨i, List.mem_range.mp hi, hcond⟩
    · have hov' := hov
      simp only [Bool.not_eq_true] at hov'
      by_cases hw : min_face_size ≤ ((s.faces.set s.face_count
            { x := (gx : Int) * 8, y := (gy : Int) * 8, w := 4 * 8, h := 4 * 8 }).getD
              s.face_count face_box_zero).w
      · right
        simp only [hov', hw, Bool.not_false, Bool.true_and, decide_True, if_true]
        refine ⟨trivial, rfl, ?_, hw⟩
        intro i hi hnd
        rw [List.any_eq_false] at hov'
        apply hov' i (List.mem_range.mpr hi)
        simp only [Bool.and_eq_true, decide_eq_true_eq]
        exact hnd
      · left
        simp only [hov', hw, Bool.not_false, Bool.true_and, decide_False, Bool.false_eq_true,
          if_false]
        exact ⟨trivial, rfl, Or.inr (by unfold window_box; omega)⟩
  · left
    simp only [hq, if_false]
    exact ⟨by omega, trivial⟩

/-- The window step preserves the scan invariant at every window inside the
grid that is visited with room left in the array. -/
theorem scan_window_preserves (grid : List Nat) (grid_w grid_h min_face_size max_faces : Int)
    (gy gx : Nat) (s : scan_state)
    (hinv : scan_invariant grid_w grid_h min_face_size max_faces s)
    (hgy : (gy : Int) < grid_h - 3) (hgx : (gx : Int) < grid_w - 3)
    (hroom : (s.face_count : Int) < max_faces) :
    scan_invariant grid_w grid_h min_face_size max_faces
      (scan_window grid grid_w min_face_size gy gx s).2 := by
  obtain ⟨hlen, hcount, hwrites, hboxes, hpair⟩ := hinv
  have hin : s.face_count < s.faces.length := by omega
  have hwr : ∀ k ∈ s.writes ++ [s.face_count], (k : Int) < max_faces := by
    intro k hk
    rw [List.mem_append, List.mem_singleton] at hk
    rcases hk with hk | hk
    · exact hwrites k hk
    · subst hk; exact hroom
  rcases scan_window_cases grid grid_w min_face_size gy gx s with h | h | h
  · rw [h.2]
    exact ⟨hlen, hcount, hwrites, hboxes, hpair⟩
  · rw [h.2.1]
    refine ⟨by simpa using hlen, hcount, hwr, ?_, ?_⟩
    · intro i hi
      dsimp only at hi ⊢
      rw [getD_set_other _ _ _ _ (by omega)]
      exact hboxes i hi
    · intro i j hij hj
      dsimp only at hj ⊢
      rw [getD_set_other _ _ _ _ (by omega), getD_set_other _ _ _ _ (by omega)]
      exact hpair i j hij hj
  · rw [h.2.1]
    refine ⟨by simpa using hlen, by dsimp only; omega, hwr, ?_, ?_⟩
    · intro i hi
      dsimp only at hi ⊢
      by_cases hie : i = s.face_count
      · subst hie
        rw [getD_set_self _ _ _ hin]
        exact ⟨gy, gx, rfl, hgy, hgx⟩
      · rw [getD_set_other _ _ _ _ (by omega)]
        exact hboxes i (by omega)
    · intro i j hij hj
      dsimp only at hj ⊢
      by_cases hje : j = s.face_count
      · subst hje
        exact h.2.2.1 i hij
      · rw [getD_set_other _ _ _ _ (by omega), getD_set_other _ _ _ _ (by omega)]
        exact hpair i j hij (by omega)

/-- The scan invariant holds for what `find_skin_regions` returns, whenever it
is called with an array of `max_faces` elements. -/
theorem find_skin_regions_invariant (rgb565_data : Option (List Nat)) (width height : Int)
    (faces : List face_box_t) (max_faces min_face_size : Int) (grid_allocated : Bool)
    (hlen : (faces.length : Int) = max_faces) :
    scan_invariant (Int.tdiv width 8) (Int.tdiv height 8) min_face_size max_faces
      (find_skin_regions rgb565_data width height (some faces) max_faces min_face_size
        grid_allocated) := by
  have hinit : scan_invariant (Int.tdiv width 8) (Int.tdiv height 8) min_face_size max_faces
      { faces := faces, face_count := 0, writes := [] } := by
    refine ⟨hlen, by dsimp only; omega, by simp, ?_, ?_⟩
    · intro i hi
      simp at hi
    · intro i j _ hj
      simp at hj
  unfold find_skin_regions
  cases rgb565_data with
  | none => exact hinit
  | some data =>
    simp only []
    cases grid_allocated with
    | false => exact hinit
    | true =>
      simp only [Bool.not_true, Bool.false_eq_true, if_false]
      apply scan_grid_invariant
      · intro gy gx s hs hgy hgx hroom
        exact scan_window_preserves _ _ _ _ _ gy gx s hs hgy hgx hroom
      · exact hinit

/-- With a minimum size above 32 the scan never accepts a candidate. -/
theorem scan_grid_min_size_above_32 (grid : List Nat)
    (grid_w grid_h min_face_size max_faces : Int) (s : scan_state)
    (hmin : 32 < min_face_size) (hzero : s.face_count = 0) :
    (scan_grid grid grid_w grid_h min_face_size max_faces s).face_count = 0 := by
  apply scan_grid_invariant grid grid_w grid_h min_face_size max_faces
    (fun s => s.face_count = 0) _ s hzero
  intro gy gx s1 hs1 _ _ _
  rcases scan_window_cases grid grid_w min_face_size gy gx s1 with h | h | h
  · rw [h.2]; exact hs1
  · rw [h.2.1]; exact hs1
  · exfalso
    have hw := h.2.2.2
    rw [List.getD_eq_getElem?_getD, List.getElem?_set] at hw
    simp only [if_true] at hw
    split at hw
    · simp [window_box] at hw
      omega
    · simp [face_box_zero] at hw
      omega

theorem find_skin_regions_min_size_above_32 (rgb565_data : Option (List Nat))
    (width height : Int) (faces : Option (List face_box_t)) (max_faces min_face_size : Int)
    (grid_allocated : Bool) (hmin : 32 < min_face_size) :
    (find_skin_regions rgb565_data width height faces max_faces min_face_size
      grid_allocated).face_count = 0 := by
  unfold find_skin_regions
  cases rgb565_data <;> cases faces <;> try rfl
  simp only []
  cases grid_allocated
  · rfl
  · simp only [Bool.not_true, Bool.false_eq_true, if_false]
    exact scan_grid_min_size_above_32 _ _ _ _ _ _ hmin rfl

/-- The result that `face_detector_detect` starts from and returns whenever
nothing is found. -/
theorem detect_of_count_zero (st : face_state) (fb : camera_fb_t) (stack : Nat → face_box_t)
    (grid_allocated : Bool)
    (hzero : (find_skin_regions fb.buf (int_of_size_t fb.width) (int_of_size_t fb.height)
      (some ((List.range MAX_FACES).map stack)) MAX_FACES st.s_min_face_size
      grid_allocated).face_count = 0) :
    face_detector_detect st (some fb) stack grid_allocated
      = { detected := false, face_count := 0, x := 0, y := 0, width := 0, height := 0 } := by
  unfold face_detector_detect
  simp only []
  split
  · rfl
  · split
    · rfl
    · rw [hzero]
      simp

/-! ## Frames without skin-tone pixels -/

theorem foldl_invariant {α β : Type} (f : α → β → α) (inv : α → Prop) (l : List β) :
    ∀ a : α, inv a → (∀ a b, b ∈ l → inv a → inv (f a b)) → inv (l.foldl f a) := by
  induction l with
  | nil => intro a h _; exact h
  | cons b l ih =>
    intro a h hstep
    rw [List.foldl_cons]
    apply ih
    · exact hstep a b (List.mem_cons_self b l) h
    · intro a1 b1 hb1 ha1
      exact hstep a1 b1 (List.mem_cons_of_mem b hb1) ha1

theorem cell_skin_count_no_skin (rgb565_data : List Nat) (width height : Int) (gy gx : Nat)
    (hnone : ∀ y x : Nat, (y : Int) < height → (x : Int) < width →
      is_skin_tone_rgb565 (rgb565_pixel_at rgb565_data width y x) = false) :
    (cell_skin_count rgb565_data width height gy gx).1 = 0 := by
  unfold cell_skin_count
  apply foldl_invariant _ (fun acc : Nat × Nat => acc.1 = 0) _ _ rfl
  intro acc y hy hacc
  have hy1 := List.mem_takeWhile_imp hy
  simp only [decide_eq_true_eq] at hy1
  apply foldl_invariant _ (fun acc : Nat × Nat => acc.1 = 0) _ _ hacc
  intro acc1 x hx hacc1
  have hx1 := List.mem_takeWhile_imp hx
  simp only [decide_eq_true_eq] at hx1
  simp only [hnone y x hy1 hx1, Bool.false_eq_true, if_false]
  exact hacc1

theorem mark_skin_cells_no_skin (rgb565_data : List Nat) (width height grid_w grid_h : Int)
    (grid : List Nat)
    (hnone : ∀ y x : Nat, (y : Int) < height → (x : Int) < width →
      is_skin_tone_rgb565 (rgb565_pixel_at rgb565_data width y x) = false) :
    mark_skin_cells rgb565_data width height grid_w grid_h grid = grid := by
  unfold mark_skin_cells
  apply foldl_invariant _ (fun g : List Nat => g = grid) _ _ rfl
  intro g gy _ hg
  apply foldl_invariant _ (fun g : List Nat => g = grid) _ _ hg
  intro g1 gx _ hg1
  simp only [cell_skin_count_no_skin rgb565_data width height gy gx hnone]
  simpa using hg1

theorem cluster_count_zero_grid (n : Nat) (grid_w : Int) (gy gx : Nat) :
    cluster_count (List.replicate n 0) grid_w gy gx = 0 := by
  unfold cluster_count
  apply foldl_invariant _ (fun c : Nat => c = 0) _ _ rfl
  intro c dy _ hc
  apply foldl_invariant _ (fun c : Nat => c = 0) _ _ hc
  intro c1 dx _ hc1
  have h0 : ∀ k, (List.replicate n 0).getD k 0 = 0 := by
    intro k
    simp only [List.getD_eq_getElem?_getD, List.getElem?_replicate]
    split <;> rfl
  simp only [h0, ne_eq, not_true_eq_false, if_false]
  exact hc1

/-- On a grid without a qualifying window the scan changes nothing. -/
theorem scan_grid_no_candidate (grid : List Nat) (grid_w grid_h min_face_size max_faces : Int)
    (s : scan_state)
    (hnone : ∀ gy gx : Nat, (gy : Int) < grid_h - 3 → (gx : Int) < grid_w - 3 →
      cluster_count grid grid_w gy gx < 10) :
    scan_grid grid grid_w grid_h min_face_size max_faces s = s := by
  unfold scan_grid scan_grid_from
  apply for_loop_state_fixed
  intro gy hc
  simp only [Bool.and_eq_true, decide_eq_true_eq] at hc
  dsimp only
  unfold scan_row scan_row_from
  apply for_loop_state_fixed
  intro gx hc2
  simp only [Bool.and_eq_true, decide_eq_true_eq] at hc2
  have := hnone gy gx hc.1 hc2.1
  unfold scan_window
  rw [if_neg (by omega)]

theorem find_skin_regions_no_skin (rgb565_data : Option (List Nat)) (width height : Int)
    (faces : Option (List face_box_t)) (max_faces min_face_size : Int) (grid_allocated : Bool)
    (hnone : ∀ data, rgb565_data = some data → ∀ y x : Nat, (y : Int) < height →
      (x : Int) < width → is_skin_tone_rgb565 (rgb565_pixel_at data width y x) = false) :
    (find_skin_regions rgb565_data width height faces max_faces min_face_size
      grid_allocated).face_count = 0 := by
  unfold find_skin_regions
  cases rgb565_data with
  | none => rfl
  | some data =>
    cases faces with
    | none => rfl
    | some faces0 =>
      simp only []
      cases grid_allocated
      · rfl
      · simp only [Bool.not_true, Bool.false_eq_true, if_false]
        rw [mark_skin_cells_no_skin data width height _ _ _ (hnone data rfl)]
        rw [scan_grid_no_candidate]
        intro gy gx _ _
        rw [cluster_count_zero_grid]
        decide

/-! ## The region classifier: rejected inputs, size gate, duplicates, cap -/

theorem int_of_size_t_le (n : Nat) : int_of_size_t n ≤ (n : Int) := by
  unfold int_of_size_t
  split <;> omega

theorem int_of_size_t_small (n : Nat) (h : n < 2 ^ 31) : int_of_size_t n = (n : Int) := by
  unfold int_of_size_t
  have : n % 2 ^ 32 = n := Nat.mod_eq_of_lt (by omega)
  rw [this, if_pos h]

theorem scan_grid_keeps_invariant (grid : List Nat)
    (grid_w grid_h min_face_size max_faces : Int) (s : scan_state)
    (hs : scan_invariant grid_w grid_h min_face_size max_faces s) :
    scan_invariant grid_w grid_h min_face_size max_faces
      (scan_grid grid grid_w grid_h min_face_size max_faces s) := by
  apply scan_grid_invariant _ _ _ _ _ _ _ s hs
  intro gy gx s1 hs1 hgy hgx hroom
  exact scan_window_preserves _ _ _ _ _ gy gx s1 hs1 hgy hgx hroom

theorem scan_invariant_start (grid_w grid_h min_face_size max_faces : Int)
    (faces : List face_box_t) (hlen : (faces.length : Int) = max_faces) :
    scan_invariant grid_w grid_h min_face_size max_faces
      { faces := faces, face_count := 0, writes := [] } := by
  refine ⟨hlen, by dsimp only; omega, by simp, ?_, ?_⟩
  · intro i hi
    simp at hi
  · intro i j _ hj
    simp at hj

theorem detect_stack_length (stack : Nat → face_box_t) :
    ((((List.range MAX_FACES).map stack).length : Nat) : Int) = ((MAX_FACES : Nat) : Int) := by
  simp

/-- C16: on a frame in which no pixel satisfies the skin-tone predicate,
`face_detector_detect` reports detected = false and face_count = 0, for every
width, height, minimum face size, state of the detector and outcome of the grid
allocation. -/
theorem no_skin_frame_reports_nothing (st : face_state) (fb : camera_fb_t)
    (stack : Nat → face_box_t) (grid_allocated : Bool)
    (hnone : ∀ data, fb.buf = some data → ∀ y x : Nat, y < fb.height → x < fb.width →
      is_skin_tone_rgb565 (rgb565_pixel_at data (int_of_size_t fb.width) y x) = false) :
    face_detector_detect st (some fb) stack grid_allocated
      = { detected := false, face_count := 0, x := 0, y := 0, width := 0, height := 0 } := by
  apply detect_of_count_zero
  apply find_skin_regions_no_skin
  intro data hdata y x hy hx
  have h1 := int_of_size_t_le fb.height
  have h2 := int_of_size_t_le fb.width
  exact hnone data hdata y x (by omega) (by omega)

theorem dark_pixel (n : Nat) (width : Int) (y x : Nat) :
    rgb565_pixel_at (List.replicate n 0) width y x = 0 := by
  unfold rgb565_pixel_at
  have h0 : ∀ k, (List.replicate n 0).getD k 0 = 0 := by
    intro k
    simp only [List.getD_eq_getElem?_getD, List.getElem?_replicate]
    split <;> rfl
  simp only [h0]
  decide

/-- Witness for C16: an 8 x 8 frame of black pixels. -/
theorem no_skin_frame_reports_nothing_witness :
    is_skin_tone_rgb565 0 = false ∧
    face_detector_detect (detector_min_size 32) (some frame_dark) (fun _ => face_box_zero) true
      = { detected := false, face_count := 0, x := 0, y := 0, width := 0, height := 0 } :=
  ⟨by decide,
   no_skin_frame_reports_nothing (detector_min_size 32) frame_dark (fun _ => face_box_zero) true
     (by
       intro data hdata y x _ _
       have hd : data = List.replicate 128 0 := by
         have : frame_dark.buf = some (List.replicate 128 0) := rfl
         rw [this] at hdata
         exact (Option.some.inj hdata).symm
       rw [hd, dark_pixel]
       decide)⟩

/-- C17: `face_detector_detect` returns the not-detected result, with
face_count 0 and a zero box, for every frame whose format is not RGB565 (so for
every JPEG frame), whatever the frame buffer holds; it returns the same result
when the detector is not initialized and when the frame pointer is NULL. -/
theorem detect_rejects_other_inputs (st : face_state) (stack : Nat → face_box_t)
    (grid_allocated : Bool) :
    (∀ fb : camera_fb_t, fb.format ≠ pixformat_t.PIXFORMAT_RGB565 →
      face_detector_detect st (some fb) stack grid_allocated
        = { detected := false, face_count := 0, x := 0, y := 0, width := 0, height := 0 }) ∧
    (∀ fb : camera_fb_t, fb.format = pixformat_t.PIXFORMAT_JPEG →
      ∀ buf : Option (List Nat),
        face_detector_detect st (some { fb with buf := buf }) stack grid_allocated
          = { detected := false, face_count := 0, x := 0, y := 0, width := 0, height := 0 }) ∧
    (st.s_initialized = false → ∀ fb : Option camera_fb_t,
      face_detector_detect st fb stack grid_allocated
        = { detected := false, face_count := 0, x := 0, y := 0, width := 0, height := 0 }) ∧
    face_detector_detect st none stack grid_allocated
      = { detected := false, face_count := 0, x := 0, y := 0, width := 0, height := 0 } := by
  refine ⟨?_, ?_, ?_, rfl⟩
  · intro fb hfmt
    unfold face_detector_detect
    simp [hfmt]
  · intro fb hfmt buf
    unfold face_detector_detect
    simp [hfmt]
  · intro hinit fb
    unfold face_detector_detect
    cases fb with
    | none => rfl
    | some fb => simp [hinit]

/-- Witness for C17: a JPEG frame, and an RGB565 frame offered to a detector
that was never initialized. -/
theorem detect_rejects_other_inputs_witness :
    frame_jpeg.format ≠ pixformat_t.PIXFORMAT_RGB565 ∧
    face_detector_detect (detector_min_size 32) (some frame_jpeg) (fun _ => face_box_zero) true
      = { detected := false, face_count := 0, x := 0, y := 0, width := 0, height := 0 } ∧
    face_state_boot.s_initialized = false ∧
    face_detector_detect face_state_boot (some frame_rgb565) (fun _ => face_box_zero) true
      = { detected := false, face_count := 0, x := 0, y := 0, width := 0, height := 0 } :=
  ⟨by decide,
   (detect_rejects_other_inputs (detector_min_size 32) (fun _ => face_box_zero) true).1
     frame_jpeg (by decide),
   rfl,
   (detect_rejects_other_inputs face_state_boot (fun _ => face_box_zero) true).2.2.1 rfl
     (some frame_rgb565)⟩

/-- C18: every box that `find_skin_regions` accepts, and so every box that
`face_detector_detect` reports, is 32 x 32 pixels, and a candidate is kept only
if 32 reaches the minimum face size: with a minimum face size above 32 the
detector reports nothing, for every frame.  This is the case for the initial
minimum face size of 48, which is in force after `face_detector_init` as long
as `face_detector_set_min_size` is not called. -/
theorem boxes_are_32_and_gated_by_min_size (st : face_state) (fb : camera_fb_t)
    (stack : Nat → face_box_t) (grid_allocated : Bool) :
    (face_detector_detect st (some fb) stack grid_allocated
        = { detected := false, face_count := 0, x := 0, y := 0, width := 0, height := 0 } ∨
      ((face_detector_detect st (some fb) stack grid_allocated).detected = true ∧
        (face_detector_detect st (some fb) stack grid_allocated).width = 32 ∧
        (face_detector_detect st (some fb) stack grid_allocated).height = 32 ∧
        st.s_min_face_size ≤ 32)) ∧
    (32 < st.s_min_face_size →
      face_detector_detect st (some fb) stack grid_allocated
        = { detected := false, face_count := 0, x := 0, y := 0, width := 0, height := 0 }) ∧
    (face_detector_init face_state_boot).1.s_min_face_size = 48 ∧
    face_detector_detect (face_detector_init face_state_boot).1 (some fb) stack grid_allocated
      = { detected := false, face_count := 0, x := 0, y := 0, width := 0, height := 0 } ∧
    (∀ (rgb565_data : Option (List Nat)) (width height : Int) (faces : List face_box_t)
        (max_faces : Int) (i : Nat),
      (faces.length : Int) = max_faces →
      i < (find_skin_regions rgb565_data width height (some faces) max_faces
            st.s_min_face_size grid_allocated).face_count →
      ((find_skin_regions rgb565_data width height (some faces) max_faces
          st.s_min_face_size grid_allocated).faces.getD i face_box_zero).w = 32 ∧
      ((find_skin_regions rgb565_data width height (some faces) max_faces
          st.s_min_face_size grid_allocated).faces.getD i face_box_zero).h = 32 ∧
      st.s_min_face_size ≤ 32) := by
  have hgate : ∀ (s : face_state), 32 < s.s_min_face_size →
      face_detector_detect s (some fb) stack grid_allocated
        = { detected := false, face_count := 0, x := 0, y := 0, width := 0, height := 0 } := by
    intro s hs
    apply detect_of_count_zero
    exact find_skin_regions_min_size_above_32 _ _ _ _ _ _ _ hs
  have hfind : ∀ (rgb565_data : Option (List Nat)) (width height : Int)
      (faces : List face_box_t) (max_faces : Int) (i : Nat),
      (faces.length : Int) = max_faces →
      i < (find_skin_regions rgb565_data width height (some faces) max_faces
            st.s_min_face_size grid_allocated).face_count →
      ((find_skin_regions rgb565_data width height (some faces) max_faces
          st.s_min_face_size grid_allocated).faces.getD i face_box_zero).w = 32 ∧
      ((find_skin_regions rgb565_data width height (some faces) max_faces
          st.s_min_face_size grid_allocated).faces.getD i face_box_zero).h = 32 ∧
      st.s_min_face_size ≤ 32 := by
    intro rgb565_data width height faces max_faces i hlen hi
    have hinv := find_skin_regions_invariant rgb565_data width height faces max_faces
      st.s_min_face_size grid_allocated hlen
    obtain ⟨gy, gx, hbox, _, _⟩ := hinv.2.2.2.1 i hi
    rw [hbox]
    refine ⟨rfl, rfl, ?_⟩
    by_contra hmin
    have := find_skin_regions_min_size_above_32 rgb565_data width height (some faces) max_faces
      st.s_min_face_size grid_allocated (by omega)
    omega
  refine ⟨?_, hgate st, rfl, hgate _ (by decide), hfind⟩
  unfold face_detector_detect
  simp only []
  split
  · left; rfl
  · split
    · left; rfl
    · split
      · right
        rename_i hpos
        have hpos' : 0 < (find_skin_regions fb.buf (int_of_size_t fb.width)
            (int_of_size_t fb.height) (some ((List.range MAX_FACES).map stack)) MAX_FACES
            st.s_min_face_size grid_allocated).face_count := by
          exact_mod_cast hpos
        have := hfind fb.buf (int_of_size_t fb.width) (int_of_size_t fb.height)
          ((List.range MAX_FACES).map stack) MAX_FACES 0 (detect_stack_length stack) hpos'
        exact ⟨rfl, this.1, this.2.1, this.2.2⟩
      · left; rfl

/-- Witness for C18: the detector after `face_detector_init` alone, and a
detector whose minimum face size was set to 33. -/
theorem boxes_are_32_and_gated_by_min_size_witness :
    (32 : Int) < (detector_min_size 33).s_min_face_size ∧
    face_detector_detect (detector_min_size 33) (some frame_dark) (fun _ => face_box_zero) true
      = { detected := false, face_count := 0, x := 0, y := 0, width := 0, height := 0 } ∧
    face_detector_detect (face_detector_init face_state_boot).1 (some frame_dark)
        (fun _ => face_box_zero) true
      = { detected := false, face_count := 0, x := 0, y := 0, width := 0, height := 0 } :=
  ⟨by decide,
   (boxes_are_32_and_gated_by_min_size (detector_min_size 33) frame_dark
     (fun _ => face_box_zero) true).2.1 (by decide),
   (boxes_are_32_and_gated_by_min_size (detector_min_size 33) frame_dark
     (fun _ => face_box_zero) true).2.2.2.1⟩

theorem near_duplicate_symm (m : Int) (a b : face_box_t) :
    near_duplicate m a b ↔ near_duplicate m b a := by
  unfold near_duplicate
  constructor <;> (intro h; constructor <;> omega)

/-- C19: no two distinct candidates accepted by the scan of
`find_skin_regions` are near-duplicates: their corners differ by at least the
minimum face size in x or by at least the minimum face size in y.  This holds
for the scan over every grid and so for `find_skin_regions` on every frame. -/
theorem accepted_candidates_not_near_duplicates (min_face_size max_faces : Int)
    (faces : List face_box_t) (hlen : (faces.length : Int) = max_faces) :
    (∀ (grid : List Nat) (grid_w grid_h : Int) (i j : Nat), i ≠ j →
      i < (scan_grid grid grid_w grid_h min_face_size max_faces
            { faces := faces, face_count := 0, writes := [] }).face_count →
      j < (scan_grid grid grid_w grid_h min_face_size max_faces
            { faces := faces, face_count := 0, writes := [] }).face_count →
      min_face_size ≤ ((Int.natAbs
          (((scan_grid grid grid_w grid_h min_face_size max_faces
              { faces := faces, face_count := 0, writes := [] }).faces.getD i face_box_zero).x
          - ((scan_grid grid grid_w grid_h min_face_size max_faces
              { faces := faces, face_count := 0, writes := [] }).faces.getD j face_box_zero).x)
          : Nat) : Int) ∨
      min_face_size ≤ ((Int.natAbs
          (((scan_grid grid grid_w grid_h min_face_size max_faces
              { faces := faces, face_count := 0, writes := [] }).faces.getD i face_box_zero).y
          - ((scan_grid grid grid_w grid_h min_face_size max_faces
              { faces := faces, face_count := 0, writes := [] }).faces.getD j face_box_zero).y)
          : Nat) : Int)) ∧
    (∀ (rgb565_data : Option (List Nat)) (width height : Int) (grid_allocated : Bool)
        (i j : Nat), i ≠ j →
      i < (find_skin_regions rgb565_data width height (some faces) max_faces min_face_size
            grid_allocated).face_count →
      j < (find_skin_regions rgb565_data width height (some faces) max_faces min_face_size
            grid_allocated).face_count →
      min_face_size ≤ ((Int.natAbs
          (((find_skin_regions rgb565_data width height (some faces) max_faces min_face_size
              grid_allocated).faces.getD i face_box_zero).x
          - ((find_skin_regions rgb565_data width height (some faces) max_faces min_face_size
              grid_allocated).faces.getD j face_box_zero).x) : Nat) : Int) ∨
      min_face_size ≤ ((Int.natAbs
          (((find_skin_regions rgb565_data width height (some faces) max_faces min_face_size
              grid_allocated).faces.getD i face_box_zero).y
          - ((find_skin_regions rgb565_data width height (some faces) max_faces min_face_size
              grid_allocated).faces.getD j face_box_zero).y) : Nat) : Int)) := by
  have key : ∀ (grid_w grid_h : Int) (s : scan_state),
      scan_invariant grid_w grid_h min_face_size max_faces s →
      ∀ i j : Nat, i ≠ j → i < s.face_count → j < s.face_count →
        min_face_size ≤ ((Int.natAbs ((s.faces.getD i face_box_zero).x
            - (s.faces.getD j face_box_zero).x) : Nat) : Int) ∨
        min_face_size ≤ ((Int.natAbs ((s.faces.getD i face_box_zero).y
            - (s.faces.getD j face_box_zero).y) : Nat) : Int) := by
    intro grid_w grid_h s hinv i j hij hi hj
    have hpair := hinv.2.2.2.2
    rcases Nat.lt_or_gt_of_ne hij with h | h
    · have := hpair i j h hj
      unfold near_duplicate at this
      omega
    · have := hpair j i h hi
      unfold near_duplicate at this
      omega
  constructor
  · intro grid grid_w grid_h i j hij hi hj
    exact key grid_w grid_h _
      (scan_grid_keeps_invariant grid grid_w grid_h min_face_size max_faces _
        (scan_invariant_start grid_w grid_h min_face_size max_faces faces hlen)) i j hij hi hj
  · intro rgb565_data width height grid_allocated i j hij hi hj
    exact key _ _ _
      (find_skin_regions_invariant rgb565_data width height faces max_faces min_face_size
        grid_allocated hlen) i j hij hi hj

/-- Witness for C19: on a fully marked grid of 4 x 5 cells with minimum face
size 8 the scan accepts two windows, one grid row apart. -/
theorem accepted_candidates_not_near_duplicates_witness :
    (scan_grid grid_4x5 4 5 8 5 scan_start).face_count = 2 ∧
    (scan_grid grid_4x5 4 5 8 5 scan_start).faces.getD 0 face_box_zero = window_box 0 0 ∧
    (scan_grid grid_4x5 4 5 8 5 scan_start).faces.getD 1 face_box_zero = window_box 1 0 ∧
    ((8 : Int) ≤ ((Int.natAbs
        (((scan_grid grid_4x5 4 5 8 5 scan_start).faces.getD 0 face_box_zero).x
        - ((scan_grid grid_4x5 4 5 8 5 scan_start).faces.getD 1 face_box_zero).x) : Nat) : Int) ∨
      (8 : Int) ≤ ((Int.natAbs
        (((scan_grid grid_4x5 4 5 8 5 scan_start).faces.getD 0 face_box_zero).y
        - ((scan_grid grid_4x5 4 5 8 5 scan_start).faces.getD 1 face_box_zero).y) : Nat)
        : Int)) :=
  ⟨by decide, by decide, by decide,
   (accepted_candidates_not_near_duplicates 8 5 (List.replicate 5 face_box_zero)
     (by decide)).1 grid_4x5 4 5 0 1 (by decide) (by decide) (by decide)⟩

/-- C20: the count returned by `find_skin_regions` for the five-element array
of `face_detector_detect`, and so the reported face_count, lies between 0 and
5 for every frame and every minimum face size; every store into the array goes
to an index below 5; and both scan loops are left without another window step
as soon as five candidates are accepted. -/
theorem candidate_count_at_most_five (st : face_state) (stack : Nat → face_box_t)
    (grid_allocated : Bool) :
    (∀ fb : Option camera_fb_t,
      0 ≤ (face_detector_detect st fb stack grid_allocated).face_count ∧
      (face_detector_detect st fb stack grid_allocated).face_count ≤ 5) ∧
    (∀ (rgb565_data : Option (List Nat)) (width height : Int),
      (find_skin_regions rgb565_data width height (some ((List.range MAX_FACES).map stack))
          MAX_FACES st.s_min_face_size grid_allocated).face_count ≤ 5 ∧
      ∀ k ∈ (find_skin_regions rgb565_data width height
          (some ((List.range MAX_FACES).map stack)) MAX_FACES st.s_min_face_size
          grid_allocated).writes, k < 5) ∧
    (∀ (grid : List Nat) (grid_w grid_h : Int) (fuel gy gx : Nat) (s : scan_state),
      5 ≤ s.face_count →
      scan_row_from grid grid_w st.s_min_face_size MAX_FACES gy fuel gx s = s ∧
      scan_grid_from grid grid_w grid_h st.s_min_face_size MAX_FACES fuel gy s = s) := by
  have hfind : ∀ (rgb565_data : Option (List Nat)) (width height : Int),
      (find_skin_regions rgb565_data width height (some ((List.range MAX_FACES).map stack))
          MAX_FACES st.s_min_face_size grid_allocated).face_count ≤ 5 ∧
      ∀ k ∈ (find_skin_regions rgb565_data width height
          (some ((List.range MAX_FACES).map stack)) MAX_FACES st.s_min_face_size
          grid_allocated).writes, k < 5 := by
    intro rgb565_data width height
    have hinv := find_skin_regions_invariant rgb565_data width height
      ((List.range MAX_FACES).map stack) MAX_FACES st.s_min_face_size grid_allocated
      (detect_stack_length stack)
    have h5 : ((MAX_FACES : Nat) : Int) = 5 := rfl
    refine ⟨by have := hinv.2.1; omega, ?_⟩
    intro k hk
    have := hinv.2.2.1 k hk
    omega
  refine ⟨?_, hfind, ?_⟩
  · intro fb
    unfold face_detector_detect
    cases fb with
    | none => simp
    | some fb =>
      simp only []
      split
      · simp
      · split
        · simp
        · split
          · have := (hfind fb.buf (int_of_size_t fb.width) (int_of_size_t fb.height)).1
            dsimp only
            omega
          · simp
  · intro grid grid_w grid_h fuel gy gx s hfull
    have h5 : ((MAX_FACES : Nat) : Int) = 5 := rfl
    constructor
    · unfold scan_row_from
      apply for_loop_exit
      simp only [Bool.and_eq_false_imp, decide_eq_true_eq, decide_eq_false_iff_not]
      intro _
      omega
    · unfold scan_grid_from
      apply for_loop_exit
      simp only [Bool.and_eq_false_imp, decide_eq_true_eq, decide_eq_false_iff_not]
      intro _
      omega

/-- Witness for C20: on a fully marked grid of 28 x 4 cells with minimum face
size 32 the scan accepts five windows, stores at the indices 0 to 4, and leaves
20 further window positions of the row unvisited. -/
theorem candidate_count_at_most_five_witness :
    (scan_grid grid_28x4 28 4 32 5 scan_start).face_count = 5 ∧
    (scan_grid grid_28x4 28 4 32 5 scan_start).writes = [0, 1, 2, 3, 4] ∧
    (5 : Nat) ≤ (scan_grid grid_28x4 28 4 32 5 scan_start).face_count ∧
    scan_row_from grid_28x4 28 (detector_min_size 32).s_min_face_size MAX_FACES 0 5 20
        (scan_grid grid_28x4 28 4 32 5 scan_start)
      = scan_grid grid_28x4 28 4 32 5 scan_start ∧
    scan_grid_from grid_28x4 28 4 (detector_min_size 32).s_min_face_size MAX_FACES 1 0
        (scan_grid grid_28x4 28 4 32 5 scan_start)
      = scan_grid grid_28x4 28 4 32 5 scan_start :=
  ⟨by decide, by decide, by decide,
   ((candidate_count_at_most_five (detector_min_size 32) (fun _ => face_box_zero) true).2.2
     grid_28x4 28 4 5 0 20 (scan_grid grid_28x4 28 4 32 5 scan_start) (by decide)).1,
   ((candidate_count_at_most_five (detector_min_size 32) (fun _ => face_box_zero) true).2.2
     grid_28x4 28 4 1 0 20 (scan_grid grid_28x4 28 4 32 5 scan_start) (by decide)).2⟩

/-! ## The grid that the first part of find_skin_regions computes -/

theorem foldl_count_pair (p : Nat → Bool) (l : List Nat) :
    ∀ acc : Nat × Nat,
      l.foldl (fun acc x => (if p x then acc.1 + 1 else acc.1, acc.2 + 1)) acc
        = (acc.1 + l.countP p, acc.2 + l.length) := by
  induction l with
  | nil => intro acc; simp
  | cons a l ih =>
    intro acc
    rw [List.foldl_cons, ih, List.countP_cons, List.length_cons]
    by_cases ha : p a = true
    · simp only [ha, if_true]
      ext <;> simp only [] <;> omega
    · simp only [ha, Bool.false_eq_true, if_false]
      ext <;> simp only [] <;> omega

theorem foldl_count_rows (f : Nat → Nat) (n : Nat) (l : List Nat) :
    ∀ acc : Nat × Nat,
      l.foldl (fun acc y => (acc.1 + f y, acc.2 + n)) acc
        = (acc.1 + (l.map f).sum, acc.2 + n * l.length) := by
  induction l with
  | nil => intro acc; simp
  | cons a l ih =>
    intro acc
    rw [List.foldl_cons, ih, List.map_cons, List.sum_cons, List.length_cons]
    ext
    · simp only []; omega
    · simp only [Nat.mul_succ]; omega

theorem takeWhile_range_full (a : Nat) (bound : Int) (h : ((a + 8 : Nat) : Int) ≤ bound) :
    (List.range' a 8).takeWhile (fun (y : Nat) => decide ((y : Int) < bound))
      = List.range' a 8 := by
  rw [List.takeWhile_eq_self_iff]
  intro x hx
  rw [List.mem_range'_1] at hx
  simp only [decide_eq_true_eq]
  omega

/-- For a grid cell that lies inside the frame the loops look at all 64 pixels
and count the skin-tone ones. -/
theorem cell_skin_count_inside (rgb565_data : List Nat) (width height : Int) (gy gx : Nat)
    (hy : ((gy * 8 + 8 : Nat) : Int) ≤ height) (hx : ((gx * 8 + 8 : Nat) : Int) ≤ width) :
    cell_skin_count rgb565_data width height gy gx
      = (skin_pixels_in_cell rgb565_data width gy gx, 64) := by
  unfold cell_skin_count skin_pixels_in_cell
  rw [takeWhile_range_full (gy * 8) height hy, takeWhile_range_full (gx * 8) width hx]
  have hinner : ∀ (acc : Nat × Nat) (y : Nat),
      (List.range' (gx * 8) 8).foldl
        (fun acc x =>
          (if is_skin_tone_rgb565 (rgb565_pixel_at rgb565_data width y x) then acc.1 + 1
            else acc.1,
           acc.2 + 1)) acc
      = (acc.1 + (List.range' (gx * 8) 8).countP
            (fun x => is_skin_tone_rgb565 (rgb565_pixel_at rgb565_data width y x)),
         acc.2 + 8) := by
    intro acc y
    rw [foldl_count_pair (fun x => is_skin_tone_rgb565 (rgb565_pixel_at rgb565_data width y x))]
    simp
  simp only [hinner]
  rw [foldl_count_rows (fun y => (List.range' (gx * 8) 8).countP
    (fun x => is_skin_tone_rgb565 (rgb565_pixel_at rgb565_data width y x))) 8]
  simp

theorem cell_index_cast (gw gy gx : Nat) :
    (((gy : Int) * (gw : Int) + (gx : Int)).toNat) = gy * gw + gx := by
  have : (gy : Int) * (gw : Int) + (gx : Int) = ((gy * gw + gx : Nat) : Int) := by
    push_cast
    ring
  rw [this, Int.toNat_natCast]

theorem cell_index_inj (gw gy gx gy0 gx0 : Nat) (hx : gx < gw) (hx0 : gx0 < gw)
    (h : gy0 * gw + gx0 = gy * gw + gx) : gy0 = gy ∧ gx0 = gx := by
  have hpos : 0 < gw := by omega
  have hd : (gx0 + gy0 * gw) / gw = (gx + gy * gw) / gw := by
    rw [Nat.add_comm gx0, Nat.add_comm gx, h]
  rw [Nat.add_mul_div_right _ _ hpos, Nat.add_mul_div_right _ _ hpos,
    Nat.div_eq_of_lt hx0, Nat.div_eq_of_lt hx] at hd
  have hy : gy0 = gy := by omega
  subst hy
  exact ⟨rfl, by omega⟩

theorem cell_index_lt (gw gh gy gx : Nat) (hy : gy < gh) (hx : gx < gw) :
    gy * gw + gx < gw * gh := by
  have h1 : (gy + 1) * gw ≤ gh * gw := Nat.mul_le_mul_right gw hy
  rw [Nat.succ_mul] at h1
  rw [Nat.mul_comm gw gh]
  omega

/-- One grid row of the marking loops. -/
theorem mark_row_spec (marked : Nat → Bool) (gw gh gy : Nat) (hy : gy < gh) :
    ∀ (n : Nat) (g : List Nat), n ≤ gw → g.length = gw * gh →
      ((List.range n).foldl
          (fun grid gx =>
            if marked gx = true then grid.set (((gy : Int) * (gw : Int) + (gx : Int)).toNat) 1
            else grid) g).length = gw * gh ∧
      ∀ gy0 gx0 : Nat, gx0 < gw →
        ((List.range n).foldl
          (fun grid gx =>
            if marked gx = true then grid.set (((gy : Int) * (gw : Int) + (gx : Int)).toNat) 1
            else grid) g).getD (gy0 * gw + gx0) 0
          = if gy0 = gy ∧ gx0 < n ∧ marked gx0 = true then 1 else g.getD (gy0 * gw + gx0) 0 := by
  intro n
  induction n with
  | zero =>
    intro g _ hlen
    simp [hlen]
  | succ k ih =>
    intro g hk hlen
    obtain ⟨hl, hget⟩ := ih g (by omega) hlen
    rw [List.range_succ, List.foldl_append, List.foldl_cons, List.foldl_nil]
    rw [cell_index_cast]
    by_cases hm : marked k = true
    · rw [if_pos hm]
      refine ⟨by rw [List.length_set]; exact hl, ?_⟩
      intro gy0 gx0 hx0
      by_cases hsame : gy0 * gw + gx0 = gy * gw + k
      · obtain ⟨h1, h2⟩ := cell_index_inj gw gy k gy0 gx0 (by omega) hx0 hsame
        subst h1 h2
        have hin : gy0 * gw + gx0 < gw * gh := cell_index_lt gw gh gy0 gx0 hy hx0
        rw [List.getD_eq_getElem?_getD, List.getElem?_set_self (by rw [hl]; exact hin)]
        simp [hm]
      · rw [List.getD_eq_getElem?_getD, List.getElem?_set_ne (Ne.symm hsame),
          ← List.getD_eq_getElem?_getD, hget gy0 gx0 hx0]
        have hne : ¬ (gy0 = gy ∧ gx0 = k) := by
          rintro ⟨h1, h2⟩
          exact hsame (by rw [h1, h2])
        by_cases hc : gy0 = gy ∧ gx0 < k ∧ marked gx0 = true
        · rw [if_pos hc, if_pos ⟨hc.1, by omega, hc.2.2⟩]
        · rw [if_neg hc, if_neg]
          rintro ⟨h1, h2, h3⟩
          have : gx0 ≠ k := fun h => hne ⟨h1, h⟩
          exact hc ⟨h1, by omega, h3⟩
    · rw [if_neg hm]
      refine ⟨hl, ?_⟩
      intro gy0 gx0 hx0
      rw [hget gy0 gx0 hx0]
      by_cases hc : gy0 = gy ∧ gx0 < k ∧ marked gx0 = true
      · rw [if_pos hc, if_pos ⟨hc.1, by omega, hc.2.2⟩]
      · rw [if_neg hc, if_neg]
        rintro ⟨h1, h2, h3⟩
        by_cases hk2 : gx0 = k
        · subst hk2; exact hm h3
        · exact hc ⟨h1, by omega, h3⟩

/-- The grid after the marking loops: the entry of the cell `(gx, gy)` is 1
exactly when the cell passes the test `skin_count > total / 2`. -/
theorem mark_skin_cells_spec (rgb565_data : List Nat) (width height : Int) (gw gh : Nat) :
    ∀ (m : Nat) (g : List Nat), m ≤ gh → g.length = gw * gh →
      ((List.range m).foldl
          (fun grid gy =>
            (List.range ((gw : Int)).toNat).foldl
              (fun grid gx =>
                let counts := cell_skin_count rgb565_data width height gy gx
                if counts.2 / 2 < counts.1 then
                  grid.set (((gy : Int) * (gw : Int) + (gx : Int)).toNat) 1
                else grid)
              grid) g).length = gw * gh ∧
      ∀ gy0 gx0 : Nat, gx0 < gw →
        ((List.range m).foldl
          (fun grid gy =>
            (List.range ((gw : Int)).toNat).foldl
              (fun grid gx =>
                let counts := cell_skin_count rgb565_data width height gy gx
                if counts.2 / 2 < counts.1 then
                  grid.set (((gy : Int) * (gw : Int) + (gx : Int)).toNat) 1
                else grid)
              grid) g).getD (gy0 * gw + gx0) 0
          = if gy0 < m ∧ cell_marked rgb565_data width height gy0 gx0 = true then 1
            else g.getD (gy0 * gw + gx0) 0 := by
  intro m
  induction m with
  | zero =>
    intro g _ hlen
    simp [hlen]
  | succ k ih =>
    intro g hk hlen
    obtain ⟨hl, hget⟩ := ih g (by omega) hlen
    rw [List.range_succ, List.foldl_append, List.foldl_cons, List.foldl_nil]
    have hrow := mark_row_spec (fun gx => cell_marked rgb565_data width height k gx) gw gh k
      (by omega) gw _ (Nat.le_refl gw) hl
    have hstep : ∀ (grid : List Nat),
        (List.range ((gw : Int)).toNat).foldl
          (fun grid gx =>
            let counts := cell_skin_count rgb565_data width height k gx
            if counts.2 / 2 < counts.1 then
              grid.set (((k : Int) * (gw : Int) + (gx : Int)).toNat) 1
            else grid) grid
        = (List.range gw).foldl
          (fun grid gx =>
            if (fun gx => cell_marked rgb565_data width height k gx) gx = true then
              grid.set (((k : Int) * (gw : Int) + (gx : Int)).toNat) 1
            else grid) grid := by
      intro grid
      rw [Int.toNat_natCast]
      apply List.foldl_ext
      intro a b _
      simp only [cell_marked, decide_eq_true_eq]
    rw [hstep]
    refine ⟨hrow.1, ?_⟩
    intro gy0 gx0 hx0
    rw [hrow.2 gy0 gx0 hx0, hget gy0 gx0 hx0]
    by_cases h1 : gy0 = k
    · subst h1
      by_cases h2 : cell_marked rgb565_data width height gy0 gx0 = true
      · simp [h2, hx0]
      · simp [h2]
    · by_cases h2 : gy0 < k
      · have h3 : gy0 < k + 1 := by omega
        simp [h1, h2, h3]
      · have h3 : ¬ gy0 < k + 1 := by omega
        simp [h1, h2, h3]

theorem mark_skin_cells_getD (rgb565_data : List Nat) (width height : Int) (gw gh : Nat)
    (gy gx : Nat) (hy : gy < gh) (hx : gx < gw) :
    (mark_skin_cells rgb565_data width height (gw : Int) (gh : Int)
        (List.replicate (gw * gh) 0)).getD (gy * gw + gx) 0
      = if cell_marked rgb565_data width height gy gx = true then 1 else 0 := by
  unfold mark_skin_cells
  rw [Int.toNat_natCast gh]
  have h := (mark_skin_cells_spec rgb565_data width height gw gh gh
    (List.replicate (gw * gh) 0) (Nat.le_refl gh) (by simp)).2 gy gx hx
  rw [h]
  have h0 : (List.replicate (gw * gh) 0).getD (gy * gw + gx) 0 = 0 := by
    simp only [List.getD_eq_getElem?_getD, List.getElem?_replicate]
    split <;> rfl
  simp [hy, h0]

/-! ## The window count of find_skin_regions -/

theorem foldl_count (p : Nat → Bool) (l : List Nat) :
    ∀ c : Nat, l.foldl (fun c d => if p d = true then c + 1 else c) c = c + l.countP p := by
  induction l with
  | nil => intro c; simp
  | cons a l ih =>
    intro c
    rw [List.foldl_cons, ih, List.countP_cons]
    by_cases ha : p a = true
    · simp only [ha, if_true]; omega
    · simp only [ha, Bool.false_eq_true, if_false]; omega

theorem foldl_add (f : Nat → Nat) (l : List Nat) :
    ∀ c : Nat, l.foldl (fun c d => c + f d) c = c + (l.map f).sum := by
  induction l with
  | nil => intro c; simp
  | cons a l ih =>
    intro c
    rw [List.foldl_cons, ih, List.map_cons, List.sum_cons]
    omega

theorem window_index_cast (gw gy gx dy dx : Nat) :
    ((((gy + dy : Nat) : Int) * (gw : Int) + (gx : Int) + (dx : Int)).toNat)
      = (gy + dy) * gw + (gx + dx) := by
  have : ((gy + dy : Nat) : Int) * (gw : Int) + (gx : Int) + (dx : Int)
      = (((gy + dy) * gw + (gx + dx) : Nat) : Int) := by
    push_cast
    ring
  rw [this, Int.toNat_natCast]

/-- The window count in terms of the marks of the 16 cells of the window. -/
theorem cluster_count_eq (grid : List Nat) (gw gh : Nat) (mark : Nat → Nat → Bool)
    (hgrid : ∀ y x : Nat, y < gh → x < gw →
      grid.getD (y * gw + x) 0 = if mark y x = true then 1 else 0)
    (gy gx : Nat) (hy : gy + 3 < gh) (hx : gx + 3 < gw) :
    cluster_count grid (gw : Int) gy gx
      = ((List.range 4).map (fun dy =>
          (List.range 4).countP (fun dx => mark (gy + dy) (gx + dx)))).sum := by
  unfold cluster_count
  have hinner : ∀ (c : Nat) (dy : Nat), dy ∈ List.range 4 →
      (List.range 4).foldl
        (fun (cluster : Nat) (dx : Nat) =>
          if grid.getD ((((gy + dy : Nat) : Int) * (gw : Int) + (gx : Int) + (dx : Int)).toNat) 0
            ≠ 0 then cluster + 1 else cluster) c
      = c + (List.range 4).countP (fun dx => mark (gy + dy) (gx + dx)) := by
    intro c dy hdy
    rw [List.mem_range] at hdy
    rw [← foldl_count]
    apply List.foldl_ext
    intro a dx hdx
    rw [List.mem_range] at hdx
    rw [window_index_cast, hgrid (gy + dy) (gx + dx) (by omega) (by omega)]
    by_cases hm : mark (gy + dy) (gx + dx) = true <;> simp [hm]
  have houter : (List.range 4).foldl
      (fun (cluster : Nat) (dy : Nat) =>
        (List.range 4).foldl
          (fun (cluster : Nat) (dx : Nat) =>
            if grid.getD ((((gy + dy : Nat) : Int) * (gw : Int) + (gx : Int) + (dx : Int)).toNat) 0
              ≠ 0 then cluster + 1 else cluster) cluster) 0
      = (List.range 4).foldl
          (fun c dy => c + (List.range 4).countP (fun dx => mark (gy + dy) (gx + dx))) 0 := by
    apply List.foldl_ext
    intro c dy hdy
    exact hinner c dy hdy
  rw [houter, foldl_add]
  simp

/-- A loop with enough fuel is left with its condition false, and a property
of index and state that every executed body carries to the next index holds
there. -/
theorem for_loop_indexed {σ : Type} (cond : Nat → σ → Bool) (body : Nat → σ → Nat × σ)
    (bound : Nat) (inv : Nat → σ → Prop)
    (hbound : ∀ i s, cond i s = true → i < bound)
    (hmono : ∀ i s, i ≤ (body i s).1)
    (hstep : ∀ i s, inv i s → cond i s = true → inv ((body i s).1 + 1) (body i s).2) :
    ∀ (fuel i : Nat) (s : σ), bound - i ≤ fuel → inv i s →
      ∃ j, inv j (for_loop cond body fuel i s) ∧
        cond j (for_loop cond body fuel i s) = false := by
  intro fuel
  induction fuel with
  | zero =>
    intro i s h hs
    have hc : cond i s = false := by
      by_contra hc
      have := hbound i s (by simpa using hc)
      omega
    exact ⟨i, hs, hc⟩
  | succ n ih =>
    intro i s h hs
    rw [for_loop_succ]
    by_cases hc : cond i s = true
    · rw [if_pos hc]
      have := hmono i s
      exact ih _ _ (by omega) (hstep i s hs hc)
    · rw [if_neg hc]
      exact ⟨i, hs, by simpa using hc⟩

/-- The scan when the qualifying windows lie close together: the first of
them in scan order is accepted at index 0 and every later one is dropped as
a near-duplicate of it. -/
theorem scan_grid_first_window (grid : List Nat) (gw gh : Nat) (m max_faces : Int)
    (fy fx : Nat) (hfy : fy + 3 < gh) (hfx : fx + 3 < gw) (hm : m ≤ 32) (hmax : 0 < max_faces)
    (hF : 10 ≤ cluster_count grid (gw : Int) fy fx)
    (hfirst : ∀ gy gx : Nat, gy + 3 < gh → gx + 3 < gw →
      10 ≤ cluster_count grid (gw : Int) gy gx → fy < gy ∨ (gy = fy ∧ fx ≤ gx))
    (hnear : ∀ gy gx : Nat, gy + 3 < gh → gx + 3 < gw →
      10 ≤ cluster_count grid (gw : Int) gy gx →
      near_duplicate m (window_box fy fx) (window_box gy gx))
    (faces0 : List face_box_t) (hlen : (faces0.length : Int) = max_faces) :
    (scan_grid grid (gw : Int) (gh : Int) m max_faces
        { faces := faces0, face_count := 0, writes := [] }).face_count = 1 ∧
    (scan_grid grid (gw : Int) (gh : Int) m max_faces
        { faces := faces0, face_count := 0, writes := [] }).faces.getD 0 face_box_zero
      = window_box fy fx := by
  -- the window step
  have hwin : ∀ (gy gx : Nat) (s : scan_state), gy + 3 < gh → gx + 3 < gw →
      (s.face_count : Int) < max_faces →
      ((s.faces.length : Int) = max_faces ∧
        ((s.face_count = 0 ∧ (gy < fy ∨ (gy = fy ∧ gx ≤ fx))) ∨
         (s.face_count = 1 ∧ s.faces.getD 0 face_box_zero = window_box fy fx))) →
      (((scan_window grid (gw : Int) m gy gx s).2.faces.length : Int) = max_faces ∧
        (((scan_window grid (gw : Int) m gy gx s).2.face_count = 0 ∧
            (gy < fy ∨ (gy = fy ∧ (scan_window grid (gw : Int) m gy gx s).1 + 1 ≤ fx))) ∨
         ((scan_window grid (gw : Int) m gy gx s).2.face_count = 1 ∧
            (scan_window grid (gw : Int) m gy gx s).2.faces.getD 0 face_box_zero
              = window_box fy fx))) := by
    intro gy gx s hgy hgx hroom ⟨hl, hs⟩
    have hl0 : s.face_count < s.faces.length := by omega
    rcases scan_window_cases grid (gw : Int) m gy gx s with
      ⟨hq, heq⟩ | ⟨hq, heq, hwhy⟩ | ⟨hq, heq, hno, _⟩
    · -- the window does not qualify
      rw [heq]
      refine ⟨hl, ?_⟩
      rcases hs with ⟨h0, hpos⟩ | h1
      · left
        refine ⟨h0, ?_⟩
        dsimp only
        rcases hpos with h | ⟨h, h2⟩
        · exact Or.inl h
        · right
          refine ⟨h, ?_⟩
          by_contra hcon
          have : gx = fx := by omega
          rw [h, this] at hq
          omega
      · exact Or.inr h1
    · -- stored and dropped
      rw [heq]
      dsimp only
      refine ⟨by rw [List.length_set]; exact hl, ?_⟩
      rcases hs with ⟨h0, _⟩ | ⟨h1, hbox⟩
      · exfalso
        rcases hwhy with ⟨i, hi, _⟩ | hw
        · omega
        · rw [getD_set_self _ _ _ hl0] at hw
          unfold window_box at hw
          dsimp only at hw
          omega
      · right
        refine ⟨h1, ?_⟩
        rw [h1, getD_set_other _ _ _ _ (by omega)]
        exact hbox
    · -- stored and accepted
      rw [heq]
      dsimp only
      refine ⟨by rw [List.length_set]; exact hl, ?_⟩
      rcases hs with ⟨h0, hpos⟩ | ⟨h1, hbox⟩
      · right
        have hpos2 := hfirst gy gx hgy hgx hq
        have hgyf : gy = fy := by omega
        have hgxf : gx = fx := by omega
        refine ⟨by omega, ?_⟩
        rw [h0] at hl0
        rw [h0, getD_set_self _ _ _ hl0, hgyf, hgxf]
      · exfalso
        apply hno 0 (by omega)
        rw [getD_set_self _ _ _ hl0, getD_set_other _ _ _ _ (by omega), hbox]
        exact hnear gy gx hgy hgx hq
  -- the row loop
  have hrow : ∀ (gy : Nat) (s : scan_state), gy + 3 < gh →
      ((s.faces.length : Int) = max_faces ∧
        ((s.face_count = 0 ∧ gy ≤ fy) ∨
         (s.face_count = 1 ∧ s.faces.getD 0 face_box_zero = window_box fy fx))) →
      (((scan_row grid (gw : Int) m max_faces gy s).faces.length : Int) = max_faces ∧
        (((scan_row grid (gw : Int) m max_faces gy s).face_count = 0 ∧ gy + 1 ≤ fy) ∨
         ((scan_row grid (gw : Int) m max_faces gy s).face_count = 1 ∧
            (scan_row grid (gw : Int) m max_faces gy s).faces.getD 0 face_box_zero
              = window_box fy fx))) := by
    intro gy s hgy ⟨hl, hs⟩
    unfold scan_row scan_row_from
    obtain ⟨j, ⟨hjl, hj⟩, hcj⟩ := for_loop_indexed
      (fun gx s => decide ((gx : Int) < (gw : Int) - 3) &&
        decide ((s.face_count : Int) < max_faces))
      (fun gx s => scan_window grid (gw : Int) m gy gx s)
      (gw - 3)
      (fun gx s => (s.faces.length : Int) = max_faces ∧
        ((s.face_count = 0 ∧ (gy < fy ∨ (gy = fy ∧ gx ≤ fx))) ∨
         (s.face_count = 1 ∧ s.faces.getD 0 face_box_zero = window_box fy fx)))
      (by
        intro i s hc
        simp only [Bool.and_eq_true, decide_eq_true_eq] at hc
        omega)
      (by
        intro i s
        show i ≤ (scan_window grid (gw : Int) m gy i s).1
        rcases scan_window_cases grid (gw : Int) m gy i s with
          ⟨_, heq⟩ | ⟨_, heq, _⟩ | ⟨_, heq, _⟩ <;>
          first | (rw [heq]; dsimp only; omega) | rw [heq])
      (by
        intro i s hinv hc
        simp only [Bool.and_eq_true, decide_eq_true_eq] at hc
        exact hwin gy i s hgy (by omega) hc.2 hinv)
      ((gw : Int) - 3).toNat 0 s (by omega)
      ⟨hl, by
        rcases hs with ⟨h0, hle⟩ | h1
        · exact Or.inl ⟨h0, by omega⟩
        · exact Or.inr h1⟩
    refine ⟨hjl, ?_⟩
    rcases hj with ⟨h0, hpos⟩ | h1
    · left
      refine ⟨h0, ?_⟩
      simp only [Bool.and_eq_false_iff, decide_eq_false_iff_not] at hcj
      rw [h0] at hcj
      rcases hcj with hc | hc
      · omega
      · exact absurd hmax hc
    · exact Or.inr h1
  -- the loop over the rows
  unfold scan_grid scan_grid_from
  obtain ⟨j, ⟨_, hj⟩, hcj⟩ := for_loop_indexed
    (fun gy s => decide ((gy : Int) < (gh : Int) - 3) &&
      decide ((s.face_count : Int) < max_faces))
    (fun gy s => (gy, scan_row grid (gw : Int) m max_faces gy s))
    (gh - 3)
    (fun gy s => (s.faces.length : Int) = max_faces ∧
      ((s.face_count = 0 ∧ gy ≤ fy) ∨
       (s.face_count = 1 ∧ s.faces.getD 0 face_box_zero = window_box fy fx)))
    (by
      intro i s hc
      simp only [Bool.and_eq_true, decide_eq_true_eq] at hc
      omega)
    (by intro i s; exact Nat.le_refl i)
    (by
      intro i s hinv hc
      simp only [Bool.and_eq_true, decide_eq_true_eq] at hc
      exact hrow i s (by omega) hinv)
    ((gh : Int) - 3).toNat 0 { faces := faces0, face_count := 0, writes := [] } (by omega)
    ⟨hlen, Or.inl ⟨rfl, Nat.zero_le _⟩⟩
  rcases hj with ⟨h0, hpos⟩ | h1
  · exfalso
    simp only [Bool.and_eq_false_iff, decide_eq_false_iff_not] at hcj
    rw [h0] at hcj
    rcases hcj with hc | hc
    · omega
    · exact absurd hmax hc
  · exact h1

/-! ## A frame with one skin block on the cell grid -/

/-- How many of the four cells `g .. g + 3` lie in `c .. c + 3`. -/
theorem overlap_count (c g : Nat) :
    (List.range 4).countP (fun d => decide (c ≤ g + d ∧ g + d < c + 4))
      = if g + 4 ≤ c then 0 else if c + 4 ≤ g then 0
        else if g ≤ c then 4 - (c - g) else 4 - (g - c) := by
  have hr : List.range 4 = [0, 1, 2, 3] := by decide
  rw [hr]
  simp only [List.countP_cons, List.countP_nil, decide_eq_true_eq]
  split_ifs <;> omega

theorem countP_and_const (r : Bool) (p : Nat → Bool) (l : List Nat) :
    l.countP (fun d => p d && r) = if r = true then l.countP p else 0 := by
  cases r <;> simp

/-- The window count on a grid whose marked cells are the 4 x 4 block at
`(cx, cy)`. -/
theorem cluster_count_block (grid : List Nat) (gw gh cx cy : Nat)
    (hgrid : ∀ y x : Nat, y < gh → x < gw →
      grid.getD (y * gw + x) 0
        = if (decide (cx ≤ x ∧ x < cx + 4) && decide (cy ≤ y ∧ y < cy + 4)) = true then 1 else 0)
    (gy gx : Nat) (hy : gy + 3 < gh) (hx : gx + 3 < gw) :
    cluster_count grid (gw : Int) gy gx
      = (List.range 4).countP (fun d => decide (cy ≤ gy + d ∧ gy + d < cy + 4))
        * (List.range 4).countP (fun d => decide (cx ≤ gx + d ∧ gx + d < cx + 4)) := by
  rw [cluster_count_eq grid gw gh
    (fun y x => decide (cx ≤ x ∧ x < cx + 4) && decide (cy ≤ y ∧ y < cy + 4)) hgrid gy gx hy hx]
  simp only [countP_and_const]
  have hr : List.range 4 = [0, 1, 2, 3] := by decide
  generalize (List.range 4).countP (fun d => decide (cx ≤ gx + d ∧ gx + d < cx + 4)) = n
  rw [hr]
  simp only [List.map_cons, List.map_nil, List.sum_cons, List.sum_nil, List.countP_cons,
    List.countP_nil, decide_eq_true_eq]
  split_ifs <;> ring

/-- On a grid whose marked cells are the 4 x 4 block at `(cx, cy)`, a window
holds at least 10 marked cells exactly when it is the window of the block or
one of its four neighbours. -/
theorem cluster_count_block_iff (grid : List Nat) (gw gh cx cy : Nat)
    (hgrid : ∀ y x : Nat, y < gh → x < gw →
      grid.getD (y * gw + x) 0
        = if (decide (cx ≤ x ∧ x < cx + 4) && decide (cy ≤ y ∧ y < cy + 4)) = true then 1 else 0)
    (gy gx : Nat) (hy : gy + 3 < gh) (hx : gx + 3 < gw) :
    10 ≤ cluster_count grid (gw : Int) gy gx ↔
      (gy = cy ∧ (gx = cx ∨ gx + 1 = cx ∨ gx = cx + 1)) ∨
      (gx = cx ∧ (gy + 1 = cy ∨ gy = cy + 1)) := by
  rw [cluster_count_block grid gw gh cx cy hgrid gy gx hy hx]
  have ha : (List.range 4).countP (fun d => decide (cy ≤ gy + d ∧ gy + d < cy + 4)) ≤ 4 ∧
      ((List.range 4).countP (fun d => decide (cy ≤ gy + d ∧ gy + d < cy + 4)) = 4 ↔ gy = cy) ∧
      ((List.range 4).countP (fun d => decide (cy ≤ gy + d ∧ gy + d < cy + 4)) = 3
        ↔ (gy + 1 = cy ∨ gy = cy + 1)) := by
    rw [overlap_count]
    split_ifs <;> refine ⟨?_, ⟨?_, ?_⟩, ⟨?_, ?_⟩⟩ <;> intros <;> first | omega | contradiction
  have hb : (List.range 4).countP (fun d => decide (cx ≤ gx + d ∧ gx + d < cx + 4)) ≤ 4 ∧
      ((List.range 4).countP (fun d => decide (cx ≤ gx + d ∧ gx + d < cx + 4)) = 4 ↔ gx = cx) ∧
      ((List.range 4).countP (fun d => decide (cx ≤ gx + d ∧ gx + d < cx + 4)) = 3
        ↔ (gx + 1 = cx ∨ gx = cx + 1)) := by
    rw [overlap_count]
    split_ifs <;> refine ⟨?_, ⟨?_, ?_⟩, ⟨?_, ?_⟩⟩ <;> intros <;> first | omega | contradiction
  generalize (List.range 4).countP (fun d => decide (cy ≤ gy + d ∧ gy + d < cy + 4)) = a at ha ⊢
  generalize (List.range 4).countP (fun d => decide (cx ≤ gx + d ∧ gx + d < cx + 4)) = b at hb ⊢
  obtain ⟨ha4, ha1, ha2⟩ := ha
  obtain ⟨hb4, hb1, hb2⟩ := hb
  interval_cases a <;> interval_cases b <;> omega

theorem skin_pixels_in_cell_block (rgb565_data : List Nat) (width height cx cy : Nat)
    (hframe : skin_block_frame rgb565_data width height (8 * cx) (8 * cy))
    (gy gx : Nat) (hy : gy * 8 + 8 ≤ height) (hx : gx * 8 + 8 ≤ width) :
    skin_pixels_in_cell rgb565_data (width : Int) gy gx
      = if (decide (cx ≤ gx ∧ gx < cx + 4) && decide (cy ≤ gy ∧ gy < cy + 4)) = true
        then 64 else 0 := by
  unfold skin_pixels_in_cell
  have hpix : ∀ y ∈ List.range' (gy * 8) 8, ∀ x ∈ List.range' (gx * 8) 8,
      is_skin_tone_rgb565 (rgb565_pixel_at rgb565_data (width : Int) y x)
        = (decide (cx ≤ gx ∧ gx < cx + 4) && decide (cy ≤ gy ∧ gy < cy + 4)) := by
    intro y hy1 x hx1
    rw [List.mem_range'_1] at hy1 hx1
    rw [hframe y x (by omega) (by omega)]
    rw [Bool.eq_iff_iff]
    simp only [Bool.and_eq_true, decide_eq_true_eq]
    omega
  by_cases hb : (decide (cx ≤ gx ∧ gx < cx + 4) && decide (cy ≤ gy ∧ gy < cy + 4)) = true
  · rw [if_pos hb]
    have hrow : ∀ y ∈ List.range' (gy * 8) 8,
        (List.range' (gx * 8) 8).countP (fun x =>
          is_skin_tone_rgb565 (rgb565_pixel_at rgb565_data (width : Int) y x)) = 8 := by
      intro y hy1
      have : (List.range' (gx * 8) 8).countP (fun x =>
          is_skin_tone_rgb565 (rgb565_pixel_at rgb565_data (width : Int) y x))
          = (List.range' (gx * 8) 8).length := by
        rw [List.countP_eq_length]
        intro x hx1
        rw [hpix y hy1 x hx1, hb]
      rw [this, List.length_range']
    rw [List.map_congr_left hrow]
    simp
  · rw [if_neg hb]
    have hrow : ∀ y ∈ List.range' (gy * 8) 8,
        (List.range' (gx * 8) 8).countP (fun x =>
          is_skin_tone_rgb565 (rgb565_pixel_at rgb565_data (width : Int) y x)) = 0 := by
      intro y hy1
      rw [List.countP_eq_zero]
      intro x hx1
      rw [hpix y hy1 x hx1]
      exact hb
    rw [List.map_congr_left hrow]
    simp

/-- The grid that the first part of `find_skin_regions` leaves for a frame
with one skin block on the cell grid: the marked cells are the 4 x 4 cells of
the block. -/
theorem mark_skin_cells_block (rgb565_data : List Nat) (width height cx cy : Nat)
    (hframe : skin_block_frame rgb565_data width height (8 * cx) (8 * cy))
    (y x : Nat) (hy : y < height / 8) (hx : x < width / 8) :
    (mark_skin_cells rgb565_data (width : Int) (height : Int)
        ((width / 8 : Nat) : Int) ((height / 8 : Nat) : Int)
        (List.replicate (width / 8 * (height / 8)) 0)).getD (y * (width / 8) + x) 0
      = if (decide (cx ≤ x ∧ x < cx + 4) && decide (cy ≤ y ∧ y < cy + 4)) = true
        then 1 else 0 := by
  rw [mark_skin_cells_getD rgb565_data (width : Int) (height : Int) (width / 8) (height / 8)
    y x hy hx]
  unfold cell_marked
  rw [cell_skin_count_inside rgb565_data (width : Int) (height : Int) y x
    (by push_cast; omega) (by push_cast; omega)]
  rw [skin_pixels_in_cell_block rgb565_data width height cx cy hframe y x (by omega) (by omega)]
  by_cases hb : (decide (cx ≤ x ∧ x < cx + 4) && decide (cy ≤ y ∧ y < cy + 4)) = true
  · rw [if_pos hb, if_pos hb]
    rfl
  · rw [if_neg hb, if_neg hb]
    rfl

/-- The scan of `find_skin_regions` on a frame with one skin block on the cell
grid, for a minimum face size from 17 to 32: one candidate, the box of the
first window around the block. -/
theorem find_skin_regions_block (rgb565_data : List Nat) (width height cx cy : Nat)
    (hcx : 8 * cx + 32 ≤ width) (hcy : 8 * cy + 32 ≤ height)
    (hframe : skin_block_frame rgb565_data width height (8 * cx) (8 * cy))
    (m max_faces : Int) (hm1 : 16 < m) (hm2 : m ≤ 32) (hmax : 0 < max_faces)
    (faces0 : List face_box_t) (hlen : (faces0.length : Int) = max_faces) :
    (find_skin_regions (some rgb565_data) (width : Int) (height : Int) (some faces0)
        max_faces m true).face_count = 1 ∧
    (find_skin_regions (some rgb565_data) (width : Int) (height : Int) (some faces0)
        max_faces m true).faces.getD 0 face_box_zero
      = window_box (first_window cy cx).1 (first_window cy cx).2 := by
  have hgw : Int.tdiv (width : Int) 8 = ((width / 8 : Nat) : Int) := by
    rw [Int.tdiv_eq_ediv (by omega)]
    · omega
    · omega
  have hgh : Int.tdiv (height : Int) 8 = ((height / 8 : Nat) : Int) := by
    rw [Int.tdiv_eq_ediv (by omega)]
    · omega
    · omega
  have hsize : (((width / 8 : Nat) : Int) * ((height / 8 : Nat) : Int)).toNat
      = width / 8 * (height / 8) := by
    rw [← Nat.cast_mul, Int.toNat_natCast]
  unfold find_skin_regions
  simp only [Bool.not_true, Bool.false_eq_true, if_false]
  rw [hgw, hgh, hsize]
  have hiff := cluster_count_block_iff
    (mark_skin_cells rgb565_data (width : Int) (height : Int)
      ((width / 8 : Nat) : Int) ((height / 8 : Nat) : Int)
      (List.replicate (width / 8 * (height / 8)) 0))
    (width / 8) (height / 8) cx cy
    (fun y x hy hx => mark_skin_cells_block rgb565_data width height cx cy hframe y x hy hx)
  have hfy : (first_window cy cx).1 + 3 < height / 8 := by
    unfold first_window
    split_ifs <;> dsimp only <;> omega
  have hfx : (first_window cy cx).2 + 3 < width / 8 := by
    unfold first_window
    split_ifs <;> dsimp only <;> omega
  apply scan_grid_first_window _ (width / 8) (height / 8) m max_faces
    (first_window cy cx).1 (first_window cy cx).2 hfy hfx hm2 hmax
  · rw [hiff _ _ hfy hfx]
    unfold first_window
    split_ifs <;> dsimp only <;> omega
  · intro gy gx hgy hgx hq
    rw [hiff gy gx hgy hgx] at hq
    unfold first_window
    split_ifs <;> dsimp only <;> omega
  · intro gy gx hgy hgx hq
    rw [hiff gy gx hgy hgx] at hq
    unfold near_duplicate window_box first_window
    split_ifs <;> dsimp only <;> omega
  · exact hlen

/-- The result of `face_detector_detect` when `find_skin_regions` returns a
positive count: the count and the first entry of the array. -/
theorem detect_of_count_pos (st : face_state) (fb : camera_fb_t) (stack : Nat → face_box_t)
    (grid_allocated : Bool) (hinit : st.s_initialized = true)
    (hfmt : fb.format = pixformat_t.PIXFORMAT_RGB565) (box : face_box_t) (n : Nat)
    (hcount : (find_skin_regions fb.buf (int_of_size_t fb.width) (int_of_size_t fb.height)
      (some ((List.range MAX_FACES).map stack)) MAX_FACES st.s_min_face_size
      grid_allocated).face_count = n + 1)
    (hbox : (find_skin_regions fb.buf (int_of_size_t fb.width) (int_of_size_t fb.height)
      (some ((List.range MAX_FACES).map stack)) MAX_FACES st.s_min_face_size
      grid_allocated).faces.getD 0 face_box_zero = box) :
    face_detector_detect st (some fb) stack grid_allocated
      = { detected := true, face_count := ((n + 1 : Nat) : Int),
          x := box.x, y := box.y, width := box.w, height := box.h } := by
  unfold face_detector_detect
  simp only [hinit, hfmt, Bool.not_true, Bool.false_eq_true, if_false, ne_eq, not_true_eq_false]
  rw [hcount, hbox]
  simp

theorem skin_pixel : is_skin_tone_rgb565 0xB3CB = true := by decide

theorem black_pixel : is_skin_tone_rgb565 0 = false := by decide

/-- The pixels of the example frame with a skin block. -/
theorem block_frame_pixel (width height block_x block_y : Nat) (y x : Nat)
    (hy : y < height) (hx : x < width) :
    rgb565_pixel_at (block_frame_data width height block_x block_y) (width : Int) y x
      = if block_x ≤ x ∧ x < block_x + 32 ∧ block_y ≤ y ∧ y < block_y + 32 then 0xB3CB
        else 0 := by
  unfold rgb565_pixel_at
  have hidx : ((((y : Int) * (width : Int) + (x : Int)) * 2).toNat) = (y * width + x) * 2 := by
    have : ((y : Int) * (width : Int) + (x : Int)) * 2 = (((y * width + x) * 2 : Nat) : Int) := by
      push_cast
      ring
    rw [this, Int.toNat_natCast]
  simp only []
  rw [hidx]
  have hlt : y * width + x < width * height := by
    have h1 : (y + 1) * width ≤ height * width := Nat.mul_le_mul_right width (by omega)
    have h2 : (y + 1) * width = y * width + width := by ring
    have h3 : height * width = width * height := Nat.mul_comm _ _
    omega
  have hdiv : (y * width + x) / width = y := by
    rw [Nat.add_comm, Nat.add_mul_div_right _ _ (by omega), Nat.div_eq_of_lt hx]
    omega
  have hmod : (y * width + x) % width = x := by
    rw [Nat.add_comm, Nat.add_mul_mod_self_right, Nat.mod_eq_of_lt hx]
  have hget : ∀ k, k < width * height * 2 →
      (block_frame_data width height block_x block_y).getD k 0
        = if block_x ≤ (k / 2) % width ∧ (k / 2) % width < block_x + 32 ∧
              block_y ≤ (k / 2) / width ∧ (k / 2) / width < block_y + 32 then
            (if k % 2 = 0 then 0xCB else 0xB3)
          else 0 := by
    intro k hk
    unfold block_frame_data
    rw [List.getD_eq_getElem?_getD, List.getElem?_map, List.getElem?_range hk]
    rfl
  rw [hget _ (by omega), hget _ (by omega)]
  have e1 : ((y * width + x) * 2 + 1) / 2 = y * width + x := by omega
  have e2 : ((y * width + x) * 2) / 2 = y * width + x := by omega
  have e3 : ((y * width + x) * 2 + 1) % 2 = 1 := by omega
  have e4 : ((y * width + x) * 2) % 2 = 0 := by omega
  rw [e1, e2, e3, e4, hdiv, hmod]
  by_cases hb : block_x ≤ x ∧ x < block_x + 32 ∧ block_y ≤ y ∧ y < block_y + 32
  · rw [if_pos hb, if_pos hb, if_pos hb]
    decide
  · rw [if_neg hb, if_neg hb, if_neg hb]
    decide

/-- The example frame holds one skin block and no other skin-tone pixel. -/
theorem block_frame_is_skin_block (width height block_x block_y : Nat) :
    skin_block_frame (block_frame_data width height block_x block_y) width height
      block_x block_y := by
  intro y x hy hx
  rw [block_frame_pixel width height block_x block_y y x hy hx]
  by_cases hb : block_x ≤ x ∧ x < block_x + 32 ∧ block_y ≤ y ∧ y < block_y + 32
  · rw [if_pos hb, skin_pixel]
    simp [hb]
  · rw [if_neg hb, black_pixel]
    simp [hb]

/-! ## A frame with one skin block anywhere -/

theorem skin_pixels_in_cell_of_block_frame (rgb565_data : List Nat)
    (width height block_x block_y : Nat)
    (hframe : skin_block_frame rgb565_data width height block_x block_y)
    (gy gx : Nat) (hy : gy * 8 + 8 ≤ height) (hx : gx * 8 + 8 ≤ width) :
    skin_pixels_in_cell rgb565_data (width : Int) gy gx
      = ((List.range' (gy * 8) 8).map (fun y =>
          (List.range' (gx * 8) 8).countP (fun x =>
            decide (block_x ≤ x ∧ x < block_x + 32 ∧ block_y ≤ y ∧ y < block_y + 32)))).sum := by
  unfold skin_pixels_in_cell
  congr 1
  apply List.map_congr_left
  intro y hy1
  apply List.countP_congr
  intro x hx1
  rw [List.mem_range'_1] at hy1 hx1
  rw [hframe y x (by omega) (by omega)]

/-- The grid that the first part of `find_skin_regions` leaves for a frame
with one skin block: a cell is marked when more than 32 of its 64 pixels lie
in the block. -/
theorem mark_skin_cells_of_block_frame (rgb565_data : List Nat)
    (width height block_x block_y : Nat)
    (hframe : skin_block_frame rgb565_data width height block_x block_y)
    (y x : Nat) (hy : y < height / 8) (hx : x < width / 8) :
    (mark_skin_cells rgb565_data (width : Int) (height : Int)
        ((width / 8 : Nat) : Int) ((height / 8 : Nat) : Int)
        (List.replicate (width / 8 * (height / 8)) 0)).getD (y * (width / 8) + x) 0
      = if decide (32 < ((List.range' (y * 8) 8).map (fun py =>
          (List.range' (x * 8) 8).countP (fun px =>
            decide (block_x ≤ px ∧ px < block_x + 32 ∧
              block_y ≤ py ∧ py < block_y + 32)))).sum) = true
        then 1 else 0 := by
  rw [mark_skin_cells_getD rgb565_data (width : Int) (height : Int) (width / 8) (height / 8)
    y x hy hx]
  unfold cell_marked
  rw [cell_skin_count_inside rgb565_data (width : Int) (height : Int) y x
    (by push_cast; omega) (by push_cast; omega)]
  rw [skin_pixels_in_cell_of_block_frame rgb565_data width height block_x block_y hframe y x
    (by omega) (by omega)]
  dsimp only

/-- A frame with one skin block in which no window holds 10 cells that lie
more than half in the block yields no candidate, whatever the minimum face
size. -/
theorem find_skin_regions_block_unseen (rgb565_data : List Nat)
    (width height block_x block_y : Nat)
    (hframe : skin_block_frame rgb565_data width height block_x block_y)
    (hnone : ∀ gy gx : Nat, gy + 3 < height / 8 → gx + 3 < width / 8 →
      ((List.range 4).map (fun dy =>
        (List.range 4).countP (fun dx =>
          decide (32 < ((List.range' ((gy + dy) * 8) 8).map (fun py =>
            (List.range' ((gx + dx) * 8) 8).countP (fun px =>
              decide (block_x ≤ px ∧ px < block_x + 32 ∧
                block_y ≤ py ∧ py < block_y + 32)))).sum)))).sum < 10)
    (faces : Option (List face_box_t)) (max_faces min_face_size : Int) :
    (find_skin_regions (some rgb565_data) (width : Int) (height : Int) faces max_faces
      min_face_size true).face_count = 0 := by
  have hgw : Int.tdiv (width : Int) 8 = ((width / 8 : Nat) : Int) := by
    rw [Int.tdiv_eq_ediv (by omega)]
    · omega
    · omega
  have hgh : Int.tdiv (height : Int) 8 = ((height / 8 : Nat) : Int) := by
    rw [Int.tdiv_eq_ediv (by omega)]
    · omega
    · omega
  have hsize : (((width / 8 : Nat) : Int) * ((height / 8 : Nat) : Int)).toNat
      = width / 8 * (height / 8) := by
    rw [← Nat.cast_mul, Int.toNat_natCast]
  unfold find_skin_regions
  cases faces with
  | none => rfl
  | some faces0 =>
    simp only [Bool.not_true, Bool.false_eq_true, if_false]
    rw [hgw, hgh, hsize, scan_grid_no_candidate]
    intro gy gx hgy hgx
    rw [cluster_count_eq _ (width / 8) (height / 8) _
      (fun y x hy hx =>
        mark_skin_cells_of_block_frame rgb565_data width height block_x block_y hframe y x hy hx)
      gy gx (by omega) (by omega)]
    exact hnone gy gx (by omega) (by omega)

/-- C15 (amended): on a detector that is initialized and whose minimum face
size was set to a value from 17 to 32, for an RGB565 frame (dimensions below
2^31, grid allocated) that holds one 32 x 32 block of skin-tone pixels whose
corner lies on the 8-pixel cell grid, at the cell `(cx, cy)`, and no skin-tone
pixel elsewhere, `face_detector_detect` reports detected = true with
face_count 1 and a 32 x 32 box.  The box is that of the first window around
the block in scan order: 8 pixels above the block, or for a block in the top
row 8 pixels to its left, or the block itself when it lies in the top-left
corner; so the box contains the whole block exactly in the last case. -/
theorem skin_block_detected_once (st : face_state) (fb : camera_fb_t) (data : List Nat)
    (stack : Nat → face_box_t) (cx cy : Nat)
    (hinit : st.s_initialized = true)
    (hmin : 16 < st.s_min_face_size ∧ st.s_min_face_size ≤ 32)
    (hfmt : fb.format = pixformat_t.PIXFORMAT_RGB565) (hbuf : fb.buf = some data)
    (hsize : fb.width < 2 ^ 31 ∧ fb.height < 2 ^ 31)
    (hblock : 8 * cx + 32 ≤ fb.width ∧ 8 * cy + 32 ≤ fb.height)
    (hframe : skin_block_frame data fb.width fb.height (8 * cx) (8 * cy)) :
    face_detector_detect st (some fb) stack true
      = { detected := true, face_count := 1,
          x := ((first_window cy cx).2 : Int) * 8, y := ((first_window cy cx).1 : Int) * 8,
          width := 32, height := 32 } ∧
    (((face_detector_detect st (some fb) stack true).x ≤ ((8 * cx : Nat) : Int) ∧
      ((8 * cx + 32 : Nat) : Int) ≤ (face_detector_detect st (some fb) stack true).x
        + (face_detector_detect st (some fb) stack true).width ∧
      (face_detector_detect st (some fb) stack true).y ≤ ((8 * cy : Nat) : Int) ∧
      ((8 * cy + 32 : Nat) : Int) ≤ (face_detector_detect st (some fb) stack true).y
        + (face_detector_detect st (some fb) stack true).height)
      ↔ (cx = 0 ∧ cy = 0)) := by
  have h := find_skin_regions_block data fb.width fb.height cx cy hblock.1 hblock.2 hframe
    st.s_min_face_size ((MAX_FACES : Nat) : Int) hmin.1 hmin.2 (by decide)
    ((List.range MAX_FACES).map stack) (detect_stack_length stack)
  rw [← int_of_size_t_small fb.width hsize.1, ← int_of_size_t_small fb.height hsize.2,
    ← hbuf] at h
  have hres : face_detector_detect st (some fb) stack true
      = { detected := true, face_count := 1,
          x := ((first_window cy cx).2 : Int) * 8, y := ((first_window cy cx).1 : Int) * 8,
          width := 32, height := 32 } := by
    rw [detect_of_count_pos st fb stack true hinit hfmt _ 0 h.1 h.2]
    rfl
  refine ⟨hres, ?_⟩
  rw [hres]
  dsimp only
  unfold first_window
  split_ifs <;> dsimp only <;> omega

/-- Witness for C15 (amended): the 32 x 32 frame that the block fills, on a
detector with minimum face size 24. -/
theorem skin_block_detected_once_witness :
    (detector_min_size 24).s_initialized = true ∧
    skin_block_frame (block_frame_data 32 32 0 0) 32 32 (8 * 0) (8 * 0) ∧
    face_detector_detect (detector_min_size 24) (some frame_skin_only)
        (fun _ => face_box_zero) true
      = { detected := true, face_count := 1, x := 0, y := 0, width := 32, height := 32 } :=
  ⟨rfl, block_frame_is_skin_block 32 32 0 0,
   (skin_block_detected_once (detector_min_size 24) frame_skin_only
      (block_frame_data 32 32 0 0) (fun _ => face_box_zero) 0 0 rfl
      ⟨by decide, by decide⟩ rfl rfl ⟨by decide, by decide⟩ ⟨by decide, by decide⟩
      (block_frame_is_skin_block 32 32 0 0)).1⟩

/-- C15 as stated fails on 48 x 48 frames that hold one 32 x 32 block of the
colour R=180, G=120, B=90 on black.  With the block at `(8, 8)`, the detector
as `face_detector_init` leaves it reports nothing, because its minimum face
size 48 exceeds the fixed candidate width 32; with the minimum face size set
to 32 it reports the box at `(8, 0)`, which ends at row 31 while the block
ends at row 39.  With the block at `(4, 4)` and the minimum face size set to
32 it reports nothing, because only 9 grid cells lie more than half in the
block. -/
theorem skin_block_not_reported :
    skin_block_frame (block_frame_data 48 48 8 8) 48 48 8 8 ∧
    skin_block_frame (block_frame_data 48 48 4 4) 48 48 4 4 ∧
    (face_detector_init face_state_boot).1.s_initialized = true ∧
    (detector_min_size 32).s_initialized = true ∧
    face_detector_detect (face_detector_init face_state_boot).1 (some frame_skin_block)
        (fun _ => face_box_zero) true
      = { detected := false, face_count := 0, x := 0, y := 0, width := 0, height := 0 } ∧
    face_detector_detect (detector_min_size 32) (some frame_skin_block)
        (fun _ => face_box_zero) true
      = { detected := true, face_count := 1, x := 8, y := 0, width := 32, height := 32 } ∧
    face_detector_detect (detector_min_size 32) (some frame_skin_block_offset)
        (fun _ => face_box_zero) true
      = { detected := false, face_count := 0, x := 0, y := 0, width := 0, height := 0 } := by
  refine ⟨block_frame_is_skin_block 48 48 8 8, block_frame_is_skin_block 48 48 4 4, rfl, rfl,
    ?_, ?_, ?_⟩
  · apply detect_of_count_zero
    exact find_skin_regions_min_size_above_32 _ _ _ _ _ _ _ (by decide)
  · have h := find_skin_regions_block (block_frame_data 48 48 8 8) 48 48 1 1
      (by decide) (by decide) (block_frame_is_skin_block 48 48 8 8)
      32 ((MAX_FACES : Nat) : Int) (by decide) (by decide) (by decide)
      ((List.range MAX_FACES).map (fun _ => face_box_zero))
      (detect_stack_length (fun _ => face_box_zero))
    rw [detect_of_count_pos (detector_min_size 32) frame_skin_block (fun _ => face_box_zero)
      true rfl rfl _ 0 h.1 h.2]
    rfl
  · apply detect_of_count_zero
    apply find_skin_regions_block_unseen (block_frame_data 48 48 4 4) 48 48 4 4
      (block_frame_is_skin_block 48 48 4 4)
    intro gy gx hgy hgx
    have h1 : gy < 3 := by omega
    have h2 : gx < 3 := by omega
    interval_cases gy <;> interval_cases gx <;> decide

/-! ## Compressed frames, and the queue at capacity -/

/-- C26: in an iteration of `detection_task` on a JPEG frame both detection
flags stay false, whatever the configuration, the detector states and the face
detector: the iteration is the handling block run with both flags false, it
makes no `xQueueSend` call and leaves the queue and the motion detector as
they were, and its calls are one `camera_manager_return_fb` on the captured
frame followed by the delay. -/
theorem jpeg_frame_creates_no_event (cfg : sdkconfig) (st : detection_state)
    (fb : camera_fb_t) (face_result_detected : Bool) (jpg : frame2jpg_result)
    (hfmt : fb.format = pixformat_t.PIXFORMAT_JPEG) :
    detection_task_iteration cfg st (some fb) face_result_detected jpg
      = (st, [effect.camera_manager_return_fb fb,
              effect.vTaskDelay cfg.CONFIG_DETECTION_INTERVAL_MS]) ∧
    (detection_task_iteration cfg st (some fb) face_result_detected jpg).2
      = (detection_task_handle fb false false jpg st.queue).2
          ++ [effect.vTaskDelay cfg.CONFIG_DETECTION_INTERVAL_MS] ∧
    (detection_task_iteration cfg st (some fb) face_result_detected jpg).2.filter
        effect.is_queue_send = [] ∧
    (detection_task_iteration cfg st (some fb) face_result_detected jpg).1.queue = st.queue ∧
    (detection_task_iteration cfg st (some fb) face_result_detected jpg).2.filter
        effect.is_return_fb = [effect.camera_manager_return_fb fb] := by
  have hiter : detection_task_iteration cfg st (some fb) face_result_detected jpg
      = (st, [effect.camera_manager_return_fb fb,
              effect.vTaskDelay cfg.CONFIG_DETECTION_INTERVAL_MS]) := by
    unfold detection_task_iteration detection_task_handle
    simp [hfmt]
  refine ⟨hiter, ?_, ?_, ?_, ?_⟩
  · rw [hiter]
    unfold detection_task_handle
    simp
  · rw [hiter]
    simp [effect.is_queue_send]
  · rw [hiter]
  · rw [hiter]
    simp [effect.is_return_fb]

/-- Witness for C26: the JPEG example frame offered to the 2 x 2 detector with
an empty queue, with a face verdict and a working encoder at hand. -/
theorem jpeg_frame_creates_no_event_witness :
    frame_jpeg.format = pixformat_t.PIXFORMAT_JPEG ∧
    detection_task_iteration config_default (detection_state_2x2 (xQueueCreate 5))
        (some frame_jpeg) true jpg_ok
      = (detection_state_2x2 (xQueueCreate 5),
          [effect.camera_manager_return_fb frame_jpeg, effect.vTaskDelay 500]) :=
  ⟨rfl,
   (jpeg_frame_creates_no_event config_default (detection_state_2x2 (xQueueCreate 5))
     frame_jpeg true jpg_ok rfl).1⟩

theorem handle_full_queue (fb : camera_fb_t) (motion_detected face_detected : Bool)
    (jpg : frame2jpg_result) (q : queue_t) (hfull : ¬ q.items.length < q.uxQueueLength) :
    (detection_task_handle fb motion_detected face_detected jpg q).1 = q := by
  have hs : ∀ e, xQueueSend q e = (q, false) := by
    intro e
    unfold xQueueSend
    rw [if_neg hfull]
  unfold detection_task_handle
  simp only [hs]
  split_ifs <;> rfl

/-- C22: the queue that `app_main` creates has capacity 5 and `xQueueSend` with
timeout 0 never waits.  Starting from the empty queue and with no receive in
between, the first 5 sends are accepted, the 6th returns failure at once and
leaves the queue as it was, and 5 receives afterwards deliver the first 5
events in the order in which they were sent, leaving the queue empty; a 6th
receive would find nothing.  The same holds when the 6th attempt is the one of
the handling block of `detection_task`. -/
theorem queue_is_fifo_of_capacity_five (e1 e2 e3 e4 e5 e6 : detection_event_t) :
    s_detection_queue_created.uxQueueLength = 5 ∧
    s_detection_queue_created.items = [] ∧
    (send_each s_detection_queue_created [e1, e2, e3, e4, e5, e6]).2
      = [true, true, true, true, true, false] ∧
    xQueueSend (send_each s_detection_queue_created [e1, e2, e3, e4, e5]).1 e6
      = ((send_each s_detection_queue_created [e1, e2, e3, e4, e5]).1, false) ∧
    (send_each s_detection_queue_created [e1, e2, e3, e4, e5, e6]).1
      = (send_each s_detection_queue_created [e1, e2, e3, e4, e5]).1 ∧
    (send_each s_detection_queue_created [e1, e2, e3, e4, e5, e6]).1.items
      = [e1, e2, e3, e4, e5] ∧
    receive_each 5 (send_each s_detection_queue_created [e1, e2, e3, e4, e5, e6]).1
      = ([e1, e2, e3, e4, e5], s_detection_queue_created) ∧
    xQueueReceive
        (receive_each 5 (send_each s_detection_queue_created [e1, e2, e3, e4, e5, e6]).1).2
      = none ∧
    (∀ (fb : camera_fb_t) (motion_detected face_detected : Bool) (jpg : frame2jpg_result),
      (detection_task_handle fb motion_detected face_detected jpg
        (send_each s_detection_queue_created [e1, e2, e3, e4, e5]).1).1
      = (send_each s_detection_queue_created [e1, e2, e3, e4, e5]).1) := by
  have hq : (send_each s_detection_queue_created [e1, e2, e3, e4, e5]).1
      = { uxQueueLength := 5, items := [e1, e2, e3, e4, e5] } := by
    simp [send_each, xQueueSend, s_detection_queue_created, xQueueCreate]
  have hq6 : send_each s_detection_queue_created [e1, e2, e3, e4, e5, e6]
      = ({ uxQueueLength := 5, items := [e1, e2, e3, e4, e5] },
          [true, true, true, true, true, false]) := by
    simp [send_each, xQueueSend, s_detection_queue_created, xQueueCreate]
  rw [hq, hq6]
  refine ⟨rfl, rfl, rfl, rfl, rfl, rfl, ?_, ?_, ?_⟩
  · simp [receive_each, xQueueReceive, s_detection_queue_created, xQueueCreate]
  · simp [receive_each, xQueueReceive]
  intro fb motion_detected face_detected jpg
  exact handle_full_queue fb motion_detected face_detected jpg _ (by simp)

/-! ## A sample equal to the baseline -/

theorem count_changed_same (prev : List Nat) (threshold : Int) (size : Nat)
    (hthr : 0 ≤ threshold) : count_changed prev prev threshold size = 0 := by
  unfold count_changed
  have h : ∀ (l : List Nat) (c : Nat),
      l.foldl
        (fun changed i =>
          let diff : Int := Int.natAbs ((prev.getD i 0 : Int) - (prev.getD i 0 : Int))
          if threshold < diff then (changed + 1) % 2 ^ 32 else changed) c = c := by
    intro l
    induction l with
    | nil => intro c; rfl
    | cons a l ih =>
      intro c
      rw [List.foldl_cons]
      simp only [sub_self, Int.natAbs_zero, Nat.cast_zero]
      rw [if_neg (by omega)]
      simpa using ih c
  exact h _ 0

theorem set_getD_self (l : List Nat) (k : Nat) : l.set k (l.getD k 0) = l := by
  induction l generalizing k with
  | nil => rfl
  | cons a l ih =>
    cases k with
    | zero => rfl
    | succ j =>
      rw [List.set_cons_succ, List.getD_cons_succ, ih]

theorem blend_baseline_same (prev : List Nat) (size : Nat) (hbytes : ∀ x ∈ prev, x < 256) :
    blend_baseline prev prev size = prev := by
  induction size with
  | zero => rfl
  | succ k ih =>
    have hstep : blend_baseline prev prev (k + 1)
        = (blend_baseline prev prev k).set k
            (((blend_baseline prev prev k).getD k 0 * 9 + prev.getD k 0) / 10 % 256) := by
      unfold blend_baseline
      rw [List.range_succ, List.foldl_append]
      rfl
    rw [hstep, ih]
    have hv : (prev.getD k 0 * 9 + prev.getD k 0) / 10 % 256 = prev.getD k 0 := by
      by_cases hk : k < prev.length
      · have := hbytes prev[k] (List.getElem_mem hk)
        rw [List.getD_eq_getElem _ _ hk]
        omega
      · rw [List.getD_eq_default _ _ (by omega)]
    rw [hv, set_getD_self]

/-- A comparison of the baseline with itself, for a pixel threshold that is
not negative: no pixel counts as changed and the detector keeps its state. -/
theorem process_same_frame (st : motion_state) (prev : List Nat) (size : Nat)
    (hprev : st.s_prev_frame = some prev) (hbase : st.s_has_baseline = true)
    (hsize : size = st.s_frame_size) (hbytes : ∀ x ∈ prev, x < 256)
    (hthr : 0 ≤ st.s_threshold) :
    motion_detector_process st (some prev) size
      = (st,
         { detected :=
             float32_ge
               (float32_mul (float32_div (float32_of_nat 0) (float32_of_nat size))
                 float32_hundred)
               st.s_change_threshold,
           change_percentage :=
             float32_mul (float32_div (float32_of_nat 0) (float32_of_nat size)) float32_hundred,
           changed_pixels := 0 }) := by
  rw [process_compare_eq st prev prev size hprev hbase hsize,
    count_changed_same prev st.s_threshold size hthr, blend_baseline_same prev size hbytes,
    ← hprev]

/-- C28: in a comparing `motion_detector_process` call on byte buffers, each
new baseline value is `(old * 9 + new) / 10`, lies between the old value and
the sample, so is below 256 and the 8-bit store loses nothing, and equals the
old value whenever the sample exceeds it by 0 to 9.  A sample equal to the
baseline therefore leaves the whole detector state unchanged, and with a pixel
threshold that is not negative it reports changed_pixels = 0. -/
theorem blend_stays_between_old_and_new (st : motion_state) (prev data : List Nat)
    (size : Nat) (hprev : st.s_prev_frame = some prev) (hbase : st.s_has_baseline = true)
    (hsize : size = st.s_frame_size)
    (hbytes_data : ∀ x ∈ data, x < 256) (hbytes_prev : ∀ x ∈ prev, x < 256) :
    (motion_detector_process st (some data) size).1.s_prev_frame
      = some (blend_baseline data prev size) ∧
    (∀ i, i < size → i < prev.length →
      (blend_baseline data prev size).getD i 0 = (prev.getD i 0 * 9 + data.getD i 0) / 10 ∧
      min (prev.getD i 0) (data.getD i 0) ≤ (blend_baseline data prev size).getD i 0 ∧
      (blend_baseline data prev size).getD i 0 ≤ max (prev.getD i 0) (data.getD i 0) ∧
      (blend_baseline data prev size).getD i 0 < 256 ∧
      (prev.getD i 0 ≤ data.getD i 0 → data.getD i 0 - prev.getD i 0 ≤ 9 →
        (blend_baseline data prev size).getD i 0 = prev.getD i 0)) ∧
    (data = prev →
      (motion_detector_process st (some data) size).1 = st ∧
      (0 ≤ st.s_threshold →
        (motion_detector_process st (some data) size).2.changed_pixels = 0)) := by
  have hget : ∀ (l : List Nat), (∀ x ∈ l, x < 256) → ∀ i, l.getD i 0 < 256 := by
    intro l hl i
    by_cases hi : i < l.length
    · rw [List.getD_eq_getElem _ _ hi]
      exact hl _ (List.getElem_mem hi)
    · rw [List.getD_eq_default _ _ (by omega)]
      omega
  refine ⟨?_, ?_, ?_⟩
  · rw [process_compare_eq st prev data size hprev hbase hsize]
  · intro i hi hip
    have ho := hget prev hbytes_prev i
    have hn := hget data hbytes_data i
    rw [blend_baseline_getD, if_pos ⟨hi, hip⟩]
    generalize prev.getD i 0 = o at ho ⊢
    generalize data.getD i 0 = n at hn ⊢
    have hv : (o * 9 + n) / 10 < 256 := by omega
    rw [Nat.mod_eq_of_lt hv]
    refine ⟨by omega, by omega, by omega, by omega, ?_⟩
    intro h1 h2
    omega
  · intro heq
    subst heq
    constructor
    · rw [process_compare_eq st data data size hprev hbase hsize,
        blend_baseline_same data size hbytes_data, ← hprev]
    · intro hthr
      rw [process_same_frame st data size hprev hbase hsize hbytes_data hthr]

/-- Witness for C28: the 2 x 2 detector with baseline 10, 20, 30, 40 and pixel
threshold 15, offered the sample 19, 20, 130, 0 and then its own baseline. -/
theorem blend_stays_between_old_and_new_witness :
    detector_2x2.s_prev_frame = some [10, 20, 30, 40] ∧
    (motion_detector_process detector_2x2 (some [19, 20, 130, 0]) 4).1.s_prev_frame
      = some [10, 20, 40, 36] ∧
    (motion_detector_process detector_2x2 (some [10, 20, 30, 40]) 4).1 = detector_2x2 ∧
    (motion_detector_process detector_2x2 (some [10, 20, 30, 40]) 4).2.changed_pixels = 0 :=
  ⟨by decide,
   (blend_stays_between_old_and_new detector_2x2 [10, 20, 30, 40] [19, 20, 130, 0] 4
     (by decide) (by decide) (by decide) (by decide) (by decide)).1.trans (by decide),
   ((blend_stays_between_old_and_new detector_2x2 [10, 20, 30, 40] [10, 20, 30, 40] 4
     (by decide) (by decide) (by decide) (by decide) (by decide)).2.2 rfl).1,
   ((blend_stays_between_old_and_new detector_2x2 [10, 20, 30, 40] [10, 20, 30, 40] 4
     (by decide) (by decide) (by decide) (by decide) (by decide)).2.2 rfl).2 (by decide)⟩

/-! ## The skin-tone predicate and the luminance projection -/

theorem expand5_bits : ∀ c, c < 32 → (c <<< 3) ||| (c >>> 2) = expand5 c := by
  decide

theorem expand6_bits : ∀ c, c < 64 → (c <<< 2) ||| (c >>> 4) = expand6 c := by
  decide

theorem expand5_lt (c : Nat) (h : c < 32) : expand5 c < 256 := by
  unfold expand5
  omega

theorem expand6_lt (c : Nat) (h : c < 64) : expand6 c < 256 := by
  unfold expand6
  omega

theorem red_bits (pixel : Nat) : (pixel >>> 11) &&& 0x1F = pixel / 2048 % 32 := by
  rw [Nat.shiftRight_eq_div_pow]
  exact Nat.and_pow_two_sub_one_eq_mod _ 5

theorem green_bits (pixel : Nat) : (pixel >>> 5) &&& 0x3F = pixel / 32 % 64 := by
  rw [Nat.shiftRight_eq_div_pow]
  exact Nat.and_pow_two_sub_one_eq_mod _ 6

theorem blue_bits (pixel : Nat) : pixel &&& 0x1F = pixel % 32 :=
  Nat.and_pow_two_sub_one_eq_mod _ 5

/-- The 8-bit red value that the code computes from a pixel. -/
theorem red_channel (pixel : Nat) :
    (((((pixel >>> 11) &&& 0x1F) % 256) <<< 3) ||| ((((pixel >>> 11) &&& 0x1F) % 256) >>> 2)) % 256
      = rgb565_red pixel := by
  have h : pixel / 2048 % 32 < 32 := Nat.mod_lt _ (by decide)
  rw [red_bits, Nat.mod_eq_of_lt (by omega : pixel / 2048 % 32 < 256), expand5_bits _ h,
    Nat.mod_eq_of_lt (expand5_lt _ h)]
  rfl

/-- The 8-bit green value that the code computes from a pixel. -/
theorem green_channel (pixel : Nat) :
    (((((pixel >>> 5) &&& 0x3F) % 256) <<< 2) ||| ((((pixel >>> 5) &&& 0x3F) % 256) >>> 4)) % 256
      = rgb565_green pixel := by
  have h : pixel / 32 % 64 < 64 := Nat.mod_lt _ (by decide)
  rw [green_bits, Nat.mod_eq_of_lt (by omega : pixel / 32 % 64 < 256), expand6_bits _ h,
    Nat.mod_eq_of_lt (expand6_lt _ h)]
  rfl

/-- The 8-bit blue value that the code computes from a pixel. -/
theorem blue_channel (pixel : Nat) :
    ((((pixel &&& 0x1F) % 256) <<< 3) ||| (((pixel &&& 0x1F) % 256) >>> 2)) % 256
      = rgb565_blue pixel := by
  have h : pixel % 32 < 32 := Nat.mod_lt _ (by decide)
  rw [blue_bits, Nat.mod_eq_of_lt (by omega : pixel % 32 < 256), expand5_bits _ h,
    Nat.mod_eq_of_lt (expand5_lt _ h)]
  rfl

/-- The skin-tone predicate of the code is the skin-tone rule on the three
widened channels. -/
theorem is_skin_tone_eq (pixel : Nat) :
    is_skin_tone_rgb565 pixel
      = decide (skin_tone_rule (rgb565_red pixel) (rgb565_green pixel) (rgb565_blue pixel)) := by
  unfold is_skin_tone_rgb565
  simp only []
  rw [red_channel, green_channel, blue_channel]
  unfold skin_tone_rule
  rw [Bool.eq_iff_iff]
  simp only [Bool.and_eq_true, decide_eq_true_eq]
  constructor
  · rintro ⟨⟨⟨⟨⟨⟨h1, h2⟩, h3⟩, h4⟩, h5⟩, h6⟩, h7⟩
    exact ⟨h1, h2, h3, h4, h5, by omega, h7⟩
  · rintro ⟨h1, h2, h3, h4, h5, h6, h7⟩
    exact ⟨⟨⟨⟨⟨⟨h1, h2⟩, h3⟩, h4⟩, h5⟩, by omega⟩, h7⟩

/-- C24: `is_skin_tone_rgb565` returns true for a pixel exactly when the
channels r, g, b, widened from 5, 6 and 5 bits to 8 bits by bit replication,
satisfy r > 60, g > 40, b > 20, r > g, r > b and 10 < r - g < 100.  The RGB565
encoding of R=180, G=120, B=90 is classified as skin; black, white and every
pixel with r = g = b are classified as non-skin. -/
theorem skin_tone_predicate_is_channel_rule :
    (∀ pixel : Nat, is_skin_tone_rgb565 pixel = true ↔
      (60 < rgb565_red pixel ∧ 40 < rgb565_green pixel ∧ 20 < rgb565_blue pixel ∧
        rgb565_green pixel < rgb565_red pixel ∧ rgb565_blue pixel < rgb565_red pixel ∧
        10 < (rgb565_red pixel : Int) - (rgb565_green pixel : Int) ∧
        (rgb565_red pixel : Int) - (rgb565_green pixel : Int) < 100)) ∧
    (∀ pixel : Nat,
      rgb565_red pixel = ((((pixel >>> 11) &&& 0x1F) <<< 3) ||| (((pixel >>> 11) &&& 0x1F) >>> 2)) ∧
      rgb565_green pixel = ((((pixel >>> 5) &&& 0x3F) <<< 2) ||| (((pixel >>> 5) &&& 0x3F) >>> 4)) ∧
      rgb565_blue pixel = (((pixel &&& 0x1F) <<< 3) ||| ((pixel &&& 0x1F) >>> 2))) ∧
    is_skin_tone_rgb565 (rgb565_encode 180 120 90) = true ∧
    is_skin_tone_rgb565 0 = false ∧
    is_skin_tone_rgb565 0xFFFF = false ∧
    (∀ pixel : Nat, rgb565_red pixel = rgb565_green pixel →
      rgb565_green pixel = rgb565_blue pixel → is_skin_tone_rgb565 pixel = false) := by
  refine ⟨?_, ?_, by decide, by decide, by decide, ?_⟩
  · intro pixel
    rw [is_skin_tone_eq, decide_eq_true_eq]
    rfl
  · intro pixel
    have hr : pixel / 2048 % 32 < 32 := Nat.mod_lt _ (by decide)
    have hg : pixel / 32 % 64 < 64 := Nat.mod_lt _ (by decide)
    have hb : pixel % 32 < 32 := Nat.mod_lt _ (by decide)
    rw [red_bits, green_bits, blue_bits, expand5_bits _ hr, expand6_bits _ hg,
      expand5_bits _ hb]
    exact ⟨rfl, rfl, rfl⟩
  · intro pixel hrg _
    rw [is_skin_tone_eq, decide_eq_false_iff_not]
    unfold skin_tone_rule
    omega

/-- Witness for C24: the pixel with the 5-, 6- and 5-bit channels 1, 2, 1 has
r = g = b = 8. -/
theorem skin_tone_predicate_is_channel_rule_witness :
    rgb565_red 0x0841 = 8 ∧ rgb565_green 0x0841 = 8 ∧ rgb565_blue 0x0841 = 8 ∧
    is_skin_tone_rgb565 0x0841 = false :=
  ⟨by decide, by decide, by decide,
   skin_tone_predicate_is_channel_rule.2.2.2.2.2 0x0841 (by decide) (by decide)⟩

theorem foldl_set_length (f : Nat → Nat) (dst : List Nat) (n : Nat) :
    ((List.range n).foldl (fun gray i => gray.set i (f i)) dst).length = dst.length := by
  induction n with
  | zero => rfl
  | succ k ih =>
    rw [List.range_succ, List.foldl_append, List.foldl_cons, List.foldl_nil, List.length_set]
    exact ih

/-- A loop that stores `f i` at index `i` for `i` below `n`. -/
theorem foldl_set_getD (f : Nat → Nat) (dst : List Nat) (n j : Nat) :
    ((List.range n).foldl (fun gray i => gray.set i (f i)) dst).getD j 0
      = if j < n ∧ j < dst.length then f j else dst.getD j 0 := by
  induction n with
  | zero => simp
  | succ k ih =>
    rw [List.range_succ, List.foldl_append, List.foldl_cons, List.foldl_nil]
    have hlen := foldl_set_length f dst k
    by_cases hjk : j = k
    · subst hjk
      by_cases hj : j < dst.length
      · rw [List.getD_eq_getElem?_getD, List.getElem?_set_self (by omega)]
        simp [hj]
      · rw [List.getD_eq_default _ _ (by rw [List.length_set]; omega),
          List.getD_eq_default _ _ (by omega)]
        simp [hj]
    · rw [List.getD_eq_getElem?_getD, List.getElem?_set_ne (Ne.symm hjk),
        ← List.getD_eq_getElem?_getD, ih]
      by_cases h1 : j < k
      · have h2 : j < k + 1 := by omega
        simp only [h1, h2, true_and]
      · have h2 : ¬ j < k + 1 := by omega
        simp only [h1, h2, false_and]

/-- The 16-bit pixel that `rgb565_to_grayscale` assembles from two bytes. -/
theorem le_pixel_bits (src : List Nat) (i : Nat) (hbytes : ∀ x ∈ src, x < 256) :
    ((src.getD (i * 2 + 1) 0 <<< 8) ||| src.getD (i * 2) 0) % 2 ^ 16 = rgb565_le_pixel src i := by
  have hget : ∀ k, src.getD k 0 < 256 := by
    intro k
    by_cases hk : k < src.length
    · rw [List.getD_eq_getElem _ _ hk]
      exact hbytes _ (List.getElem_mem hk)
    · rw [List.getD_eq_default _ _ (by omega)]
      omega
  have hlo := hget (i * 2)
  have hhi := hget (i * 2 + 1)
  unfold rgb565_le_pixel
  rw [show 2 * i = i * 2 by omega]
  generalize src.getD (i * 2) 0 = lo at hlo ⊢
  generalize src.getD (i * 2 + 1) 0 = hi at hhi ⊢
  rw [Nat.shiftLeft_eq, Nat.mul_comm hi (2 ^ 8),
    ← Nat.mul_add_lt_is_or (by omega : lo < 2 ^ 8) hi]
  omega

/-- The value that the loop body of `rgb565_to_grayscale` stores for a pixel. -/
theorem luminance_bits (pixel : Nat) :
    ((((((((pixel >>> 11) &&& 0x1F) % 256) <<< 3) ||| ((((pixel >>> 11) &&& 0x1F) % 256) >>> 2))
          % 256) * 77
        + ((((((pixel >>> 5) &&& 0x3F) % 256) <<< 2) ||| ((((pixel >>> 5) &&& 0x3F) % 256) >>> 4))
          % 256) * 150
        + (((((pixel &&& 0x1F) % 256) <<< 3) ||| (((pixel &&& 0x1F) % 256) >>> 2)) % 256) * 29)
      >>> 8) % 256 = luminance pixel ∧ luminance pixel ≤ 255 := by
  rw [red_channel, green_channel, blue_channel, Nat.shiftRight_eq_div_pow,
    show (2 : Nat) ^ 8 = 256 from rfl]
  have hr : rgb565_red pixel < 256 := expand5_lt _ (Nat.mod_lt _ (by decide))
  have hg : rgb565_green pixel < 256 := expand6_lt _ (Nat.mod_lt _ (by decide))
  have hb : rgb565_blue pixel < 256 := expand5_lt _ (Nat.mod_lt _ (by decide))
  unfold luminance
  generalize rgb565_red pixel = r at hr ⊢
  generalize rgb565_green pixel = g at hg ⊢
  generalize rgb565_blue pixel = b at hb ⊢
  have hv : (r * 77 + g * 150 + b * 29) / 256 < 256 := by omega
  rw [Nat.mod_eq_of_lt hv]
  constructor <;> omega

/-- C25: with an output buffer of at least `gray_size` bytes and
`gray_size >= rgb565_size / 2`, `rgb565_to_grayscale` returns `ESP_OK` and
stores, for each `i < rgb565_size / 2`, the value `(77*r + 150*g + 29*b) >> 8`
of the little-endian RGB565 pixel in the bytes `2i` and `2i + 1`, with r, g, b
widened by bit replication; the value is at most 255, so the 8-bit store loses
nothing; the bytes from `rgb565_size / 2` on are left alone.  A black pixel
gives 0 and the white pixel 0xFFFF gives 255.  With
`gray_size < rgb565_size / 2` the function returns `ESP_ERR_INVALID_SIZE` and
the output buffer is as before. -/
theorem grayscale_is_luminance (src dst : List Nat) (rgb565_size gray_size : Nat)
    (hbytes : ∀ x ∈ src, x < 256) :
    (rgb565_size / 2 ≤ gray_size → gray_size ≤ dst.length →
      ∃ out : List Nat,
        rgb565_to_grayscale (some src) rgb565_size (some dst) gray_size
          = (esp_err_t.ESP_OK, some out) ∧
        out.length = dst.length ∧
        (∀ i, i < rgb565_size / 2 →
          out.getD i 0 = luminance (rgb565_le_pixel src i) ∧ out.getD i 0 ≤ 255) ∧
        (∀ i, rgb565_size / 2 ≤ i → out.getD i 0 = dst.getD i 0)) ∧
    (gray_size < rgb565_size / 2 →
      rgb565_to_grayscale (some src) rgb565_size (some dst) gray_size
        = (esp_err_t.ESP_ERR_INVALID_SIZE, some dst)) ∧
    (∀ pixel, luminance pixel
      = (77 * rgb565_red pixel + 150 * rgb565_green pixel + 29 * rgb565_blue pixel) >>> 8) ∧
    luminance 0 = 0 ∧ luminance 0xFFFF = 255 := by
  refine ⟨?_, ?_, ?_, by decide, by decide⟩
  · intro hsize hlen
    unfold rgb565_to_grayscale
    simp only [if_neg (by omega : ¬ gray_size < rgb565_size / 2)]
    refine ⟨_, rfl, ?_, ?_, ?_⟩
    · exact foldl_set_length _ dst _
    · intro i hi
      rw [foldl_set_getD _ dst _ i, if_pos ⟨hi, by omega⟩, le_pixel_bits src i hbytes]
      rw [(luminance_bits (rgb565_le_pixel src i)).1]
      exact ⟨rfl, (luminance_bits _).2⟩
    · intro i hi
      rw [foldl_set_getD _ dst _ i, if_neg (by omega)]
  · intro hsize
    unfold rgb565_to_grayscale
    simp only [if_pos hsize]
  · intro pixel
    rw [Nat.shiftRight_eq_div_pow]
    rfl

/-- Witness for C25: a black and a white pixel converted into a two-byte
buffer, which then holds 0 and 255, and the same input offered a buffer size
of 1. -/
theorem grayscale_is_luminance_witness :
    (∃ out : List Nat,
      rgb565_to_grayscale (some [0x00, 0x00, 0xFF, 0xFF]) 4 (some [7, 7]) 2
        = (esp_err_t.ESP_OK, some out) ∧
      out.length = [7, 7].length ∧
      (∀ i, i < 4 / 2 →
        out.getD i 0 = luminance (rgb565_le_pixel [0x00, 0x00, 0xFF, 0xFF] i) ∧
        out.getD i 0 ≤ 255) ∧
      (∀ i, 4 / 2 ≤ i → out.getD i 0 = [7, 7].getD i 0)) ∧
    rgb565_to_grayscale (some [0x00, 0x00, 0xFF, 0xFF]) 4 (some [7, 7]) 2
      = (esp_err_t.ESP_OK, some [0, 255]) ∧
    rgb565_to_grayscale (some [0x00, 0x00, 0xFF, 0xFF]) 4 (some [7, 7]) 1
      = (esp_err_t.ESP_ERR_INVALID_SIZE, some [7, 7]) :=
  ⟨(grayscale_is_luminance [0x00, 0x00, 0xFF, 0xFF] [7, 7] 4 2 (by decide)).1
      (by decide) (by decide),
   by decide,
   (grayscale_is_luminance [0x00, 0x00, 0xFF, 0xFF] [7, 7] 4 1 (by decide)).2.1 (by decide)⟩

/-! ## The first qualifying window -/

/-- The scan accepts the first window, in scan order, that holds at least 10
marked cells, and keeps it at index 0, when the minimum face size is at most
32. -/
theorem scan_grid_first_accepted (grid : List Nat) (gw gh : Nat) (m max_faces : Int)
    (fy fx : Nat) (hfy : fy + 3 < gh) (hfx : fx + 3 < gw) (hm : m ≤ 32) (hmax : 0 < max_faces)
    (hF : 10 ≤ cluster_count grid (gw : Int) fy fx)
    (hfirst : ∀ gy gx : Nat, gy + 3 < gh → gx + 3 < gw →
      10 ≤ cluster_count grid (gw : Int) gy gx → fy < gy ∨ (gy = fy ∧ fx ≤ gx))
    (faces0 : List face_box_t) (hlen : (faces0.length : Int) = max_faces) :
    1 ≤ (scan_grid grid (gw : Int) (gh : Int) m max_faces
        { faces := faces0, face_count := 0, writes := [] }).face_count ∧
    (scan_grid grid (gw : Int) (gh : Int) m max_faces
        { faces := faces0, face_count := 0, writes := [] }).faces.getD 0 face_box_zero
      = window_box fy fx := by
  -- the window step
  have hwin : ∀ (gy gx : Nat) (s : scan_state), gy + 3 < gh → gx + 3 < gw →
      (s.face_count : Int) < max_faces →
      ((s.faces.length : Int) = max_faces ∧
        ((s.face_count = 0 ∧ (gy < fy ∨ (gy = fy ∧ gx ≤ fx))) ∨
         (1 ≤ s.face_count ∧ s.faces.getD 0 face_box_zero = window_box fy fx))) →
      (((scan_window grid (gw : Int) m gy gx s).2.faces.length : Int) = max_faces ∧
        (((scan_window grid (gw : Int) m gy gx s).2.face_count = 0 ∧
            (gy < fy ∨ (gy = fy ∧ (scan_window grid (gw : Int) m gy gx s).1 + 1 ≤ fx))) ∨
         (1 ≤ (scan_window grid (gw : Int) m gy gx s).2.face_count ∧
            (scan_window grid (gw : Int) m gy gx s).2.faces.getD 0 face_box_zero
              = window_box fy fx))) := by
    intro gy gx s hgy hgx hroom ⟨hl, hs⟩
    have hl0 : s.face_count < s.faces.length := by omega
    rcases scan_window_cases grid (gw : Int) m gy gx s with
      ⟨hq, heq⟩ | ⟨hq, heq, hwhy⟩ | ⟨hq, heq, hno, _⟩
    · -- the window does not qualify
      rw [heq]
      refine ⟨hl, ?_⟩
      rcases hs with ⟨h0, hpos⟩ | h1
      · left
        refine ⟨h0, ?_⟩
        dsimp only
        rcases hpos with h | ⟨h, h2⟩
        · exact Or.inl h
        · right
          refine ⟨h, ?_⟩
          by_contra hcon
          have hgx2 : gx = fx := by omega
          rw [h, hgx2] at hq
          omega
      · exact Or.inr h1
    · -- stored and dropped
      rw [heq]
      dsimp only
      refine ⟨by rw [List.length_set]; exact hl, ?_⟩
      rcases hs with ⟨h0, _⟩ | ⟨h1, hbox⟩
      · exfalso
        rcases hwhy with ⟨i, hi, _⟩ | hw
        · omega
        · rw [getD_set_self _ _ _ hl0] at hw
          unfold window_box at hw
          dsimp only at hw
          omega
      · right
        refine ⟨h1, ?_⟩
        rw [getD_set_other _ _ _ _ (by omega)]
        exact hbox
    · -- stored and accepted
      rw [heq]
      dsimp only
      refine ⟨by rw [List.length_set]; exact hl, ?_⟩
      rcases hs with ⟨h0, hpos⟩ | ⟨h1, hbox⟩
      · right
        have hpos2 := hfirst gy gx hgy hgx hq
        have hgyf : gy = fy := by omega
        have hgxf : gx = fx := by omega
        refine ⟨by omega, ?_⟩
        rw [h0] at hl0
        rw [h0, getD_set_self _ _ _ hl0, hgyf, hgxf]
      · right
        refine ⟨by omega, ?_⟩
        rw [getD_set_other _ _ _ _ (by omega)]
        exact hbox
  -- the row loop
  have hrow : ∀ (gy : Nat) (s : scan_state), gy + 3 < gh →
      ((s.faces.length : Int) = max_faces ∧
        ((s.face_count = 0 ∧ gy ≤ fy) ∨
         (1 ≤ s.face_count ∧ s.faces.getD 0 face_box_zero = window_box fy fx))) →
      (((scan_row grid (gw : Int) m max_faces gy s).faces.length : Int) = max_faces ∧
        (((scan_row grid (gw : Int) m max_faces gy s).face_count = 0 ∧ gy + 1 ≤ fy) ∨
         (1 ≤ (scan_row grid (gw : Int) m max_faces gy s).face_count ∧
            (scan_row grid (gw : Int) m max_faces gy s).faces.getD 0 face_box_zero
              = window_box fy fx))) := by
    intro gy s hgy ⟨hl, hs⟩
    unfold scan_row scan_row_from
    obtain ⟨j, ⟨hjl, hj⟩, hcj⟩ := for_loop_indexed
      (fun gx s => decide ((gx : Int) < (gw : Int) - 3) &&
        decide ((s.face_count : Int) < max_faces))
      (fun gx s => scan_window grid (gw : Int) m gy gx s)
      (gw - 3)
      (fun gx s => (s.faces.length : Int) = max_faces ∧
        ((s.face_count = 0 ∧ (gy < fy ∨ (gy = fy ∧ gx ≤ fx))) ∨
         (1 ≤ s.face_count ∧ s.faces.getD 0 face_box_zero = window_box fy fx)))
      (by
        intro i s hc
        simp only [Bool.and_eq_true, decide_eq_true_eq] at hc
        omega)
      (by
        intro i s
        show i ≤ (scan_window grid (gw : Int) m gy i s).1
        rcases scan_window_cases grid (gw : Int) m gy i s with
          ⟨_, heq⟩ | ⟨_, heq, _⟩ | ⟨_, heq, _⟩ <;>
          first | (rw [heq]; dsimp only; omega) | rw [heq])
      (by
        intro i s hinv hc
        simp only [Bool.and_eq_true, decide_eq_true_eq] at hc
        exact hwin gy i s hgy (by omega) hc.2 hinv)
      ((gw : Int) - 3).toNat 0 s (by omega)
      ⟨hl, by
        rcases hs with ⟨h0, hle⟩ | h1
        · exact Or.inl ⟨h0, by omega⟩
        · exact Or.inr h1⟩
    refine ⟨hjl, ?_⟩
    rcases hj with ⟨h0, hpos⟩ | h1
    · left
      refine ⟨h0, ?_⟩
      simp only [Bool.and_eq_false_iff, decide_eq_false_iff_not] at hcj
      rw [h0] at hcj
      rcases hcj with hc | hc
      · omega
      · exact absurd hmax hc
    · exact Or.inr h1
  -- the loop over the rows
  unfold scan_grid scan_grid_from
  obtain ⟨j, ⟨_, hj⟩, hcj⟩ := for_loop_indexed
    (fun gy s => decide ((gy : Int) < (gh : Int) - 3) &&
      decide ((s.face_count : Int) < max_faces))
    (fun gy s => (gy, scan_row grid (gw : Int) m max_faces gy s))
    (gh - 3)
    (fun gy s => (s.faces.length : Int) = max_faces ∧
      ((s.face_count = 0 ∧ gy ≤ fy) ∨
       (1 ≤ s.face_count ∧ s.faces.getD 0 face_box_zero = window_box fy fx)))
    (by
      intro i s hc
      simp only [Bool.and_eq_true, decide_eq_true_eq] at hc
      omega)
    (by intro i s; exact Nat.le_refl i)
    (by
      intro i s hinv hc
      simp only [Bool.and_eq_true, decide_eq_true_eq] at hc
      exact hrow i s (by omega) hinv)
    ((gh : Int) - 3).toNat 0 { faces := faces0, face_count := 0, writes := [] } (by omega)
    ⟨hlen, Or.inl ⟨rfl, Nat.zero_le _⟩⟩
  rcases hj with ⟨h0, hpos⟩ | h1
  · exfalso
    simp only [Bool.and_eq_false_iff, decide_eq_false_iff_not] at hcj
    rw [h0] at hcj
    rcases hcj with hc | hc
    · omega
    · exact absurd hmax hc
  · exact h1

/-- Among the windows that satisfy a property there is a first one in the
order of the scan: rows from the top, columns from the left. -/
theorem exists_first_window (P : Nat → Nat → Prop) (h : ∃ gy gx, P gy gx) :
    ∃ fy fx, P fy fx ∧ ∀ gy gx, P gy gx → fy < gy ∨ (gy = fy ∧ fx ≤ gx) := by
  classical
  have hrow : ∃ gy, ∃ gx, P gy gx := h
  have hcol : ∃ gx, P (Nat.find hrow) gx := Nat.find_spec hrow
  refine ⟨Nat.find hrow, Nat.find hcol, Nat.find_spec hcol, ?_⟩
  intro gy gx hP
  have h1 : Nat.find hrow ≤ gy := Nat.find_min' hrow ⟨gx, hP⟩
  by_cases h2 : gy = Nat.find hrow
  · right
    refine ⟨h2, ?_⟩
    subst h2
    exact Nat.find_min' hcol hP
  · left
    omega

/-- The grid that the first part of `find_skin_regions` leaves: a cell is
marked exactly when more than 32 of its 64 pixels are skin-tone pixels. -/
theorem mark_skin_cells_mostly_skin (rgb565_data : List Nat) (width height : Nat)
    (y x : Nat) (hy : y < height / 8) (hx : x < width / 8) :
    (mark_skin_cells rgb565_data (width : Int) (height : Int)
        ((width / 8 : Nat) : Int) ((height / 8 : Nat) : Int)
        (List.replicate (width / 8 * (height / 8)) 0)).getD (y * (width / 8) + x) 0
      = if cell_mostly_skin rgb565_data (width : Int) y x = true then 1 else 0 := by
  rw [mark_skin_cells_getD rgb565_data (width : Int) (height : Int) (width / 8) (height / 8)
    y x hy hx]
  unfold cell_marked cell_mostly_skin
  rw [cell_skin_count_inside rgb565_data (width : Int) (height : Int) y x
    (by push_cast; omega) (by push_cast; omega)]
  dsimp only

/-- The window count of the code on the grid of a frame is the number of
marked cells of the window. -/
theorem cluster_count_frame (rgb565_data : List Nat) (width height : Nat) (gy gx : Nat)
    (hgy : gy + 3 < height / 8) (hgx : gx + 3 < width / 8) :
    cluster_count
        (mark_skin_cells rgb565_data (width : Int) (height : Int)
          ((width / 8 : Nat) : Int) ((height / 8 : Nat) : Int)
          (List.replicate (width / 8 * (height / 8)) 0))
        ((width / 8 : Nat) : Int) gy gx
      = window_marked_cells rgb565_data (width : Int) gy gx := by
  rw [cluster_count_eq _ (width / 8) (height / 8)
    (fun y x => cell_mostly_skin rgb565_data (width : Int) y x)
    (fun y x hy hx => mark_skin_cells_mostly_skin rgb565_data width height y x hy hx)
    gy gx hgy hgx]
  rfl

/-- The qualifying windows of a frame with one skin block on the cell grid:
the window of the block and its four neighbours, as far as they lie inside
the grid. -/
theorem window_qualifies_block (rgb565_data : List Nat) (width height cx cy : Nat)
    (hframe : skin_block_frame rgb565_data width height (8 * cx) (8 * cy)) (gy gx : Nat) :
    window_qualifies rgb565_data width height gy gx ↔
      (gx + 4 ≤ width / 8 ∧ gy + 4 ≤ height / 8 ∧
        ((gy = cy ∧ (gx = cx ∨ gx + 1 = cx ∨ gx = cx + 1)) ∨
         (gx = cx ∧ (gy + 1 = cy ∨ gy = cy + 1)))) := by
  unfold window_qualifies
  constructor
  · rintro ⟨hx, hy, h10⟩
    refine ⟨hx, hy, ?_⟩
    rw [← cluster_count_frame rgb565_data width height gy gx (by omega) (by omega)] at h10
    exact (cluster_count_block_iff _ (width / 8) (height / 8) cx cy
      (fun y x hy1 hx1 => mark_skin_cells_block rgb565_data width height cx cy hframe y x hy1 hx1)
      gy gx (by omega) (by omega)).mp h10
  · rintro ⟨hx, hy, hpos⟩
    refine ⟨hx, hy, ?_⟩
    rw [← cluster_count_frame rgb565_data width height gy gx (by omega) (by omega)]
    exact (cluster_count_block_iff _ (width / 8) (height / 8) cx cy
      (fun y x hy1 hx1 => mark_skin_cells_block rgb565_data width height cx cy hframe y x hy1 hx1)
      gy gx (by omega) (by omega)).mpr hpos

/-- The scan of `find_skin_regions` with a minimum face size of at most 32:
the count is positive exactly when some window qualifies, and index 0 then
holds the box of the first qualifying window in scan order. -/
theorem find_skin_regions_first_window (rgb565_data : List Nat) (width height : Nat)
    (m max_faces : Int) (hm : m ≤ 32) (hmax : 0 < max_faces)
    (faces0 : List face_box_t) (hlen : (faces0.length : Int) = max_faces) :
    (1 ≤ (find_skin_regions (some rgb565_data) (width : Int) (height : Int) (some faces0)
          max_faces m true).face_count ↔
      ∃ gy gx, window_qualifies rgb565_data width height gy gx) ∧
    (∀ gy gx, window_qualifies rgb565_data width height gy gx →
      (∀ gy1 gx1, window_qualifies rgb565_data width height gy1 gx1 →
        gy < gy1 ∨ (gy1 = gy ∧ gx ≤ gx1)) →
      (find_skin_regions (some rgb565_data) (width : Int) (height : Int) (some faces0)
          max_faces m true).faces.getD 0 face_box_zero = window_box gy gx) := by
  have hgw : Int.tdiv (width : Int) 8 = ((width / 8 : Nat) : Int) := by
    rw [Int.tdiv_eq_ediv (by omega)]
    · omega
    · omega
  have hgh : Int.tdiv (height : Int) 8 = ((height / 8 : Nat) : Int) := by
    rw [Int.tdiv_eq_ediv (by omega)]
    · omega
    · omega
  have hgsize : (((width / 8 : Nat) : Int) * ((height / 8 : Nat) : Int)).toNat
      = width / 8 * (height / 8) := by
    rw [← Nat.cast_mul, Int.toNat_natCast]
  have hcluster := cluster_count_frame rgb565_data width height
  have hfind : find_skin_regions (some rgb565_data) (width : Int) (height : Int) (some faces0)
        max_faces m true
      = scan_grid
          (mark_skin_cells rgb565_data (width : Int) (height : Int)
            ((width / 8 : Nat) : Int) ((height / 8 : Nat) : Int)
            (List.replicate (width / 8 * (height / 8)) 0))
          ((width / 8 : Nat) : Int) ((height / 8 : Nat) : Int) m max_faces
          { faces := faces0, face_count := 0, writes := [] } := by
    unfold find_skin_regions
    simp only [Bool.not_true, Bool.false_eq_true, if_false]
    rw [hgw, hgh, hgsize]
  have hfirst : ∀ gy gx, window_qualifies rgb565_data width height gy gx →
      (∀ gy1 gx1, window_qualifies rgb565_data width height gy1 gx1 →
        gy < gy1 ∨ (gy1 = gy ∧ gx ≤ gx1)) →
      1 ≤ (find_skin_regions (some rgb565_data) (width : Int) (height : Int) (some faces0)
          max_faces m true).face_count ∧
      (find_skin_regions (some rgb565_data) (width : Int) (height : Int) (some faces0)
          max_faces m true).faces.getD 0 face_box_zero = window_box gy gx := by
    intro gy gx hq hmin
    rw [hfind]
    obtain ⟨hx, hy, h10⟩ := hq
    apply scan_grid_first_accepted _ (width / 8) (height / 8) m max_faces gy gx
      (by omega) (by omega) hm hmax
    · rw [hcluster gy gx (by omega) (by omega)]
      exact h10
    · intro gy1 gx1 hgy1 hgx1 hc
      rw [hcluster gy1 gx1 hgy1 hgx1] at hc
      exact hmin gy1 gx1 ⟨by omega, by omega, hc⟩
    · exact hlen
  refine ⟨⟨?_, ?_⟩, fun gy gx hq hmin => (hfirst gy gx hq hmin).2⟩
  · intro hpos
    by_contra hnone
    have hzero : (find_skin_regions (some rgb565_data) (width : Int) (height : Int)
        (some faces0) max_faces m true).face_count = 0 := by
      rw [hfind, scan_grid_no_candidate]
      intro gy gx hgy hgx
      rw [hcluster gy gx (by omega) (by omega)]
      by_contra h10
      exact hnone ⟨gy, gx, by omega, by omega, by omega⟩
    omega
  · intro hex
    obtain ⟨fy, fx, hq, hmin⟩ := exists_first_window
      (fun gy gx => window_qualifies rgb565_data width height gy gx) hex
    exact (hfirst fy fx hq hmin).1

/-- C23: on an initialized detector with a minimum face size of at most 32,
for an RGB565 frame with a buffer (dimensions below 2^31, grid allocated),
`face_detector_detect` reports detected = true exactly when there is a window
position `(gx, gy)` with `gx + 4 <= width / 8` and `gy + 4 <= height / 8` in
which at least 10 of the 16 cells are marked, a cell being marked when more
than 32 of its 64 pixels satisfy the skin-tone predicate.  When one exists the
reported box is `(8 * gx, 8 * gy, 32, 32)` for the first such window in scan
order, rows from the top and columns from the left. -/
theorem detect_iff_window_qualifies (st : face_state) (fb : camera_fb_t) (data : List Nat)
    (stack : Nat → face_box_t)
    (hinit : st.s_initialized = true) (hmin : st.s_min_face_size ≤ 32)
    (hfmt : fb.format = pixformat_t.PIXFORMAT_RGB565) (hbuf : fb.buf = some data)
    (hsize : fb.width < 2 ^ 31 ∧ fb.height < 2 ^ 31) :
    ((face_detector_detect st (some fb) stack true).detected = true ↔
      ∃ gy gx, window_qualifies data fb.width fb.height gy gx) ∧
    (∀ gy gx, window_qualifies data fb.width fb.height gy gx →
      (∀ gy1 gx1, window_qualifies data fb.width fb.height gy1 gx1 →
        gy < gy1 ∨ (gy1 = gy ∧ gx ≤ gx1)) →
      (face_detector_detect st (some fb) stack true).detected = true ∧
      (face_detector_detect st (some fb) stack true).x = 8 * (gx : Int) ∧
      (face_detector_detect st (some fb) stack true).y = 8 * (gy : Int) ∧
      (face_detector_detect st (some fb) stack true).width = 32 ∧
      (face_detector_detect st (some fb) stack true).height = 32) := by
  have h := find_skin_regions_first_window data fb.width fb.height st.s_min_face_size
    ((MAX_FACES : Nat) : Int) hmin (by decide) ((List.range MAX_FACES).map stack)
    (detect_stack_length stack)
  rw [← int_of_size_t_small fb.width hsize.1, ← int_of_size_t_small fb.height hsize.2,
    ← hbuf] at h
  obtain ⟨hiff, hbox⟩ := h
  have hpos : ∀ n, (find_skin_regions fb.buf (int_of_size_t fb.width)
        (int_of_size_t fb.height) (some ((List.range MAX_FACES).map stack)) MAX_FACES
        st.s_min_face_size true).face_count = n + 1 →
      face_detector_detect st (some fb) stack true
        = { detected := true, face_count := ((n + 1 : Nat) : Int),
            x := ((find_skin_regions fb.buf (int_of_size_t fb.width)
              (int_of_size_t fb.height) (some ((List.range MAX_FACES).map stack)) MAX_FACES
              st.s_min_face_size true).faces.getD 0 face_box_zero).x,
            y := ((find_skin_regions fb.buf (int_of_size_t fb.width)
              (int_of_size_t fb.height) (some ((List.range MAX_FACES).map stack)) MAX_FACES
              st.s_min_face_size true).faces.getD 0 face_box_zero).y,
            width := ((find_skin_regions fb.buf (int_of_size_t fb.width)
              (int_of_size_t fb.height) (some ((List.range MAX_FACES).map stack)) MAX_FACES
              st.s_min_face_size true).faces.getD 0 face_box_zero).w,
            height := ((find_skin_regions fb.buf (int_of_size_t fb.width)
              (int_of_size_t fb.height) (some ((List.range MAX_FACES).map stack)) MAX_FACES
              st.s_min_face_size true).faces.getD 0 face_box_zero).h } := by
    intro n hn
    exact detect_of_count_pos st fb stack true hinit hfmt _ n hn rfl
  constructor
  · constructor
    · intro hdet
      apply hiff.mp
      by_contra hzero
      have h0 : (find_skin_regions fb.buf (int_of_size_t fb.width)
          (int_of_size_t fb.height) (some ((List.range MAX_FACES).map stack)) MAX_FACES
          st.s_min_face_size true).face_count = 0 := by omega
      rw [detect_of_count_zero st fb stack true h0] at hdet
      exact absurd hdet (by decide)
    · intro hex
      have h1 := hiff.mpr hex
      obtain ⟨n, hn⟩ : ∃ n, (find_skin_regions fb.buf (int_of_size_t fb.width)
          (int_of_size_t fb.height) (some ((List.range MAX_FACES).map stack)) MAX_FACES
          st.s_min_face_size true).face_count = n + 1 := ⟨_, (Nat.sub_add_cancel h1).symm⟩
      rw [hpos n hn]
  · intro gy gx hq hfirst
    have h1 := hiff.mpr ⟨gy, gx, hq⟩
    obtain ⟨n, hn⟩ : ∃ n, (find_skin_regions fb.buf (int_of_size_t fb.width)
        (int_of_size_t fb.height) (some ((List.range MAX_FACES).map stack)) MAX_FACES
        st.s_min_face_size true).face_count = n + 1 := ⟨_, (Nat.sub_add_cancel h1).symm⟩
    rw [hpos n hn, hbox gy gx hq hfirst]
    unfold window_box
    exact ⟨rfl, Int.mul_comm _ _, Int.mul_comm _ _, rfl, rfl⟩

/-- Witness for C23: the 48 x 48 frame with the skin block at the cell
`(1, 1)` and a minimum face size of 32; the window at column 1 of row 0
qualifies and is the first one, the reported box is `(8, 0, 32, 32)`. -/
theorem detect_iff_window_qualifies_witness :
    window_qualifies (block_frame_data 48 48 8 8) 48 48 0 1 ∧
    (face_detector_detect (detector_min_size 32) (some frame_skin_block)
        (fun _ => face_box_zero) true).detected = true ∧
    (face_detector_detect (detector_min_size 32) (some frame_skin_block)
        (fun _ => face_box_zero) true).x = 8 * ((1 : Nat) : Int) ∧
    (face_detector_detect (detector_min_size 32) (some frame_skin_block)
        (fun _ => face_box_zero) true).y = 8 * ((0 : Nat) : Int) ∧
    (face_detector_detect (detector_min_size 32) (some frame_skin_block)
        (fun _ => face_box_zero) true).width = 32 ∧
    (face_detector_detect (detector_min_size 32) (some frame_skin_block)
        (fun _ => face_box_zero) true).height = 32 :=
  ⟨(window_qualifies_block (block_frame_data 48 48 8 8) 48 48 1 1
      (block_frame_is_skin_block 48 48 8 8) 0 1).mpr (by decide),
   (detect_iff_window_qualifies (detector_min_size 32) frame_skin_block
      (block_frame_data 48 48 8 8) (fun _ => face_box_zero) rfl (by decide) rfl rfl
      ⟨by decide, by decide⟩).2 0 1
      ((window_qualifies_block (block_frame_data 48 48 8 8) 48 48 1 1
        (block_frame_is_skin_block 48 48 8 8) 0 1).mpr (by decide))
      (fun gy1 gx1 hq => by
        have h := (window_qualifies_block (block_frame_data 48 48 8 8) 48 48 1 1
          (block_frame_is_skin_block 48 48 8 8) gy1 gx1).mp hq
        omega)⟩

/-! ## Array accesses of find_skin_regions -/

theorem index_below_product (a b n m : Nat) (ha : a < n) (hb : b < m) : a * m + b < n * m := by
  have h1 : (a + 1) * m ≤ n * m := Nat.mul_le_mul_right m (by omega)
  have h2 : (a + 1) * m = a * m + m := by ring
  omega

/-- A checked read inside the array returns the element that the unchecked
read returns. -/
theorem read_at_inside (buf : List Nat) (i : Int) (h0 : 0 ≤ i) (h1 : i < (buf.length : Int)) :
    read_at buf i = some (buf.getD i.toNat 0) := by
  unfold read_at
  rw [if_pos ⟨h0, h1⟩]
  have hi : i.toNat < buf.length := by omega
  rw [List.getElem?_eq_getElem hi, List.getD_eq_getElem _ _ hi]

/-- A checked read or store that succeeds was made inside the array. -/
theorem checked_access_inside (buf : List Nat) (i : Int) :
    (∀ v, read_at buf i = some v → 0 ≤ i ∧ i < (buf.length : Int)) ∧
    (∀ v out, write_at buf i v = some out → 0 ≤ i ∧ i < (buf.length : Int)) := by
  constructor
  · intro v h
    unfold read_at at h
    by_cases hc : 0 ≤ i ∧ i < (buf.length : Int)
    · exact hc
    · rw [if_neg hc] at h
      exact absurd h (by simp)
  · intro v out h
    unfold write_at at h
    by_cases hc : 0 ≤ i ∧ i < (buf.length : Int)
    · exact hc
    · rw [if_neg hc] at h
      exact absurd h (by simp)

/-- A loop over a list whose checked body succeeds at every step and agrees
with the unchecked body succeeds and agrees with the unchecked loop. -/
theorem foldl_checked {α β : Type} (f : α → β → α) (fc : Option α → β → Option α)
    (inv : α → Prop) (l : List β) :
    ∀ a : α, inv a →
      (∀ b ∈ l, ∀ a, inv a → fc (some a) b = some (f a b) ∧ inv (f a b)) →
      l.foldl fc (some a) = some (l.foldl f a) ∧ inv (l.foldl f a) := by
  induction l with
  | nil => intro a ha _; exact ⟨rfl, ha⟩
  | cons b l ih =>
    intro a ha hstep
    rw [List.foldl_cons, List.foldl_cons, (hstep b (List.mem_cons_self b l) a ha).1]
    apply ih
    · exact (hstep b (List.mem_cons_self b l) a ha).2
    · intro b1 hb1 a1 ha1
      exact hstep b1 (List.mem_cons_of_mem b hb1) a1 ha1

/-- A `for` loop whose checked body succeeds and agrees with the unchecked body
whenever the loop condition holds succeeds and agrees with the unchecked
loop. -/
theorem for_loop_checked {σ : Type} (cond : Nat → σ → Bool) (body : Nat → σ → Nat × σ)
    (condc : Nat → Option σ → Bool) (bodyc : Nat → Option σ → Nat × Option σ)
    (hcond : ∀ i s, condc i (some s) = cond i s)
    (hbody : ∀ i s, cond i s = true → bodyc i (some s) = ((body i s).1, some (body i s).2)) :
    ∀ (fuel i : Nat) (s : σ),
      for_loop condc bodyc fuel i (some s) = some (for_loop cond body fuel i s) := by
  intro fuel
  induction fuel with
  | zero => intro i s; rfl
  | succ n ih =>
    intro i s
    rw [for_loop_succ, for_loop_succ, hcond]
    by_cases hc : cond i s = true
    · rw [if_pos hc, if_pos hc, hbody i s hc]
      exact ih _ _
    · rw [if_neg hc, if_neg hc]

/-- With a buffer of at least `2 * width * height` bytes the checked cell
loops succeed and count what the unchecked loops count. -/
theorem cell_skin_count_checked_eq (rgb565_data : List Nat) (width height : Nat)
    (gy gx : Nat) (hlen : 2 * width * height ≤ rgb565_data.length) :
    cell_skin_count_checked rgb565_data (width : Int) (height : Int) gy gx
      = some (cell_skin_count rgb565_data (width : Int) (height : Int) gy gx) := by
  unfold cell_skin_count_checked cell_skin_count
  refine (foldl_checked _ _ (fun _ => True) _ (0, 0) trivial ?_).1
  intro y hy acc _
  refine ⟨?_, trivial⟩
  have hy1 := List.mem_takeWhile_imp hy
  simp only [decide_eq_true_eq] at hy1
  refine (foldl_checked _ _ (fun _ => True) _ acc trivial ?_).1
  intro x hx acc1 _
  refine ⟨?_, trivial⟩
  have hx1 := List.mem_takeWhile_imp hx
  simp only [decide_eq_true_eq] at hx1
  have hlt := index_below_product y x height width (by omega) (by omega)
  have hprod : 2 * width * height = 2 * (height * width) := by ring
  have hcast : ((y : Int) * (width : Int) + (x : Int)) = ((y * width + x : Nat) : Int) := by
    push_cast
    ring
  rw [hcast]
  rw [read_at_inside rgb565_data _ (by omega) (by omega),
    read_at_inside rgb565_data _ (by omega) (by omega)]
  unfold rgb565_pixel_at
  rw [hcast]
  have e1 : (((y * width + x : Nat) : Int) * 2 + 1).toNat
      = (((y * width + x : Nat) : Int) * 2).toNat + 1 := by omega
  rw [e1]

/-- A checked store inside the array stores what the unchecked store does. -/
theorem write_at_inside (buf : List Nat) (i : Int) (v : Nat) (h0 : 0 ≤ i)
    (h1 : i < (buf.length : Int)) : write_at buf i v = some (buf.set i.toNat v) := by
  unfold write_at
  rw [if_pos ⟨h0, h1⟩]

/-- With a buffer of at least `2 * width * height` bytes and a grid of
`grid_w * grid_h` cells the checked first part succeeds and leaves the grid
that the unchecked first part leaves; the grid keeps its size. -/
theorem mark_skin_cells_checked_eq (rgb565_data : List Nat) (width height gw gh : Nat)
    (grid : List Nat) (hlen : 2 * width * height ≤ rgb565_data.length)
    (hgrid : grid.length = gw * gh) :
    mark_skin_cells_checked rgb565_data (width : Int) (height : Int) (gw : Int) (gh : Int) grid
      = some (mark_skin_cells rgb565_data (width : Int) (height : Int) (gw : Int) (gh : Int)
          grid) ∧
    (mark_skin_cells rgb565_data (width : Int) (height : Int) (gw : Int) (gh : Int)
      grid).length = gw * gh := by
  unfold mark_skin_cells_checked mark_skin_cells
  refine foldl_checked _ _ (fun g => g.length = gw * gh) _ grid hgrid ?_
  intro gy hgy g hg
  rw [Int.toNat_natCast, List.mem_range] at hgy
  refine foldl_checked _ _ (fun g => g.length = gw * gh) _ g hg ?_
  intro gx hgx g1 hg1
  rw [Int.toNat_natCast, List.mem_range] at hgx
  rw [cell_skin_count_checked_eq rgb565_data width height gy gx hlen]
  have hlt := index_below_product gy gx gh gw hgy hgx
  have hprod : gw * gh = gh * gw := Nat.mul_comm _ _
  have hcast : ((gy : Int) * (gw : Int) + (gx : Int)) = ((gy * gw + gx : Nat) : Int) := by
    push_cast
    ring
  dsimp only
  by_cases hm : (cell_skin_count rgb565_data (width : Int) (height : Int) gy gx).2 / 2
      < (cell_skin_count rgb565_data (width : Int) (height : Int) gy gx).1
  · rw [if_pos hm, if_pos hm, hcast, write_at_inside g1 _ 1 (by omega) (by omega)]
    exact ⟨rfl, by rw [List.length_set]; exact hg1⟩
  · rw [if_neg hm, if_neg hm]
    exact ⟨rfl, hg1⟩

/-- At a window inside a grid of `grid_w * grid_h` cells the checked window
count succeeds and is the unchecked window count. -/
theorem cluster_count_checked_eq (grid : List Nat) (gw gh : Nat) (gy gx : Nat)
    (hgrid : grid.length = gw * gh)
    (hgy : (gy : Int) < (gh : Int) - 3) (hgx : (gx : Int) < (gw : Int) - 3) :
    cluster_count_checked grid (gw : Int) gy gx = some (cluster_count grid (gw : Int) gy gx) := by
  unfold cluster_count_checked cluster_count
  refine (foldl_checked _ _ (fun _ => True) _ 0 trivial ?_).1
  intro dy hdy c _
  rw [List.mem_range] at hdy
  refine ⟨?_, trivial⟩
  refine (foldl_checked _ _ (fun _ => True) _ c trivial ?_).1
  intro dx hdx c1 _
  rw [List.mem_range] at hdx
  refine ⟨?_, trivial⟩
  have hlt := index_below_product (gy + dy) (gx + dx) gh gw (by omega) (by omega)
  have hprod : gw * gh = gh * gw := Nat.mul_comm _ _
  have hcast : (((gy + dy : Nat) : Int) * (gw : Int) + (gx : Int) + (dx : Int))
      = (((gy + dy) * gw + (gx + dx) : Nat) : Int) := by
    push_cast
    ring
  rw [hcast, read_at_inside grid _ (by omega) (by omega)]

/-- At a window inside the grid the checked window step succeeds and is the
unchecked window step. -/
theorem scan_window_checked_eq (grid : List Nat) (gw gh : Nat) (min_face_size : Int)
    (gy gx : Nat) (s : scan_state) (hgrid : grid.length = gw * gh)
    (hgy : (gy : Int) < (gh : Int) - 3) (hgx : (gx : Int) < (gw : Int) - 3) :
    scan_window_checked grid (gw : Int) min_face_size gy gx s
      = some (scan_window grid (gw : Int) min_face_size gy gx s) := by
  unfold scan_window_checked scan_window
  rw [cluster_count_checked_eq grid gw gh gy gx hgrid hgy hgx]

/-- On a grid of `grid_w * grid_h` cells the checked scan succeeds and is the
unchecked scan. -/
theorem scan_grid_checked_eq (grid : List Nat) (gw gh : Nat) (min_face_size max_faces : Int)
    (s : scan_state) (hgrid : grid.length = gw * gh) :
    scan_grid_checked grid (gw : Int) (gh : Int) min_face_size max_faces s
      = some (scan_grid grid (gw : Int) (gh : Int) min_face_size max_faces s) := by
  unfold scan_grid_checked scan_grid scan_grid_from
  apply for_loop_checked
  · intro gy s1
    rfl
  · intro gy s1 hc
    simp only [Bool.and_eq_true, decide_eq_true_eq] at hc
    dsimp only
    unfold scan_row_checked scan_row scan_row_from
    rw [for_loop_checked
      (fun gx s => decide ((gx : Int) < (gw : Int) - 3) &&
        decide ((s.face_count : Int) < max_faces))
      (fun gx s => scan_window grid (gw : Int) min_face_size gy gx s)]
    · intro gx s2
      rfl
    · intro gx s2 hc2
      simp only [Bool.and_eq_true, decide_eq_true_eq] at hc2
      dsimp only
      rw [scan_window_checked_eq grid gw gh min_face_size gy gx s2 hgrid hc.1 hc2.1]

/-- With a buffer of at least `2 * width * height` bytes every checked access
of `find_skin_regions` succeeds, and the checked function returns what
`find_skin_regions` returns. -/
theorem find_skin_regions_checked_eq (rgb565_data : List Nat) (width height : Nat)
    (faces : Option (List face_box_t)) (max_faces min_face_size : Int) (grid_allocated : Bool)
    (hlen : 2 * width * height ≤ rgb565_data.length) :
    find_skin_regions_checked (some rgb565_data) (width : Int) (height : Int) faces max_faces
        min_face_size grid_allocated
      = some (find_skin_regions (some rgb565_data) (width : Int) (height : Int) faces
          max_faces min_face_size grid_allocated) := by
  have hgw : Int.tdiv (width : Int) 8 = ((width / 8 : Nat) : Int) := by
    rw [Int.tdiv_eq_ediv (by omega)]
    · omega
    · omega
  have hgh : Int.tdiv (height : Int) 8 = ((height / 8 : Nat) : Int) := by
    rw [Int.tdiv_eq_ediv (by omega)]
    · omega
    · omega
  have hgsize : (((width / 8 : Nat) : Int) * ((height / 8 : Nat) : Int)).toNat
      = width / 8 * (height / 8) := by
    rw [← Nat.cast_mul, Int.toNat_natCast]
  unfold find_skin_regions_checked find_skin_regions
  cases faces with
  | none => rfl
  | some faces0 =>
    cases grid_allocated
    · rfl
    · simp only [Bool.not_true, Bool.false_eq_true, if_false]
      rw [hgw, hgh, hgsize]
      obtain ⟨hmark, hmlen⟩ := mark_skin_cells_checked_eq rgb565_data width height
        (width / 8) (height / 8) (List.replicate (width / 8 * (height / 8)) 0) hlen (by simp)
      rw [hmark]
      exact scan_grid_checked_eq _ _ _ _ _ _ hmlen

theorem block_frame_data_length (width height block_x block_y : Nat) :
    (block_frame_data width height block_x block_y).length = width * height * 2 := by
  unfold block_frame_data
  simp

/-- C27: for a frame of width w and height h (index arithmetic within `int`)
whose buffer holds at least `2 * w * h` bytes, `find_skin_regions` run with
every read of `rgb565_data` and every read of and store to `grid` checked
against the bounds of the array never fails and returns what
`find_skin_regions` returns: every pixel read lies inside the buffer and every
grid access inside the allocated grid.  Every accepted candidate box lies
inside the frame: x and y are non-negative multiples of 8 with `x + 32 <= w`
and `y + 32 <= h`; the same holds for the box that `face_detector_detect`
reports. -/
theorem find_skin_regions_stays_in_bounds (st : face_state) (fb : camera_fb_t)
    (data : List Nat) (stack : Nat → face_box_t) (grid_allocated : Bool)
    (hbuf : fb.buf = some data)
    (hsize : fb.width < 2 ^ 31 ∧ fb.height < 2 ^ 31)
    (_harea : 2 * fb.width * fb.height < 2 ^ 31)
    (hlen : 2 * fb.width * fb.height ≤ data.length) :
    find_skin_regions_checked fb.buf (int_of_size_t fb.width) (int_of_size_t fb.height)
        (some ((List.range MAX_FACES).map stack)) MAX_FACES st.s_min_face_size grid_allocated
      = some (find_skin_regions fb.buf (int_of_size_t fb.width) (int_of_size_t fb.height)
          (some ((List.range MAX_FACES).map stack)) MAX_FACES st.s_min_face_size
          grid_allocated) ∧
    (∀ (buf : List Nat) (i : Int),
      (∀ v, read_at buf i = some v → 0 ≤ i ∧ i < (buf.length : Int)) ∧
      (∀ v out, write_at buf i v = some out → 0 ≤ i ∧ i < (buf.length : Int))) ∧
    (∀ i, i < (find_skin_regions fb.buf (int_of_size_t fb.width)
          (int_of_size_t fb.height) (some ((List.range MAX_FACES).map stack)) MAX_FACES
          st.s_min_face_size grid_allocated).face_count →
      0 ≤ ((find_skin_regions fb.buf (int_of_size_t fb.width)
          (int_of_size_t fb.height) (some ((List.range MAX_FACES).map stack)) MAX_FACES
          st.s_min_face_size grid_allocated).faces.getD i face_box_zero).x ∧
      0 ≤ ((find_skin_regions fb.buf (int_of_size_t fb.width)
          (int_of_size_t fb.height) (some ((List.range MAX_FACES).map stack)) MAX_FACES
          st.s_min_face_size grid_allocated).faces.getD i face_box_zero).y ∧
      ((find_skin_regions fb.buf (int_of_size_t fb.width)
          (int_of_size_t fb.height) (some ((List.range MAX_FACES).map stack)) MAX_FACES
          st.s_min_face_size grid_allocated).faces.getD i face_box_zero).x % 8 = 0 ∧
      ((find_skin_regions fb.buf (int_of_size_t fb.width)
          (int_of_size_t fb.height) (some ((List.range MAX_FACES).map stack)) MAX_FACES
          st.s_min_face_size grid_allocated).faces.getD i face_box_zero).y % 8 = 0 ∧
      ((find_skin_regions fb.buf (int_of_size_t fb.width)
          (int_of_size_t fb.height) (some ((List.range MAX_FACES).map stack)) MAX_FACES
          st.s_min_face_size grid_allocated).faces.getD i face_box_zero).x + 32
        ≤ (fb.width : Int) ∧
      ((find_skin_regions fb.buf (int_of_size_t fb.width)
          (int_of_size_t fb.height) (some ((List.range MAX_FACES).map stack)) MAX_FACES
          st.s_min_face_size grid_allocated).faces.getD i face_box_zero).y + 32
        ≤ (fb.height : Int)) ∧
    ((face_detector_detect st (some fb) stack grid_allocated).detected = true →
      0 ≤ (face_detector_detect st (some fb) stack grid_allocated).x ∧
      0 ≤ (face_detector_detect st (some fb) stack grid_allocated).y ∧
      (face_detector_detect st (some fb) stack grid_allocated).x % 8 = 0 ∧
      (face_detector_detect st (some fb) stack grid_allocated).y % 8 = 0 ∧
      (face_detector_detect st (some fb) stack grid_allocated).x + 32 ≤ (fb.width : Int) ∧
      (face_detector_detect st (some fb) stack grid_allocated).y + 32 ≤ (fb.height : Int)) := by
  have hgw : Int.tdiv (fb.width : Int) 8 = ((fb.width / 8 : Nat) : Int) := by
    rw [Int.tdiv_eq_ediv (by omega)]
    · omega
    · omega
  have hgh : Int.tdiv (fb.height : Int) 8 = ((fb.height / 8 : Nat) : Int) := by
    rw [Int.tdiv_eq_ediv (by omega)]
    · omega
    · omega
  have hboxes : ∀ i, i < (find_skin_regions fb.buf (int_of_size_t fb.width)
        (int_of_size_t fb.height) (some ((List.range MAX_FACES).map stack)) MAX_FACES
        st.s_min_face_size grid_allocated).face_count →
      0 ≤ ((find_skin_regions fb.buf (int_of_size_t fb.width)
        (int_of_size_t fb.height) (some ((List.range MAX_FACES).map stack)) MAX_FACES
        st.s_min_face_size grid_allocated).faces.getD i face_box_zero).x ∧
      0 ≤ ((find_skin_regions fb.buf (int_of_size_t fb.width)
        (int_of_size_t fb.height) (some ((List.range MAX_FACES).map stack)) MAX_FACES
        st.s_min_face_size grid_allocated).faces.getD i face_box_zero).y ∧
      ((find_skin_regions fb.buf (int_of_size_t fb.width)
        (int_of_size_t fb.height) (some ((List.range MAX_FACES).map stack)) MAX_FACES
        st.s_min_face_size grid_allocated).faces.getD i face_box_zero).x % 8 = 0 ∧
      ((find_skin_regions fb.buf (int_of_size_t fb.width)
        (int_of_size_t fb.height) (some ((List.range MAX_FACES).map stack)) MAX_FACES
        st.s_min_face_size grid_allocated).faces.getD i face_box_zero).y % 8 = 0 ∧
      ((find_skin_regions fb.buf (int_of_size_t fb.width)
        (int_of_size_t fb.height) (some ((List.range MAX_FACES).map stack)) MAX_FACES
        st.s_min_face_size grid_allocated).faces.getD i face_box_zero).x + 32
          ≤ (fb.width : Int) ∧
      ((find_skin_regions fb.buf (int_of_size_t fb.width)
        (int_of_size_t fb.height) (some ((List.range MAX_FACES).map stack)) MAX_FACES
        st.s_min_face_size grid_allocated).faces.getD i face_box_zero).y + 32
          ≤ (fb.height : Int) := by
    intro i hi
    have hinv := find_skin_regions_invariant fb.buf (int_of_size_t fb.width)
      (int_of_size_t fb.height) ((List.range MAX_FACES).map stack) MAX_FACES
      st.s_min_face_size grid_allocated (detect_stack_length stack)
    obtain ⟨gy, gx, hbox, hgy, hgx⟩ := hinv.2.2.2.1 i hi
    rw [hbox]
    rw [int_of_size_t_small fb.height hsize.2, hgh] at hgy
    rw [int_of_size_t_small fb.width hsize.1, hgw] at hgx
    unfold window_box
    dsimp only
    omega
  refine ⟨?_, fun buf i => checked_access_inside buf i, hboxes, ?_⟩
  · rw [int_of_size_t_small fb.width hsize.1, int_of_size_t_small fb.height hsize.2, hbuf]
    exact find_skin_regions_checked_eq data fb.width fb.height _ _ _ grid_allocated hlen
  · intro hdet
    by_cases hinit : st.s_initialized = true
    · by_cases hfmt : fb.format = pixformat_t.PIXFORMAT_RGB565
      · cases hc : (find_skin_regions fb.buf (int_of_size_t fb.width)
            (int_of_size_t fb.height) (some ((List.range MAX_FACES).map stack)) MAX_FACES
            st.s_min_face_size grid_allocated).face_count with
        | zero =>
          rw [detect_of_count_zero st fb stack grid_allocated hc] at hdet
          exact absurd hdet (by decide)
        | succ n =>
          rw [detect_of_count_pos st fb stack grid_allocated hinit hfmt _ n hc rfl]
          exact hboxes 0 (by omega)
      · have hnone : face_detector_detect st (some fb) stack grid_allocated
            = { detected := false, face_count := 0, x := 0, y := 0, width := 0, height := 0 } := by
          unfold face_detector_detect
          simp [hfmt]
        rw [hnone] at hdet
        exact absurd hdet (by decide)
    · have hnone : face_detector_detect st (some fb) stack grid_allocated
          = { detected := false, face_count := 0, x := 0, y := 0, width := 0, height := 0 } := by
        unfold face_detector_detect
        simp [hinit]
      rw [hnone] at hdet
      exact absurd hdet (by decide)


/-- Witness for C27: on the 48 x 48 frame with the skin block, whose buffer
holds `2 * 48 * 48` bytes, the checked run succeeds; on an 8 x 1 frame whose
buffer is one byte short the checked cell count fails at the last pixel, and
on a 6 x 6 grid that is one cell short the checked count of the window at
row 2, column 2 fails. -/
theorem find_skin_regions_stays_in_bounds_witness :
    2 * frame_skin_block.width * frame_skin_block.height
      ≤ (block_frame_data 48 48 8 8).length ∧
    find_skin_regions_checked frame_skin_block.buf
        (int_of_size_t frame_skin_block.width) (int_of_size_t frame_skin_block.height)
        (some ((List.range MAX_FACES).map (fun _ => face_box_zero))) MAX_FACES
        (detector_min_size 32).s_min_face_size true
      = some (find_skin_regions frame_skin_block.buf
          (int_of_size_t frame_skin_block.width) (int_of_size_t frame_skin_block.height)
          (some ((List.range MAX_FACES).map (fun _ => face_box_zero))) MAX_FACES
          (detector_min_size 32).s_min_face_size true) ∧
    cell_skin_count_checked (List.replicate 15 0) 8 1 0 0 = none ∧
    cluster_count_checked (List.replicate 35 1) 6 2 2 = none :=
  ⟨by rw [block_frame_data_length]; decide,
   (find_skin_regions_stays_in_bounds (detector_min_size 32) frame_skin_block
      (block_frame_data 48 48 8 8) (fun _ => face_box_zero) true rfl
      ⟨by decide, by decide⟩ (by decide)
      (by rw [block_frame_data_length]; decide)).1,
   by decide, by decide⟩

/-! ## Frames without motion and without skin-tone pixels -/

theorem foldl_set_idem (f : Nat → Nat) (dst : List Nat) (n : Nat) :
    (List.range n).foldl (fun gray i => gray.set i (f i))
        ((List.range n).foldl (fun gray i => gray.set i (f i)) dst)
      = (List.range n).foldl (fun gray i => gray.set i (f i)) dst := by
  apply List.ext_getElem
  · rw [foldl_set_length, foldl_set_length]
  · intro j h1 h2
    have hlen := foldl_set_length f dst n
    have e1 := foldl_set_getD f ((List.range n).foldl (fun gray i => gray.set i (f i)) dst) n j
    have e2 := foldl_set_getD f dst n j
    rw [List.getD_eq_getElem _ _ h1] at e1
    rw [List.getD_eq_getElem _ _ h2] at e2 e1
    rw [e1, e2]
    by_cases hj : j < n
    · have h3 : j < dst.length := by omega
      simp [hj, h2, h3]
    · simp [hj]

theorem foldl_set_bytes (f : Nat → Nat) (dst : List Nat) (n : Nat) (hf : ∀ i, f i < 256)
    (hdst : ∀ x ∈ dst, x < 256) :
    ∀ x ∈ (List.range n).foldl (fun gray i => gray.set i (f i)) dst, x < 256 := by
  intro x hx
  obtain ⟨j, hj, hxj⟩ := List.getElem_of_mem hx
  have e := foldl_set_getD f dst n j
  rw [List.getD_eq_getElem _ _ hj, hxj] at e
  rw [e]
  split
  · exact hf j
  · have hlen := foldl_set_length f dst n
    have hj2 : j < dst.length := by omega
    rw [List.getD_eq_getElem _ _ hj2]
    exact hdst _ (List.getElem_mem hj2)

/-- A successful `rgb565_to_grayscale` call stores, at each index below the
pixel count, a byte that depends on the input only. -/
theorem grayscale_store_values (src : List Nat) (rgb565_size size : Nat)
    (h : ¬ size < rgb565_size / 2) :
    ∃ f : Nat → Nat, (∀ i, f i < 256) ∧
      ∀ dst : List Nat, rgb565_to_grayscale (some src) rgb565_size (some dst) size
        = (esp_err_t.ESP_OK,
            some ((List.range (rgb565_size / 2)).foldl (fun gray i => gray.set i (f i)) dst)) := by
  refine ⟨fun i =>
    let pixel := ((src.getD (i * 2 + 1) 0 <<< 8) ||| src.getD (i * 2) 0) % 2 ^ 16
    let r := ((pixel >>> 11) &&& 0x1F) % 256
    let g := ((pixel >>> 5) &&& 0x3F) % 256
    let b := (pixel &&& 0x1F) % 256
    let r8 := ((r <<< 3) ||| (r >>> 2)) % 256
    let g8 := ((g <<< 2) ||| (g >>> 4)) % 256
    let b8 := ((b <<< 3) ||| (b >>> 2)) % 256
    ((r8 * 77 + g8 * 150 + b8 * 29) >>> 8) % 256, ?_, ?_⟩
  · intro i
    exact Nat.mod_lt _ (by decide)
  · intro dst
    unfold rgb565_to_grayscale
    simp only [if_neg h]

theorem malloc_bytes (size : Nat) (heap : Option (Nat → Nat)) (b : List Nat)
    (h : malloc size heap = some b) : ∀ x ∈ b, x < 256 := by
  unfold malloc at h
  cases heap with
  | none => simp at h
  | some junk =>
    simp only [Option.map_some', Option.some.injEq] at h
    subst h
    intro x hx
    simp only [List.mem_map] at hx
    obtain ⟨i, _, hi⟩ := hx
    omega

/-- Zero does not reach a change threshold that was converted from a positive
integer. -/
theorem float32_zero_below_positive (z : Int) (hz : 0 < z) :
    float32_ge float32_zero (float32_of_int z) = false := by
  have h1 : float32_of_int z = float32_of_nat z.natAbs := by
    unfold float32_of_int float32_of_nat
    rw [show decide (z < 0) = false from by simp; omega]
  rw [h1]
  rcases float32_of_nat_pos z.natAbs (by omega) with h | ⟨m, e, hm, h⟩
  · rw [h]
    rfl
  · rw [h]
    unfold float32_ge float32_zero
    simp only [decide_eq_false_iff_not, if_false, Bool.false_eq_true]
    have : 0 < m * 2 ^ (e - -149).toNat := Nat.mul_pos (by omega) (Nat.two_pow_pos _)
    simp only [Nat.zero_mul, Nat.cast_zero, mul_zero, one_mul]
    omega

/-- One iteration of the detection loop on an RGB565 frame for which the face
detector reports nothing, when the motion part ends without a detection. -/
theorem iteration_without_detection (cfg : sdkconfig) (st : detection_state)
    (fb : camera_fb_t) (jpg : frame2jpg_result)
    (hfmt : fb.format = pixformat_t.PIXFORMAT_RGB565)
    (henable : cfg.CONFIG_ENABLE_MOTION_DETECTION = true)
    (code : esp_err_t) (out : List Nat) (mst : motion_state) (res : motion_result_t)
    (hconv : rgb565_to_grayscale fb.buf fb.len (some st.gray_buffer) gray_size
      = (code, some out))
    (hproc : motion_detector_process st.motion (some out) gray_size = (mst, res)) :
    (code = esp_err_t.ESP_OK → res.detected = false →
      detection_task_iteration cfg st (some fb) false jpg
        = ({ motion := mst, gray_buffer := out, queue := st.queue },
           [effect.camera_manager_return_fb fb,
            effect.vTaskDelay cfg.CONFIG_DETECTION_INTERVAL_MS])) ∧
    (code ≠ esp_err_t.ESP_OK →
      detection_task_iteration cfg st (some fb) false jpg
        = ({ motion := st.motion, gray_buffer := out, queue := st.queue },
           [effect.camera_manager_return_fb fb,
            effect.vTaskDelay cfg.CONFIG_DETECTION_INTERVAL_MS])) := by
  constructor
  · intro hok hres
    unfold detection_task_iteration detection_task_handle
    simp [hfmt, henable, hconv, hproc, hok, hres]
  · intro hbad
    unfold detection_task_iteration detection_task_handle
    simp [hfmt, henable, hconv, hbad]

/-- One iteration on an RGB565 frame, in a quiet state and with nothing
reported by the face detector: the only calls are the frame return and the
delay, the queue is untouched, and the state is quiet again. -/
theorem quiet_iteration (cfg : sdkconfig) (st : detection_state) (fb : camera_fb_t)
    (jpg : frame2jpg_result) (hfmt : fb.format = pixformat_t.PIXFORMAT_RGB565)
    (hq : cfg.CONFIG_ENABLE_MOTION_DETECTION = true → quiet_state fb st) :
    (detection_task_iteration cfg st (some fb) false jpg).2
      = [effect.camera_manager_return_fb fb,
         effect.vTaskDelay cfg.CONFIG_DETECTION_INTERVAL_MS] ∧
    (detection_task_iteration cfg st (some fb) false jpg).1.queue = st.queue ∧
    (cfg.CONFIG_ENABLE_MOTION_DETECTION = true →
      quiet_state fb (detection_task_iteration cfg st (some fb) false jpg).1) := by
  by_cases henable : cfg.CONFIG_ENABLE_MOTION_DETECTION = true
  swap
  · have hit : detection_task_iteration cfg st (some fb) false jpg
        = (st, [effect.camera_manager_return_fb fb,
                effect.vTaskDelay cfg.CONFIG_DETECTION_INTERVAL_MS]) := by
      unfold detection_task_iteration detection_task_handle
      simp [henable]
    rw [hit]
    exact ⟨rfl, rfl, fun h => absurd h henable⟩
  obtain ⟨hlen, hbytes, hthr, hchg, hprev⟩ := hq henable
  -- the conversion leaves the buffer alone or stores the luminance of the frame
  have hconv : ∃ code out,
      rgb565_to_grayscale fb.buf fb.len (some st.gray_buffer) gray_size = (code, some out) ∧
      out.length = gray_size ∧ (∀ x ∈ out, x < 256) ∧
      (code ≠ esp_err_t.ESP_OK → out = st.gray_buffer) ∧
      rgb565_to_grayscale fb.buf fb.len (some out) gray_size = (code, some out) := by
    cases hb : fb.buf with
    | none => exact ⟨esp_err_t.ESP_ERR_INVALID_ARG, st.gray_buffer, rfl, hlen, hbytes,
        fun _ => rfl, rfl⟩
    | some src =>
      by_cases hs : gray_size < fb.len / 2
      · refine ⟨esp_err_t.ESP_ERR_INVALID_SIZE, st.gray_buffer, ?_, hlen, hbytes,
          fun _ => rfl, ?_⟩ <;>
        · unfold rgb565_to_grayscale
          simp only [if_pos hs]
      · obtain ⟨f, hf, hall⟩ := grayscale_store_values src fb.len gray_size hs
        refine ⟨esp_err_t.ESP_OK, _, hall st.gray_buffer, ?_, ?_, fun h => absurd rfl h, ?_⟩
        · rw [foldl_set_length]
          exact hlen
        · exact foldl_set_bytes f _ _ hf hbytes
        · rw [hall, foldl_set_idem]
  obtain ⟨code, out, hc, holen, hobytes, hsame, hfix⟩ := hconv
  by_cases hok : code = esp_err_t.ESP_OK
  swap
  · -- no comparison takes place
    have hit := (iteration_without_detection cfg st fb jpg hfmt henable code out _ _ hc rfl).2 hok
    rw [hit]
    refine ⟨rfl, rfl, fun _ => ?_⟩
    have ho := hsame hok
    subst ho
    exact ⟨hlen, hbytes, hthr, hchg, hprev⟩
  -- the comparison
  cases hp : st.motion.s_prev_frame with
  | none =>
    have hproc : motion_detector_process st.motion (some out) gray_size
        = (st.motion, motion_result_none) := by
      unfold motion_detector_process
      simp only [hp]
    have hit := (iteration_without_detection cfg st fb jpg hfmt henable code out _ _ hc hproc).1
      hok rfl
    rw [hit]
    refine ⟨rfl, rfl, fun _ => ⟨holen, hobytes, hthr, hchg, ?_⟩⟩
    intro prev hprev2
    dsimp only at hprev2
    rw [hp] at hprev2
    exact absurd hprev2 (by simp)
  | some prev =>
    obtain ⟨hfs, hplen, hbase⟩ := hprev prev hp
    by_cases hb : st.motion.s_has_baseline = true
    · -- the sample equals the baseline
      obtain ⟨hpg, hfixed⟩ := hbase hb
      have hout : out = st.gray_buffer := by
        rw [hc] at hfixed
        exact Option.some.inj hfixed
      subst hout
      subst hpg
      have hproc := process_same_frame st.motion st.gray_buffer gray_size hp hb hfs.symm
        hbytes hthr
      rw [percentage_of_zero_changed gray_size (by decide)] at hproc
      have hit := (iteration_without_detection cfg st fb jpg hfmt henable code st.gray_buffer
        _ _ hc hproc).1 hok hchg
      rw [hit]
      exact ⟨rfl, rfl, fun _ => ⟨hlen, hbytes, hthr, hchg, hprev⟩⟩
    · -- the sample becomes the baseline
      have hproc : motion_detector_process st.motion (some out) gray_size
          = ({ st.motion with s_prev_frame := some out, s_has_baseline := true },
              motion_result_none) := by
        unfold motion_detector_process
        simp only [hp, hfs, ne_eq, not_true_eq_false, if_false, hb, Bool.not_false, if_true]
        rw [← holen, memcpy_full prev out (by omega)]
      have hit := (iteration_without_detection cfg st fb jpg hfmt henable code out _ _ hc
        hproc).1 hok rfl
      rw [hit]
      refine ⟨rfl, rfl, fun _ => ⟨holen, hobytes, hthr, hchg, ?_⟩⟩
      intro prev2 hprev2
      dsimp only at hprev2
      have hp2 : prev2 = out := (Option.some.inj hprev2).symm
      subst hp2
      refine ⟨hfs, holen, fun _ => ⟨rfl, ?_⟩⟩
      dsimp only
      rw [hfix]

/-- The state in which the detection task enters its loop is quiet for every
frame, when the configured pixel threshold is not negative and the configured
change threshold is positive. -/
theorem quiet_start (cfg : sdkconfig) (motion : motion_state)
    (gray_psram gray_ram motion_psram motion_ram : Option (Nat → Nat)) (q : queue_t)
    (fb : camera_fb_t) (st0 : detection_state)
    (hthr : 0 ≤ cfg.CONFIG_MOTION_THRESHOLD) (hchg : 0 < cfg.CONFIG_MOTION_PIXEL_THRESHOLD)
    (hstart : detection_task_start cfg motion gray_psram gray_ram motion_psram motion_ram q
      = some st0) :
    st0.queue = q ∧ (cfg.CONFIG_ENABLE_MOTION_DETECTION = true → quiet_state fb st0) := by
  unfold detection_task_start at hstart
  have hgray : ∃ buf, (match malloc gray_size gray_psram with
      | some b => some b
      | none => malloc gray_size gray_ram) = some buf ∧ buf.length = gray_size ∧
      (∀ x ∈ buf, x < 256) := by
    cases h1 : malloc gray_size gray_psram with
    | some b => exact ⟨b, rfl, malloc_length _ _ _ h1, malloc_bytes _ _ _ h1⟩
    | none =>
      cases h2 : malloc gray_size gray_ram with
      | some b => exact ⟨b, rfl, malloc_length _ _ _ h2, malloc_bytes _ _ _ h2⟩
      | none => simp [h1, h2] at hstart
  obtain ⟨buf, hbuf, hblen, hbbytes⟩ := hgray
  simp only [hbuf, Option.some.injEq] at hstart
  subst hstart
  refine ⟨rfl, fun henable => ?_⟩
  rw [if_pos henable]
  have hsz : size_t_of_int (320 * 240) = gray_size := by decide
  unfold motion_detector_init
  simp only [hsz]
  cases h1 : malloc gray_size motion_psram with
  | some b =>
    refine ⟨hblen, hbbytes, hthr, float32_zero_below_positive _ hchg, ?_⟩
    intro prev hprev
    dsimp only at hprev
    have hb : prev = b := (Option.some.inj hprev).symm
    subst hb
    exact ⟨rfl, malloc_length _ _ _ h1, fun hbase => absurd hbase (by simp)⟩
  | none =>
    cases h2 : malloc gray_size motion_ram with
    | some b =>
      refine ⟨hblen, hbbytes, hthr, float32_zero_below_positive _ hchg, ?_⟩
      intro prev hprev
      dsimp only at hprev
      have hb : prev = b := (Option.some.inj hprev).symm
      subst hb
      exact ⟨rfl, malloc_length _ _ _ h2, fun hbase => absurd hbase (by simp)⟩
    | none =>
      refine ⟨hblen, hbbytes, hthr, float32_zero_below_positive _ hchg, ?_⟩
      intro prev hprev
      dsimp only at hprev
      exact absurd hprev (by simp)

/-- A run of the loop over captures of one RGB565 frame, from a quiet state and
with a face detector that reports nothing for the frame: every iteration only
returns the frame and waits, and the queue is never touched. -/
theorem quiet_loop (cfg : sdkconfig) (face : face_state) (fb : camera_fb_t)
    (hfmt : fb.format = pixformat_t.PIXFORMAT_RGB565)
    (hface : ∀ (stack : Nat → face_box_t) (grid_allocated : Bool),
      (face_detector_detect face (some fb) stack grid_allocated).detected = false) :
    ∀ (inputs : List detection_input) (st : detection_state),
      (∀ i ∈ inputs, i.capture = some fb) →
      (cfg.CONFIG_ENABLE_MOTION_DETECTION = true → quiet_state fb st) →
      (detection_task_loop cfg face st inputs).1.queue = st.queue ∧
      (detection_task_loop cfg face st inputs).2
        = inputs.flatMap (fun _ =>
            [effect.camera_manager_return_fb fb,
             effect.vTaskDelay cfg.CONFIG_DETECTION_INTERVAL_MS]) := by
  intro inputs
  induction inputs with
  | nil => intro st _ _; exact ⟨rfl, rfl⟩
  | cons i rest ih =>
    intro st hcap hq
    have hi : i.capture = some fb := hcap i (List.mem_cons_self _ _)
    have hrest : ∀ j ∈ rest, j.capture = some fb :=
      fun j hj => hcap j (List.mem_cons_of_mem _ hj)
    unfold detection_task_loop
    rw [hi, hface i.stack i.grid_allocated]
    obtain ⟨htrace, hqueue, hquiet⟩ := quiet_iteration cfg st fb i.jpg hfmt hq
    obtain ⟨h1, h2⟩ := ih (detection_task_iteration cfg st (some fb) false i.jpg).1 hrest hquiet
    refine ⟨?_, ?_⟩
    · dsimp only
      rw [h1, hqueue]
    · dsimp only
      rw [h2, htrace, List.flatMap_cons]

/-- C21: the loop of `detection_task`, entered with a freshly initialized
motion detector whose pixel threshold is not negative and whose change
threshold is positive, and run on captures of one and the same RGB565 frame
without a skin-tone pixel (any number of captures, so also 5), makes no
`xQueueSend` call: each iteration only returns the frame and waits.  The queue
that `app_main` created is still empty afterwards, so `xQueueReceive` in the
notification task has nothing to deliver and no message is sent. -/
theorem quiet_frames_enqueue_nothing (cfg : sdkconfig) (face : face_state)
    (motion : motion_state)
    (gray_psram gray_ram motion_psram motion_ram : Option (Nat → Nat))
    (fb : camera_fb_t) (inputs : List detection_input) (st0 : detection_state)
    (hthr : 0 ≤ cfg.CONFIG_MOTION_THRESHOLD) (hchg : 0 < cfg.CONFIG_MOTION_PIXEL_THRESHOLD)
    (hstart : detection_task_start cfg motion gray_psram gray_ram motion_psram motion_ram
      s_detection_queue_created = some st0)
    (hfmt : fb.format = pixformat_t.PIXFORMAT_RGB565)
    (hnone : ∀ data, fb.buf = some data → ∀ y x : Nat, y < fb.height → x < fb.width →
      is_skin_tone_rgb565 (rgb565_pixel_at data (int_of_size_t fb.width) y x) = false)
    (hsame : ∀ i ∈ inputs, i.capture = some fb) :
    (detection_task_loop cfg face st0 inputs).2.filter effect.is_queue_send = [] ∧
    (detection_task_loop cfg face st0 inputs).2.filter effect.is_send = [] ∧
    (detection_task_loop cfg face st0 inputs).2
      = inputs.flatMap (fun _ =>
          [effect.camera_manager_return_fb fb,
           effect.vTaskDelay cfg.CONFIG_DETECTION_INTERVAL_MS]) ∧
    (detection_task_loop cfg face st0 inputs).1.queue = s_detection_queue_created ∧
    xQueueReceive (detection_task_loop cfg face st0 inputs).1.queue = none := by
  have hface : ∀ (stack : Nat → face_box_t) (grid_allocated : Bool),
      (face_detector_detect face (some fb) stack grid_allocated).detected = false := by
    intro stack grid_allocated
    have hz : (find_skin_regions fb.buf (int_of_size_t fb.width) (int_of_size_t fb.height)
        (some ((List.range MAX_FACES).map stack)) MAX_FACES face.s_min_face_size
        grid_allocated).face_count = 0 := by
      apply find_skin_regions_no_skin
      intro data hdata y x hy hx
      have h1 := int_of_size_t_le fb.height
      have h2 := int_of_size_t_le fb.width
      exact hnone data hdata y x (by omega) (by omega)
    rw [detect_of_count_zero face fb stack grid_allocated hz]
  obtain ⟨hq0, hquiet⟩ := quiet_start cfg motion gray_psram gray_ram motion_psram motion_ram
    s_detection_queue_created fb st0 hthr hchg hstart
  obtain ⟨hqueue, htrace⟩ := quiet_loop cfg face fb hfmt hface inputs st0 hsame hquiet
  have hfilter : ∀ (p : effect → Bool) (l : List detection_input),
      p (effect.camera_manager_return_fb fb) = false →
      p (effect.vTaskDelay cfg.CONFIG_DETECTION_INTERVAL_MS) = false →
      (l.flatMap (fun _ =>
          [effect.camera_manager_return_fb fb,
           effect.vTaskDelay cfg.CONFIG_DETECTION_INTERVAL_MS])).filter p = [] := by
    intro p l h1 h2
    induction l with
    | nil => rfl
    | cons a l ih =>
      rw [List.flatMap_cons, List.filter_append, ih]
      simp [h1, h2]
  refine ⟨?_, ?_, htrace, ?_, ?_⟩
  · rw [htrace]
    exact hfilter _ _ rfl rfl
  · rw [htrace]
    exact hfilter _ _ rfl rfl
  · rw [hqueue, hq0]
  · rw [hqueue, hq0]
    rfl

/-- Witness for C21: five captures of the all-black 8 x 8 frame under the
default configuration (pixel threshold 15, change threshold 5), from the state
in which the task enters its loop. -/
theorem quiet_frames_enqueue_nothing_witness :
    detection_task_start config_default motion_state_boot (some (fun _ => 0)) none
        (some (fun _ => 0)) none s_detection_queue_created = some detection_state_fresh ∧
    five_dark_frames.length = 5 ∧
    (detection_task_loop config_default (face_detector_init face_state_boot).1
        detection_state_fresh five_dark_frames).2.filter effect.is_queue_send = [] ∧
    xQueueReceive (detection_task_loop config_default (face_detector_init face_state_boot).1
        detection_state_fresh five_dark_frames).1.queue = none :=
  ⟨rfl, rfl,
   (quiet_frames_enqueue_nothing config_default (face_detector_init face_state_boot).1
      motion_state_boot (some (fun _ => 0)) none (some (fun _ => 0)) none frame_dark
      five_dark_frames detection_state_fresh (by decide) (by decide) rfl rfl
      (by
        intro data hdata y x _ _
        have hd : data = List.replicate 128 0 := by
          have : frame_dark.buf = some (List.replicate 128 0) := rfl
          rw [this] at hdata
          exact (Option.some.inj hdata).symm
        rw [hd, dark_pixel]
        decide)
      (by
        intro i hi
        rw [five_dark_frames, List.mem_replicate] at hi
        rw [hi.2])).1,
   (quiet_frames_enqueue_nothing config_default (face_detector_init face_state_boot).1
      motion_state_boot (some (fun _ => 0)) none (some (fun _ => 0)) none frame_dark
      five_dark_frames detection_state_fresh (by decide) (by decide) rfl rfl
      (by
        intro data hdata y x _ _
        have hd : data = List.replicate 128 0 := by
          have : frame_dark.buf = some (List.replicate 128 0) := rfl
          rw [this] at hdata
          exact (Option.some.inj hdata).symm
        rw [hd, dark_pixel]
        decide)
      (by
        intro i hi
        rw [five_dark_frames, List.mem_replicate] at hi
        rw [hi.2])).2.2.2.2⟩

end Esp32Cam
